import Mathlib

/-! # N-Body simulator: bodies, spatial grid and the simulation step

A shallow embedding of `src/particle.c` / `src/particle.h`, of `random_float`
(`src/utils.c`) and of the creation and placement of bodies in `src/main.c`.

Modelling conventions.

* `float` values are exact rationals (`ℚ`): rounding, infinities and NaN are
  not modelled, so every arithmetic identity below is an identity of exact
  arithmetic.
* `sqrtf` comes from libm, not from this program; it is a parameter
  `sqrtf : ℚ → ℚ` of every function that calls it, and a theorem that needs a
  property of it states that property as a hypothesis at the arguments used.
* A `Particle*` always points into the `particles` array, so pointers are
  indices and the array is a `Store` (`ℕ → Particle`).  Functions that take
  pointers are written as sequences of reads and writes of the store, in
  source order, so that two pointers to the same body behave as in C.
* `int` values are mathematical integers.  The conversion `(int) f` truncates
  toward zero when the truncated value lies in `[INT_MIN, INT_MAX]`; outside
  that range C leaves the conversion undefined, and the model returns
  `INT_MIN`, the value the x86-64 conversion instruction produces.
  `(Uint8) f` converts in the same way and keeps the low eight bits.
* The function-local `static` grid of `update_particles` is explicit state
  (`GridStatic`) that the step receives and returns.
* `malloc` and `rand` belong to the C library: the block `malloc` returns and
  the values `rand()` returns are parameters; the size of the allocated block
  is kept as ghost data next to the array.
-/

namespace NBody

/-! ## Constants and data model (particle.h) -/

/-- Gravitational constant: `#define G 6.67430e-2`. -/
def G : ℚ := 667430 / 10000000

/-- Number of cells per axis: `#define GRID_SIZE 8`. -/
def GRID_SIZE : Nat := 8

/-- Capacity of a cell: `#define MAX_PARTICLES_PER_CELL 50`. -/
def MAX_PARTICLES_PER_CELL : Nat := 50

/-- The four `Uint8` channels of an `SDL_Color`. -/
structure SDL_Color where
  r : Nat
  g : Nat
  b : Nat
  a : Nat
deriving DecidableEq, Repr

/-- The `Particle` struct. `active` is the `int` flag (only 0 and 1 are stored). -/
structure Particle where
  x : ℚ
  y : ℚ
  vx : ℚ
  vy : ℚ
  mass : ℚ
  radius : ℚ
  color : SDL_Color
  active : Bool
deriving DecidableEq, Repr

/-- The `GridCell` struct: the `particleIndices` array (slots `0 .. 49`) and `count`. -/
structure GridCell where
  particleIndices : Nat → Nat
  count : Nat

/-- The `SpatialGrid` struct; `cells row col` is `cells[row][col]`. -/
structure SpatialGrid where
  cells : Nat → Nat → GridCell
  width : Int
  height : Int
  cellWidth : ℚ
  cellHeight : ℚ

/-- The `particles` array, addressed by index. -/
abbrev Store := Nat → Particle

/-- Write through a pointer: replace the body at index `p` by `f` of it. -/
def Store.modify (mem : Store) (p : Nat) (f : Particle → Particle) : Store :=
  Function.update mem p (f (mem p))

/-! ## C conversions and helpers -/

/-- Smallest value of a 32-bit `int`. -/
def INT_MIN : Int := -2147483648

/-- Largest value of a 32-bit `int`. -/
def INT_MAX : Int := 2147483647

/-- The integral part of `f`: rounding toward zero. -/
def trunc_toward_zero (f : ℚ) : Int := if 0 ≤ f then ⌊f⌋ else -⌊-f⌋

/-- The conversion `(int) f`: the integral part of `f` when it lies in
`[INT_MIN, INT_MAX]`.  Outside that range the conversion overflows (undefined
in C); the x86-64 instruction then yields `INT_MIN`, which is what is
returned here. -/
def c_int (f : ℚ) : Int :=
  if INT_MIN ≤ trunc_toward_zero f ∧ trunc_toward_zero f ≤ INT_MAX then trunc_toward_zero f
  else INT_MIN

/-- The conversion `(Uint8) f`: convert as `(int) f`, keep the low eight bits. -/
def c_uint8 (f : ℚ) : Nat := (c_int f % 256).toNat

/-- Helper `max_int`. -/
def max_int (a b : Int) : Int := if a > b then a else b

/-- Helper `min_int`. -/
def min_int (a b : Int) : Int := if a < b then a else b

/-- The values `lo, lo+1, ..., hi` of a loop `for (n = lo; n <= hi; n++)`. -/
def int_range (lo hi : Int) : List Int :=
  (List.range (hi + 1 - lo).toNat).map (fun (k : Nat) => lo + (k : Int))

/-! ## Body operations (particle.c) -/

/-- `calculate_radius`: `2.0f + sqrtf(mass) * 2.0f`. -/
def calculate_radius (sqrtf : ℚ → ℚ) (mass : ℚ) : ℚ := 2 + sqrtf mass * 2

/-- `apply_gravity(p1, p2, dt)`. -/
def apply_gravity (sqrtf : ℚ → ℚ) (mem : Store) (p1 p2 : Nat) (dt : ℚ) : Store :=
  if !(mem p1).active || !(mem p2).active then mem
  else
    let dx := (mem p2).x - (mem p1).x
    let dy := (mem p2).y - (mem p1).y
    let distance_sq := dx * dx + dy * dy
    let distance_sq := if distance_sq < 1 then 1 else distance_sq
    let distance := sqrtf distance_sq
    let force_magnitude := G * (mem p1).mass * (mem p2).mass / distance_sq
    let force_x := force_magnitude * dx / distance
    let force_y := force_magnitude * dy / distance
    let mem := mem.modify p1 (fun q => { q with vx := q.vx + force_x / q.mass * dt })
    let mem := mem.modify p1 (fun q => { q with vy := q.vy + force_y / q.mass * dt })
    let mem := mem.modify p2 (fun q => { q with vx := q.vx - force_x / q.mass * dt })
    let mem := mem.modify p2 (fun q => { q with vy := q.vy - force_y / q.mass * dt })
    mem

/-- The local `distance_sq` of `apply_gravity` as first computed: `dx*dx + dy*dy`. -/
def separation_sq (mem : Store) (p1 p2 : Nat) : ℚ :=
  ((mem p2).x - (mem p1).x) * ((mem p2).x - (mem p1).x) +
    ((mem p2).y - (mem p1).y) * ((mem p2).y - (mem p1).y)

/-- The local `distance_sq` of `apply_gravity` after
`if (distance_sq < 1.0f) distance_sq = 1.0f`. -/
def floored_distance_sq (mem : Store) (p1 p2 : Nat) : ℚ :=
  if separation_sq mem p1 p2 < 1 then 1 else separation_sq mem p1 p2

/-- The local `force_x` of `apply_gravity`. -/
def force_x (sqrtf : ℚ → ℚ) (mem : Store) (p1 p2 : Nat) : ℚ :=
  G * (mem p1).mass * (mem p2).mass / floored_distance_sq mem p1 p2 *
    ((mem p2).x - (mem p1).x) / sqrtf (floored_distance_sq mem p1 p2)

/-- The local `force_y` of `apply_gravity`. -/
def force_y (sqrtf : ℚ → ℚ) (mem : Store) (p1 p2 : Nat) : ℚ :=
  G * (mem p1).mass * (mem p2).mass / floored_distance_sq mem p1 p2 *
    ((mem p2).y - (mem p1).y) / sqrtf (floored_distance_sq mem p1 p2)

/-- `check_collision(p1, p2)`. -/
def check_collision (mem : Store) (p1 p2 : Nat) : Bool :=
  if !(mem p1).active || !(mem p2).active then false
  else
    let dx := (mem p2).x - (mem p1).x
    let dy := (mem p2).y - (mem p1).y
    let distance_sq := dx * dx + dy * dy
    let radii_sum := (mem p1).radius + (mem p2).radius
    decide (distance_sq ≤ radii_sum * radii_sum)

/-- `merge_particles(p1, p2)`. -/
def merge_particles (sqrtf : ℚ → ℚ) (mem : Store) (p1 p2 : Nat) : Store :=
  let swap := decide ((mem p1).mass < (mem p2).mass)
  let temp := p1
  let p1 := if swap then p2 else p1
  let p2 := if swap then temp else p2
  let total_mass := (mem p1).mass + (mem p2).mass
  let mem := mem.modify p1 (fun q =>
    { q with vx := (q.vx * q.mass + (mem p2).vx * (mem p2).mass) / total_mass })
  let mem := mem.modify p1 (fun q =>
    { q with vy := (q.vy * q.mass + (mem p2).vy * (mem p2).mass) / total_mass })
  let mem := mem.modify p1 (fun q => { q with mass := total_mass })
  let mem := mem.modify p1 (fun q => { q with radius := calculate_radius sqrtf total_mass })
  let r := c_uint8 (128 + (mem p1).mass / 100 * 127)
  let g := c_uint8 (192 - (mem p1).mass / 100 * 128)
  let b := c_uint8 (255 - (mem p1).mass / 100 * 128)
  let r := if r > 255 then 255 else r
  let mem := mem.modify p1 (fun q => { q with color := { q.color with r := r } })
  let mem := mem.modify p1 (fun q => { q with color := { q.color with g := g } })
  let mem := mem.modify p1 (fun q => { q with color := { q.color with b := b } })
  mem.modify p2 (fun q => { q with active := false })

/-- `update_particle(p, dt)`; `p` is never `NULL` in this program. -/
def update_particle (mem : Store) (p : Nat) (dt : ℚ) : Store :=
  if (mem p).active then
    let mem := mem.modify p (fun q => { q with x := q.x + q.vx * dt })
    let mem := mem.modify p (fun q => { q with y := q.y + q.vy * dt })
    let mem :=
      if (mem p).x - (mem p).radius < 0 then
        let mem := mem.modify p (fun q => { q with x := q.radius })
        mem.modify p (fun q => { q with vx := -q.vx * (8 / 10) })
      else if (mem p).x + (mem p).radius > 800 then
        let mem := mem.modify p (fun q => { q with x := 800 - q.radius })
        mem.modify p (fun q => { q with vx := -q.vx * (8 / 10) })
      else mem
    let mem :=
      if (mem p).y - (mem p).radius < 0 then
        let mem := mem.modify p (fun q => { q with y := q.radius })
        mem.modify p (fun q => { q with vy := -q.vy * (8 / 10) })
      else if (mem p).y + (mem p).radius > 600 then
        let mem := mem.modify p (fun q => { q with y := 600 - q.radius })
        mem.modify p (fun q => { q with vy := -q.vy * (8 / 10) })
      else mem
    mem
  else mem

/-! ## Spatial grid (particle.c) -/

/-- The assignment `grid->cells[i][j].count = c`. -/
def set_count (grid : SpatialGrid) (i j : Nat) (c : Nat) : SpatialGrid :=
  let cell : GridCell := { particleIndices := (grid.cells i j).particleIndices, count := c }
  let row := Function.update (grid.cells i) j cell
  { grid with cells := Function.update grid.cells i row }

/-- `clear_grid(grid)`: the two nested loops over `GRID_SIZE`. -/
def clear_grid (grid : SpatialGrid) : SpatialGrid :=
  (List.range GRID_SIZE).foldl
    (fun grid i => (List.range GRID_SIZE).foldl (fun grid j => set_count grid i j 0) grid) grid

/-- `init_grid(grid, width, height)`. -/
def init_grid (grid : SpatialGrid) (width height : Int) : SpatialGrid :=
  let grid := { grid with width := width }
  let grid := { grid with height := height }
  let grid := { grid with cellWidth := (width : ℚ) / GRID_SIZE }
  let grid := { grid with cellHeight := (height : ℚ) / GRID_SIZE }
  clear_grid grid

/-- The clamping of a cell coordinate in `add_particle_to_grid`:
`if (c < 0) c = 0; if (c >= GRID_SIZE) c = GRID_SIZE - 1;`. -/
def clamp_cell (c : Int) : Int :=
  let c := if c < 0 then 0 else c
  if c ≥ GRID_SIZE then GRID_SIZE - 1 else c

/-- The column `cellX` that `add_particle_to_grid` computes for a body. -/
def cell_x (grid : SpatialGrid) (p : Particle) : Int :=
  clamp_cell (c_int (p.x / grid.cellWidth))

/-- The row `cellY` that `add_particle_to_grid` computes for a body. -/
def cell_y (grid : SpatialGrid) (p : Particle) : Int :=
  clamp_cell (c_int (p.y / grid.cellHeight))

/-- `add_particle_to_grid(grid, particles, index)`. -/
def add_particle_to_grid (grid : SpatialGrid) (particles : Store) (index : Nat) : SpatialGrid :=
  if !(particles index).active then grid
  else
    let cellX := cell_x grid (particles index)
    let cellY := cell_y grid (particles index)
    let cell := grid.cells cellY.toNat cellX.toNat
    if cell.count < MAX_PARTICLES_PER_CELL then
      let cell' : GridCell :=
        { particleIndices := Function.update cell.particleIndices cell.count index,
          count := cell.count + 1 }
      let row := Function.update (grid.cells cellY.toNat) cellX.toNat cell'
      { grid with cells := Function.update grid.cells cellY.toNat row }
    else grid

/-- The indices a cell holds: slots `0 .. count - 1` of `particleIndices`. -/
def GridCell.members (cell : GridCell) : List Nat :=
  (List.range cell.count).map cell.particleIndices

/-- The indices held by all `GRID_SIZE x GRID_SIZE` cells, in row-major order. -/
def SpatialGrid.members (grid : SpatialGrid) : List Nat :=
  (List.range GRID_SIZE).flatMap
    (fun i => (List.range GRID_SIZE).flatMap (fun j => (grid.cells i j).members))

/-- The indices `i < count` of the active bodies, in increasing order. -/
def active_indices (particles : Store) (count : Nat) : List Nat :=
  (List.range count).filter (fun i => (particles i).active)

/-- The active bodies `i < count` that `add_particle_to_grid` sends to cell
`cells[row][col]`, in increasing order. -/
def bodies_of_cell (grid : SpatialGrid) (particles : Store) (count : Nat) (row col : Nat) :
    List Nat :=
  (List.range count).filter
    (fun i => (particles i).active && decide ((cell_y grid (particles i)).toNat = row) &&
      decide ((cell_x grid (particles i)).toNat = col))

/-- The owning cell coordinate in the words of the specification:
`floor(position / cellSize)`, clamped into `[0, GRID_SIZE - 1]`. -/
def spec_cell_coord (position cellSize : ℚ) : Int :=
  max 0 (min ((GRID_SIZE : Int) - 1) ⌊position / cellSize⌋)

/-! ## The simulation step (particle.c, `update_particles`) -/

/-- The function-local statics of `update_particles`. -/
structure GridStatic where
  grid : SpatialGrid
  gridInitialized : Bool

/-- The zero-initialised statics at program start. -/
def GridStatic.initial : GridStatic :=
  { grid :=
      { cells := fun _ _ => { particleIndices := fun _ => 0, count := 0 },
        width := 0, height := 0, cellWidth := 0, cellHeight := 0 },
    gridInitialized := false }

/-- The `clear_grid` call of `update_particles` and the loop after it, which adds
every active body `i < count` to the grid. -/
def fill_grid (grid : SpatialGrid) (particles : Store) (count : Nat) : SpatialGrid :=
  let grid := clear_grid grid
  (List.range count).foldl
    (fun grid i => if (particles i).active then add_particle_to_grid grid particles i else grid)
    grid

/-- The body shared by both inner loops: gravity, then merge on collision. -/
def interact (sqrtf : ℚ → ℚ) (particles : Store) (p1Index p2Index : Nat) (dt : ℚ) : Store :=
  if !(particles p2Index).active then particles
  else
    let particles := apply_gravity sqrtf particles p1Index p2Index dt
    if check_collision particles p1Index p2Index then
      merge_particles sqrtf particles p1Index p2Index
    else particles

/-- The loop `for (j = i + 1; j < currentCell->count; j++)`. -/
def same_cell_loop (sqrtf : ℚ → ℚ) (currentCell : GridCell) (i : Nat) (p1Index : Nat)
    (dt : ℚ) (particles : Store) : Store :=
  (List.range' (i + 1) (currentCell.count - (i + 1))).foldl
    (fun particles j => interact sqrtf particles p1Index (currentCell.particleIndices j) dt)
    particles

/-- The two loops over the neighbouring cells `nCellY`, `nCellX`. -/
def neighbor_loop (sqrtf : ℚ → ℚ) (grid : SpatialGrid) (cellY cellX : Nat) (p1Index : Nat)
    (dt : ℚ) (particles : Store) : Store :=
  (int_range (max_int 0 ((cellY : Int) - 1)) (min_int ((GRID_SIZE : Int) - 1) (cellY + 1))).foldl
    (fun particles nCellY =>
      (int_range (max_int 0 ((cellX : Int) - 1))
          (min_int ((GRID_SIZE : Int) - 1) (cellX + 1))).foldl
        (fun particles nCellX =>
          if nCellY = (cellY : Int) ∧ nCellX = (cellX : Int) then particles
          else
            let neighborCell := grid.cells nCellY.toNat nCellX.toNat
            (List.range neighborCell.count).foldl
              (fun particles j =>
                interact sqrtf particles p1Index (neighborCell.particleIndices j) dt)
              particles)
        particles)
    particles

/-- The loop over the members `i` of the current cell. -/
def cell_loop (sqrtf : ℚ → ℚ) (grid : SpatialGrid) (cellY cellX : Nat) (dt : ℚ)
    (particles : Store) : Store :=
  let currentCell := grid.cells cellY cellX
  (List.range currentCell.count).foldl
    (fun particles i =>
      let p1Index := currentCell.particleIndices i
      if !(particles p1Index).active then particles
      else
        let particles := same_cell_loop sqrtf currentCell i p1Index dt particles
        let particles := neighbor_loop sqrtf grid cellY cellX p1Index dt particles
        update_particle particles p1Index dt)
    particles

/-- Second phase of `update_particles`: the loops over `cellY`, `cellX`. -/
def update_particles_pairs (sqrtf : ℚ → ℚ) (grid : SpatialGrid) (particles : Store)
    (dt : ℚ) : Store :=
  (List.range GRID_SIZE).foldl
    (fun particles cellY =>
      (List.range GRID_SIZE).foldl
        (fun particles cellX => cell_loop sqrtf grid cellY cellX dt particles)
        particles)
    particles

/-- `update_particles(particles, count, dt)`, with the statics threaded through:
lazy `init_grid`, filling of the grid, then the loops over the cells. -/
def update_particles (sqrtf : ℚ → ℚ) (st : GridStatic) (particles : Store) (count : Nat)
    (dt : ℚ) : GridStatic × Store :=
  let st : GridStatic :=
    if !st.gridInitialized then { grid := init_grid st.grid 800 600, gridInitialized := true }
    else st
  let grid := fill_grid st.grid particles count
  ({ st with grid := grid }, update_particles_pairs sqrtf grid particles dt)

/-- A colour channel in the words of the specification: the affine value
clamped to `[0, 255]`, truncated to an integer. -/
def spec_color_channel (v : ℚ) : Nat := ⌊max 0 (min 255 v)⌋.toNat

/-! ## Creation and placement of bodies (particle.c, utils.c, main.c) -/

/-- Ceiling on the number of bodies: `#define MAX_PARTICLES 500` (main.c). -/
def MAX_PARTICLES : Nat := 500

/-- `random_float(min, max)` of utils.c, for the value `r` that the call of
`rand()` returns (converted to `float`) and the constant `RAND_MAX`. -/
def random_float (RAND_MAX r min max : ℚ) : ℚ := min + r / (RAND_MAX / (max - min))

/-- One round `i` of the loop of `create_particles`; `rand k` is the result of
the `k`-th call of `rand()`, five calls per body. -/
def create_particles_round (sqrtf : ℚ → ℚ) (RAND_MAX : ℚ) (rand : Nat → ℚ) (particles : Store)
    (i : Nat) : Store :=
  let mass := random_float RAND_MAX (rand (5 * i)) 10 100
  let x := random_float RAND_MAX (rand (5 * i + 1)) 50 750
  let y := random_float RAND_MAX (rand (5 * i + 2)) 50 550
  let vx := random_float RAND_MAX (rand (5 * i + 3)) (-1) 1
  let vy := random_float RAND_MAX (rand (5 * i + 4)) (-1) 1
  let r := c_uint8 (128 + mass / 100 * 127)
  let g := c_uint8 (192 - mass / 100 * 128)
  let b := c_uint8 (255 - mass / 100 * 128)
  Function.update particles i
    { x := x, y := y, vx := vx, vy := vy, mass := mass, radius := calculate_radius sqrtf mass,
      color := { r := r, g := g, b := b, a := 255 }, active := true }

/-- What `create_particles` returns: the array and, as ghost data, the number of
`Particle` objects in the block that `malloc` gave it. -/
structure Allocation where
  particles : Store
  allocated : Nat

/-- `create_particles(count)`. `malloc n` is the block obtained for `n` bodies
(`none` for `NULL`); the store it yields also stands for the memory behind the
block. -/
def create_particles (sqrtf : ℚ → ℚ) (malloc : Nat → Option Store) (RAND_MAX : ℚ)
    (rand : Nat → ℚ) (count : Nat) : Option Allocation :=
  match malloc count with
  | none => none
  | some block =>
    some { particles := (List.range count).foldl
             (create_particles_round sqrtf RAND_MAX rand) block,
           allocated := count }

/-- The variables of `main` that the placement of a body reads and writes;
`allocated` is the ghost size of the block `particles` points to. -/
structure MainState where
  particles : Store
  allocated : Nat
  particleCount : Nat
  activeCount : Nat
  placementMass : ℚ
  mouseX : Int
  mouseY : Int

/-- The state of `main` when it enters its loop: `create_particles(100)`,
`placementMass = 50`, `activeCount = particleCount = 100`. -/
def main_startup (sqrtf : ℚ → ℚ) (malloc : Nat → Option Store) (RAND_MAX : ℚ)
    (rand : Nat → ℚ) : Option MainState :=
  match create_particles sqrtf malloc RAND_MAX rand 100 with
  | none => none
  | some a =>
    some { particles := a.particles, allocated := a.allocated, particleCount := 100,
           activeCount := 100, placementMass := 50, mouseX := 0, mouseY := 0 }

/-- The search loop of the left-button handler: `newIndex` is the first
inactive slot below `particleCount`, or `-1`. -/
def find_inactive_slot (particles : Store) (particleCount : Nat) : Int :=
  match (List.range particleCount).find? (fun i => !(particles i).active) with
  | some i => (i : Int)
  | none => -1

/-- The slot `newIndex` the handler settles on, and `particleCount` afterwards:
the search loop, then `if (newIndex == -1 && particleCount < MAX_PARTICLES)
newIndex = particleCount++`. -/
def placement_slot (s : MainState) : Int × Nat :=
  let newIndex := find_inactive_slot s.particles s.particleCount
  if newIndex = -1 ∧ s.particleCount < MAX_PARTICLES then
    ((s.particleCount : Int), s.particleCount + 1)
  else (newIndex, s.particleCount)

/-- The `SDL_MOUSEBUTTONUP` handler of `main` for the left button; `r1`, `r2`
are the results of the two calls of `rand()`. -/
def left_button_up (sqrtf : ℚ → ℚ) (RAND_MAX r1 r2 : ℚ) (s : MainState) : MainState :=
  if s.activeCount < MAX_PARTICLES then
    let slot := placement_slot s
    let newIndex := slot.1
    let s : MainState := { s with particleCount := slot.2 }
    if newIndex ≠ -1 then
      let vx := random_float RAND_MAX r1 (-1 / 2) (1 / 2)
      let vy := random_float RAND_MAX r2 (-1 / 2) (1 / 2)
      let r := c_uint8 (128 + s.placementMass / 100 * 127)
      let g := c_uint8 (192 - s.placementMass / 100 * 128)
      let b := c_uint8 (255 - s.placementMass / 100 * 128)
      let particles := Function.update s.particles newIndex.toNat
        { x := (s.mouseX : ℚ), y := (s.mouseY : ℚ), vx := vx, vy := vy,
          mass := s.placementMass, radius := calculate_radius sqrtf s.placementMass,
          color := { r := r, g := g, b := b, a := 255 }, active := true }
      { s with particles := particles, activeCount := s.activeCount + 1 }
    else s
  else s

/-- The lazy initialisation at the top of `update_particles`:
`if (!gridInitialized) { init_grid(&grid, 800, 600); gridInitialized = 1; }`. -/
def lazy_init (st : GridStatic) : GridStatic :=
  if !st.gridInitialized then { grid := init_grid st.grid 800 600, gridInitialized := true }
  else st

/-! ## The step with a record of its merges -/

/-- The sum of the masses of the active bodies `i < count`. -/
def active_mass (particles : Store) (count : Nat) : ℚ :=
  Finset.sum (Finset.range count)
    (fun i => if (particles i).active then (particles i).mass else 0)

/-- A recorded call `merge_particles(p1, p2)`: the two indices and the active
flags of the two bodies at the moment of the call. -/
structure MergeCall where
  p1 : Nat
  p2 : Nat
  active1 : Bool
  active2 : Bool

/-- `interact` carrying, as ghost state, the list of the calls of
`merge_particles` made so far. -/
def interact_traced (sqrtf : ℚ → ℚ) (t : Store × List MergeCall) (p1Index p2Index : Nat)
    (dt : ℚ) : Store × List MergeCall :=
  if !(t.1 p2Index).active then t
  else
    let particles := apply_gravity sqrtf t.1 p1Index p2Index dt
    if check_collision particles p1Index p2Index then
      (merge_particles sqrtf particles p1Index p2Index,
        t.2 ++ [{ p1 := p1Index, p2 := p2Index, active1 := (particles p1Index).active,
                  active2 := (particles p2Index).active }])
    else (particles, t.2)

/-- `same_cell_loop` with the record of merges. -/
def same_cell_loop_traced (sqrtf : ℚ → ℚ) (currentCell : GridCell) (i : Nat) (p1Index : Nat)
    (dt : ℚ) (t : Store × List MergeCall) : Store × List MergeCall :=
  (List.range' (i + 1) (currentCell.count - (i + 1))).foldl
    (fun t j => interact_traced sqrtf t p1Index (currentCell.particleIndices j) dt) t

/-- `neighbor_loop` with the record of merges. -/
def neighbor_loop_traced (sqrtf : ℚ → ℚ) (grid : SpatialGrid) (cellY cellX : Nat)
    (p1Index : Nat) (dt : ℚ) (t : Store × List MergeCall) : Store × List MergeCall :=
  (int_range (max_int 0 ((cellY : Int) - 1)) (min_int ((GRID_SIZE : Int) - 1) (cellY + 1))).foldl
    (fun t nCellY =>
      (int_range (max_int 0 ((cellX : Int) - 1))
          (min_int ((GRID_SIZE : Int) - 1) (cellX + 1))).foldl
        (fun t nCellX =>
          if nCellY = (cellY : Int) ∧ nCellX = (cellX : Int) then t
          else
            let neighborCell := grid.cells nCellY.toNat nCellX.toNat
            (List.range neighborCell.count).foldl
              (fun t j => interact_traced sqrtf t p1Index (neighborCell.particleIndices j) dt)
              t)
        t)
    t

/-- `cell_loop` with the record of merges. -/
def cell_loop_traced (sqrtf : ℚ → ℚ) (grid : SpatialGrid) (cellY cellX : Nat) (dt : ℚ)
    (t : Store × List MergeCall) : Store × List MergeCall :=
  let currentCell := grid.cells cellY cellX
  (List.range currentCell.count).foldl
    (fun t i =>
      let p1Index := currentCell.particleIndices i
      if !(t.1 p1Index).active then t
      else
        let t := same_cell_loop_traced sqrtf currentCell i p1Index dt t
        let t := neighbor_loop_traced sqrtf grid cellY cellX p1Index dt t
        (update_particle t.1 p1Index dt, t.2))
    t

/-- `update_particles_pairs` with the record of merges. -/
def update_particles_pairs_traced (sqrtf : ℚ → ℚ) (grid : SpatialGrid)
    (t : Store × List MergeCall) (dt : ℚ) : Store × List MergeCall :=
  (List.range GRID_SIZE).foldl
    (fun t cellY =>
      (List.range GRID_SIZE).foldl
        (fun t cellX => cell_loop_traced sqrtf grid cellY cellX dt t) t)
    t

/-- `update_particles` with the record of merges: the final store and the calls
of `merge_particles` made during the step, in order. -/
def update_particles_traced (sqrtf : ℚ → ℚ) (st : GridStatic) (particles : Store)
    (count : Nat) (dt : ℚ) : Store × List MergeCall :=
  update_particles_pairs_traced sqrtf (fill_grid (lazy_init st).grid particles count)
    (particles, []) dt

/-- What a step preserves, relative to the store `initial` it started from: the
active mass, no body activated, and every recorded merge on two distinct
bodies that were both active. -/
def StepInvariant (count : Nat) (initial : Store) (t : Store × List MergeCall) : Prop :=
  active_mass t.1 count = active_mass initial count ∧
  (∀ i, (t.1 i).active = true → (initial i).active = true) ∧
  (∀ c, c ∈ t.2 → c.p1 ≠ c.p2 ∧ c.active1 = true ∧ c.active2 = true)

/-- What the pair loops need of the grid: every stored index is below `count`,
and no index is stored in two slots of the `8 x 8` cells. -/
def GridSound (count : Nat) (grid : SpatialGrid) : Prop :=
  (∀ a b, a < GRID_SIZE → b < GRID_SIZE → ∀ j, j < (grid.cells a b).count →
    (grid.cells a b).particleIndices j < count) ∧
  (∀ a b a' b', a < GRID_SIZE → b < GRID_SIZE → a' < GRID_SIZE → b' < GRID_SIZE →
    ∀ j j', j < (grid.cells a b).count → j' < (grid.cells a' b').count →
      (grid.cells a b).particleIndices j = (grid.cells a' b').particleIndices j' →
      a = a' ∧ b = b' ∧ j = j')

/-! ## Example inputs used to instantiate the theorems -/

/-- An active body with the given kinematics, mass and radius (black, opaque). -/
def body (x y vx vy mass radius : ℚ) : Particle :=
  { x := x, y := y, vx := vx, vy := vy, mass := mass, radius := radius,
    color := { r := 0, g := 0, b := 0, a := 255 }, active := true }

/-- A store whose slot 0 holds `a` and whose other slots hold `b`. -/
def pair_store (a b : Particle) : Store := fun i => if i = 0 then a else b

/-- Two bodies at rest, masses 10 and 20, in slots 0 and 1. -/
def merge_example : Store := pair_store (body 100 100 0 0 10 8) (body 103 100 0 0 20 10)

/-- Two moving bodies of equal mass 10, in slots 0 and 1. -/
def equal_mass_example : Store := pair_store (body 100 100 3 0 10 8) (body 103 100 (-1) 2 10 8)

/-- Body of mass 1 at the origin and body of mass 2 at `(3, 4)`, both at rest. -/
def gravity_example : Store := pair_store (body 0 0 0 0 1 4) (body 3 4 0 0 2 5)

/-- Two bodies of mass 1 at rest, half a unit apart on the x axis. -/
def close_example : Store := pair_store (body 0 0 0 0 1 4) (body (1 / 2) 0 0 0 1 4)

/-- A body of mass 40000 and radius 402 at rest in the middle of the window
(every slot holds it; the store is used with one body). -/
def big_example : Store := fun _ => body 400 300 0 0 40000 402

/-- The single body of the bounce scenario: at `(5, 300)`, radius 10, velocity
`(-2, 0)` (every slot holds it; the store is used with `count = 1`). -/
def bounce_example : Store := fun _ => body 5 300 (-2) 0 16 10

/-- A grid with the geometry of `init_grid(800, 600)` whose cells all hold the
indices `0 .. 49`. -/
def full_grid : SpatialGrid :=
  { cells := fun _ _ => { particleIndices := fun k => k, count := 50 },
    width := 800, height := 600, cellWidth := 100, cellHeight := 75 }

/-- An empty grid with the geometry of `init_grid(800, 600)`. -/
def empty_grid : SpatialGrid :=
  { cells := fun _ _ => { particleIndices := fun _ => 0, count := 0 },
    width := 800, height := 600, cellWidth := 100, cellHeight := 75 }

/-- A body left of the window and one beyond its right edge. -/
def outside_example : Store := pair_store (body (-30) 300 0 0 16 10) (body 800 620 0 0 16 10)

/-- A body far to the right of the window, at `x = 299999985664` (a value a
`float` holds exactly), where `x / cellWidth` exceeds `INT_MAX`. -/
def far_example : Store := fun _ => body 299999985664 300 0 0 16 10

/-- Bodies of mass 1 that all sit at `(10, 10)`. -/
def crowded_example : Store := fun _ => body 10 10 0 0 1 4

/-- An active body of mass 10 in slot 0 and an inactive body of mass 20 elsewhere. -/
def inactive_example : Store :=
  pair_store (body 100 100 0 0 10 8) { body 103 100 0 0 20 10 with active := false }

/-- Two active bodies of mass 80 at rest, three units apart. -/
def heavy_example : Store := pair_store (body 100 100 0 0 80 20) (body 103 100 0 0 80 20)

/-- The two bodies of the merge scenario: masses 10 and 20 at rest at
`(100,100)` and `(103,100)`, radii `2 + 2*sqrtf(mass)` for `sqrtf = Rat.sqrt`. -/
def scenario_example : Store :=
  pair_store (body 100 100 0 0 10 (calculate_radius Rat.sqrt 10))
    (body 103 100 0 0 20 (calculate_radius Rat.sqrt 20))

/-- Two bodies of mass 1 and radius 4 at rest at `(90,100)` and `(110,100)`, on
either side of the cell boundary `x = 100`. -/
def cross_example : Store := pair_store (body 90 100 0 0 1 4) (body 110 100 0 0 1 4)

/-! ## Reading the store after a write -/

@[simp]
theorem Store.modify_same (mem : Store) (p : Nat) (f : Particle → Particle) :
    mem.modify p f p = f (mem p) := by
  simp [Store.modify]

@[simp]
theorem Store.modify_ne (mem : Store) (p q : Nat) (f : Particle → Particle) (h : q ≠ p) :
    mem.modify p f q = mem q := by
  simp [Store.modify, Function.update_noteq h]

@[simp]
theorem pair_store_zero (a b : Particle) : pair_store a b 0 = a := rfl

@[simp]
theorem pair_store_one (a b : Particle) : pair_store a b 1 = b := rfl

/-! ## Merging -/

/-- What `merge_particles` leaves at the two bodies when the first one is kept. -/
theorem merge_particles_keep_first (sqrtf : ℚ → ℚ) (mem : Store) (p1 p2 : Nat)
    (hne : p1 ≠ p2) (hge : ¬ (mem p1).mass < (mem p2).mass) :
    (merge_particles sqrtf mem p1 p2 p1).active = (mem p1).active ∧
    (merge_particles sqrtf mem p1 p2 p2).active = false ∧
    (merge_particles sqrtf mem p1 p2 p1).mass = (mem p1).mass + (mem p2).mass ∧
    (merge_particles sqrtf mem p1 p2 p1).vx =
      ((mem p1).vx * (mem p1).mass + (mem p2).vx * (mem p2).mass) /
        ((mem p1).mass + (mem p2).mass) ∧
    (merge_particles sqrtf mem p1 p2 p1).vy =
      ((mem p1).vy * (mem p1).mass + (mem p2).vy * (mem p2).mass) /
        ((mem p1).mass + (mem p2).mass) := by
  have hne' : p2 ≠ p1 := fun h => hne h.symm
  simp [merge_particles, hge, hne, hne']

/-- What `merge_particles` leaves at the two bodies when the pointers are swapped. -/
theorem merge_particles_keep_second (sqrtf : ℚ → ℚ) (mem : Store) (p1 p2 : Nat)
    (hne : p1 ≠ p2) (hlt : (mem p1).mass < (mem p2).mass) :
    (merge_particles sqrtf mem p1 p2 p2).active = (mem p2).active ∧
    (merge_particles sqrtf mem p1 p2 p1).active = false ∧
    (merge_particles sqrtf mem p1 p2 p2).mass = (mem p2).mass + (mem p1).mass ∧
    (merge_particles sqrtf mem p1 p2 p2).vx =
      ((mem p2).vx * (mem p2).mass + (mem p1).vx * (mem p1).mass) /
        ((mem p2).mass + (mem p1).mass) ∧
    (merge_particles sqrtf mem p1 p2 p2).vy =
      ((mem p2).vy * (mem p2).mass + (mem p1).vy * (mem p1).mass) /
        ((mem p2).mass + (mem p1).mass) := by
  have hne' : p2 ≠ p1 := fun h => hne h.symm
  simp [merge_particles, hlt, hne, hne']

/-- C1. Mass conservation under merge: for two distinct active bodies with
positive masses `m1`, `m2`, after `merge_particles(p1, p2)` exactly one of the
two is active, its mass is `m1 + m2`, and the other one is inactive. -/
theorem merge_particles_mass_conservation (sqrtf : ℚ → ℚ) (mem : Store) (p1 p2 : Nat)
    (hne : p1 ≠ p2) (h1 : (mem p1).active = true) (h2 : (mem p2).active = true)
    (_hm1 : 0 < (mem p1).mass) (_hm2 : 0 < (mem p2).mass) :
    ((merge_particles sqrtf mem p1 p2 p1).active = true ∧
      (merge_particles sqrtf mem p1 p2 p1).mass = (mem p1).mass + (mem p2).mass ∧
      (merge_particles sqrtf mem p1 p2 p2).active = false) ∨
    ((merge_particles sqrtf mem p1 p2 p2).active = true ∧
      (merge_particles sqrtf mem p1 p2 p2).mass = (mem p1).mass + (mem p2).mass ∧
      (merge_particles sqrtf mem p1 p2 p1).active = false) := by
  by_cases hlt : (mem p1).mass < (mem p2).mass
  · obtain ⟨ha, hb, hm, -, -⟩ := merge_particles_keep_second sqrtf mem p1 p2 hne hlt
    exact Or.inr ⟨ha.trans h2, hm.trans (add_comm _ _), hb⟩
  · obtain ⟨ha, hb, hm, -, -⟩ := merge_particles_keep_first sqrtf mem p1 p2 hne hlt
    exact Or.inl ⟨ha.trans h1, hm, hb⟩

/-- C1 at the store `merge_example` (masses 10 and 20 in slots 0 and 1): the
hypotheses hold there and so does the conclusion. -/
theorem merge_particles_mass_conservation_witness :
    ((0 : Nat) ≠ 1 ∧ (merge_example 0).active = true ∧ (merge_example 1).active = true ∧
      0 < (merge_example 0).mass ∧ 0 < (merge_example 1).mass) ∧
    (((merge_particles Rat.sqrt merge_example 0 1 0).active = true ∧
        (merge_particles Rat.sqrt merge_example 0 1 0).mass =
          (merge_example 0).mass + (merge_example 1).mass ∧
        (merge_particles Rat.sqrt merge_example 0 1 1).active = false) ∨
      ((merge_particles Rat.sqrt merge_example 0 1 1).active = true ∧
        (merge_particles Rat.sqrt merge_example 0 1 1).mass =
          (merge_example 0).mass + (merge_example 1).mass ∧
        (merge_particles Rat.sqrt merge_example 0 1 0).active = false)) :=
  ⟨⟨by decide, rfl, rfl, by norm_num [merge_example, body], by norm_num [merge_example, body]⟩,
    merge_particles_mass_conservation Rat.sqrt merge_example 0 1
      (by decide) rfl rfl (by norm_num [merge_example, body]) (by norm_num [merge_example, body])⟩

/-- C2. Momentum conservation under merge: for two distinct active bodies with
positive masses, the one body of the pair that `merge_particles` leaves active
has velocity `(m1*v1 + m2*v2)/(m1 + m2)` on each axis, and this holds for
`merge_particles(p1, p2)` and for `merge_particles(p2, p1)` alike (equal masses
included), although the two calls may keep different bodies. -/
theorem merge_particles_momentum_commutative (sqrtf : ℚ → ℚ) (mem : Store) (p1 p2 : Nat)
    (hne : p1 ≠ p2) (h1 : (mem p1).active = true) (h2 : (mem p2).active = true)
    (_hm1 : 0 < (mem p1).mass) (_hm2 : 0 < (mem p2).mass) :
    ∃ s t : Nat, (s = p1 ∨ s = p2) ∧ (t = p1 ∨ t = p2) ∧
      (merge_particles sqrtf mem p1 p2 s).active = true ∧
      (∀ u, (u = p1 ∨ u = p2) → (merge_particles sqrtf mem p1 p2 u).active = true → u = s) ∧
      (merge_particles sqrtf mem p2 p1 t).active = true ∧
      (∀ u, (u = p1 ∨ u = p2) → (merge_particles sqrtf mem p2 p1 u).active = true → u = t) ∧
      (merge_particles sqrtf mem p1 p2 s).vx =
        ((mem p1).mass * (mem p1).vx + (mem p2).mass * (mem p2).vx) /
          ((mem p1).mass + (mem p2).mass) ∧
      (merge_particles sqrtf mem p1 p2 s).vy =
        ((mem p1).mass * (mem p1).vy + (mem p2).mass * (mem p2).vy) /
          ((mem p1).mass + (mem p2).mass) ∧
      (merge_particles sqrtf mem p2 p1 t).vx = (merge_particles sqrtf mem p1 p2 s).vx ∧
      (merge_particles sqrtf mem p2 p1 t).vy = (merge_particles sqrtf mem p1 p2 s).vy := by
  have hne' : p2 ≠ p1 := fun h => hne h.symm
  have only_one : ∀ (r : Store) (a b : Nat), (r b).active = false →
      ∀ u, (u = p1 ∨ u = p2) → (a = p1 ∧ b = p2 ∨ a = p2 ∧ b = p1) →
        (r u).active = true → u = a := by
    intro r a b hb u hu hab hact
    rcases hab with ⟨rfl, rfl⟩ | ⟨rfl, rfl⟩ <;> rcases hu with rfl | rfl <;>
      first
        | rfl
        | (rw [hb] at hact; exact absurd hact (by simp))
  rcases lt_trichotomy (mem p1).mass (mem p2).mass with hlt | heq | hgt
  · -- p2 is heavier: both calls keep p2
    obtain ⟨a1, b1, -, x1, y1⟩ := merge_particles_keep_second sqrtf mem p1 p2 hne hlt
    obtain ⟨a2, b2, -, x2, y2⟩ := merge_particles_keep_first sqrtf mem p2 p1 hne' (not_lt.mpr hlt.le)
    refine ⟨p2, p2, Or.inr rfl, Or.inr rfl, a1.trans h2, ?_, a2.trans h2, ?_, ?_, ?_, ?_, ?_⟩
    · exact fun u hu => only_one _ p2 p1 b1 u hu (Or.inr ⟨rfl, rfl⟩)
    · exact fun u hu => only_one _ p2 p1 b2 u hu (Or.inr ⟨rfl, rfl⟩)
    · rw [x1]; ring
    · rw [y1]; ring
    · rw [x1, x2]
    · rw [y1, y2]
  · -- equal masses: each call keeps its first argument
    obtain ⟨a1, b1, -, x1, y1⟩ := merge_particles_keep_first sqrtf mem p1 p2 hne (by rw [heq]; exact lt_irrefl _)
    obtain ⟨a2, b2, -, x2, y2⟩ := merge_particles_keep_first sqrtf mem p2 p1 hne' (by rw [heq]; exact lt_irrefl _)
    refine ⟨p1, p2, Or.inl rfl, Or.inr rfl, a1.trans h1, ?_, a2.trans h2, ?_, ?_, ?_, ?_, ?_⟩
    · exact fun u hu => only_one _ p1 p2 b1 u hu (Or.inl ⟨rfl, rfl⟩)
    · exact fun u hu => only_one _ p2 p1 b2 u hu (Or.inr ⟨rfl, rfl⟩)
    · rw [x1]; ring
    · rw [y1]; ring
    · rw [x1, x2]; ring
    · rw [y1, y2]; ring
  · -- p1 is heavier: both calls keep p1
    obtain ⟨a1, b1, -, x1, y1⟩ := merge_particles_keep_first sqrtf mem p1 p2 hne (not_lt.mpr hgt.le)
    obtain ⟨a2, b2, -, x2, y2⟩ := merge_particles_keep_second sqrtf mem p2 p1 hne' hgt
    refine ⟨p1, p1, Or.inl rfl, Or.inl rfl, a1.trans h1, ?_, a2.trans h1, ?_, ?_, ?_, ?_, ?_⟩
    · exact fun u hu => only_one _ p1 p2 b1 u hu (Or.inl ⟨rfl, rfl⟩)
    · exact fun u hu => only_one _ p1 p2 b2 u hu (Or.inl ⟨rfl, rfl⟩)
    · rw [x1]; ring
    · rw [y1]; ring
    · rw [x1, x2]
    · rw [y1, y2]

/-- C2 at the store `equal_mass_example` (two bodies of mass 10 with velocities
`(3, 0)` and `(-1, 2)`): the hypotheses hold, and so does the conclusion. -/
theorem merge_particles_momentum_commutative_witness :
    ((0 : Nat) ≠ 1 ∧ (equal_mass_example 0).active = true ∧
      (equal_mass_example 1).active = true ∧
      0 < (equal_mass_example 0).mass ∧ 0 < (equal_mass_example 1).mass) ∧
    ∃ s t : Nat, (s = 0 ∨ s = 1) ∧ (t = 0 ∨ t = 1) ∧
      (merge_particles Rat.sqrt equal_mass_example 0 1 s).active = true ∧
      (∀ u, (u = 0 ∨ u = 1) →
        (merge_particles Rat.sqrt equal_mass_example 0 1 u).active = true → u = s) ∧
      (merge_particles Rat.sqrt equal_mass_example 1 0 t).active = true ∧
      (∀ u, (u = 0 ∨ u = 1) →
        (merge_particles Rat.sqrt equal_mass_example 1 0 u).active = true → u = t) ∧
      (merge_particles Rat.sqrt equal_mass_example 0 1 s).vx =
        ((equal_mass_example 0).mass * (equal_mass_example 0).vx +
            (equal_mass_example 1).mass * (equal_mass_example 1).vx) /
          ((equal_mass_example 0).mass + (equal_mass_example 1).mass) ∧
      (merge_particles Rat.sqrt equal_mass_example 0 1 s).vy =
        ((equal_mass_example 0).mass * (equal_mass_example 0).vy +
            (equal_mass_example 1).mass * (equal_mass_example 1).vy) /
          ((equal_mass_example 0).mass + (equal_mass_example 1).mass) ∧
      (merge_particles Rat.sqrt equal_mass_example 1 0 t).vx =
        (merge_particles Rat.sqrt equal_mass_example 0 1 s).vx ∧
      (merge_particles Rat.sqrt equal_mass_example 1 0 t).vy =
        (merge_particles Rat.sqrt equal_mass_example 0 1 s).vy :=
  ⟨⟨by decide, rfl, rfl, by norm_num [equal_mass_example, body],
      by norm_num [equal_mass_example, body]⟩,
    merge_particles_momentum_commutative Rat.sqrt equal_mass_example 0 1
      (by decide) rfl rfl (by norm_num [equal_mass_example, body])
      (by norm_num [equal_mass_example, body])⟩

/-! ## Gravity -/

/-- The effect of `apply_gravity` on two distinct active bodies: only the two
velocities change, by the force components over the own mass times `dt`. -/
theorem apply_gravity_active (sqrtf : ℚ → ℚ) (mem : Store) (p1 p2 : Nat) (dt : ℚ)
    (hne : p1 ≠ p2) (h1 : (mem p1).active = true) (h2 : (mem p2).active = true) :
    apply_gravity sqrtf mem p1 p2 dt p1 =
      Particle.mk (mem p1).x (mem p1).y
        ((mem p1).vx + force_x sqrtf mem p1 p2 / (mem p1).mass * dt)
        ((mem p1).vy + force_y sqrtf mem p1 p2 / (mem p1).mass * dt)
        (mem p1).mass (mem p1).radius (mem p1).color (mem p1).active ∧
    apply_gravity sqrtf mem p1 p2 dt p2 =
      Particle.mk (mem p2).x (mem p2).y
        ((mem p2).vx - force_x sqrtf mem p1 p2 / (mem p2).mass * dt)
        ((mem p2).vy - force_y sqrtf mem p1 p2 / (mem p2).mass * dt)
        (mem p2).mass (mem p2).radius (mem p2).color (mem p2).active ∧
    ∀ q, q ≠ p1 → q ≠ p2 → apply_gravity sqrtf mem p1 p2 dt q = mem q := by
  have hne' : p2 ≠ p1 := fun h => hne h.symm
  refine ⟨?_, ?_, ?_⟩
  · simp [apply_gravity, h1, h2, hne, force_x, force_y, floored_distance_sq, separation_sq]
  · simp [apply_gravity, h1, h2, hne', force_x, force_y, floored_distance_sq, separation_sq]
  · intro q hq1 hq2
    simp [apply_gravity, h1, h2, hq1, hq2]

/-- C3, as stated, fails: at `gravity_example` (masses 1 and 2, separation
`(3, 4)`, squared separation 25, `dt = 1`) the two accelerations do not have
the same magnitude. -/
theorem apply_gravity_accelerations_counterexample :
    ((0 : Nat) ≠ 1 ∧ (gravity_example 0).active = true ∧ (gravity_example 1).active = true ∧
      0 < (gravity_example 0).mass ∧ 0 < (gravity_example 1).mass ∧
      1 ≤ separation_sq gravity_example 0 1 ∧ Rat.sqrt 25 = 5) ∧
    (((apply_gravity Rat.sqrt gravity_example 0 1 1 0).vx - (gravity_example 0).vx) / 1) ^ 2 +
      (((apply_gravity Rat.sqrt gravity_example 0 1 1 0).vy - (gravity_example 0).vy) / 1) ^ 2 ≠
    (((apply_gravity Rat.sqrt gravity_example 0 1 1 1).vx - (gravity_example 1).vx) / 1) ^ 2 +
      (((apply_gravity Rat.sqrt gravity_example 0 1 1 1).vy - (gravity_example 1).vy) / 1) ^ 2 := by
  have hs : Rat.sqrt 25 = 5 := by
    have h := Rat.sqrt_eq 5
    rw [abs_of_nonneg (by norm_num)] at h
    rw [← h]
    norm_num
  obtain ⟨e1, e2, -⟩ :=
    apply_gravity_active Rat.sqrt gravity_example 0 1 1 (by decide) rfl rfl
  refine ⟨⟨by decide, rfl, rfl, ?_, ?_, ?_, hs⟩, ?_⟩
  · norm_num [gravity_example, body]
  · norm_num [gravity_example, body]
  · norm_num [separation_sq, gravity_example, body]
  · rw [e1, e2]
    have hd : floored_distance_sq gravity_example 0 1 = 25 := by
      norm_num [floored_distance_sq, separation_sq, gravity_example, body]
    simp only [force_x, force_y, hd, hs]
    norm_num [gravity_example, body, G]

/-- C3, amended. For two distinct active bodies with positive masses and every
`dt`, the accelerations that `apply_gravity` imparts (velocity change over
`dt`) are opposite in direction and inversely proportional to the masses:
`a1 = -(m2/m1) * a2` on each axis, that is `m1 * a1 = -(m2 * a2)`; they are
equal in magnitude when the masses are equal. -/
theorem apply_gravity_accelerations (sqrtf : ℚ → ℚ) (mem : Store) (p1 p2 : Nat) (dt : ℚ)
    (hne : p1 ≠ p2) (h1 : (mem p1).active = true) (h2 : (mem p2).active = true)
    (hm1 : 0 < (mem p1).mass) (hm2 : 0 < (mem p2).mass) :
    0 < (mem p2).mass / (mem p1).mass ∧
    ((apply_gravity sqrtf mem p1 p2 dt p1).vx - (mem p1).vx) / dt =
      -((mem p2).mass / (mem p1).mass *
          (((apply_gravity sqrtf mem p1 p2 dt p2).vx - (mem p2).vx) / dt)) ∧
    ((apply_gravity sqrtf mem p1 p2 dt p1).vy - (mem p1).vy) / dt =
      -((mem p2).mass / (mem p1).mass *
          (((apply_gravity sqrtf mem p1 p2 dt p2).vy - (mem p2).vy) / dt)) ∧
    (mem p1).mass * (((apply_gravity sqrtf mem p1 p2 dt p1).vx - (mem p1).vx) / dt) =
      -((mem p2).mass * (((apply_gravity sqrtf mem p1 p2 dt p2).vx - (mem p2).vx) / dt)) ∧
    (mem p1).mass * (((apply_gravity sqrtf mem p1 p2 dt p1).vy - (mem p1).vy) / dt) =
      -((mem p2).mass * (((apply_gravity sqrtf mem p1 p2 dt p2).vy - (mem p2).vy) / dt)) ∧
    ((mem p1).mass = (mem p2).mass →
      ((apply_gravity sqrtf mem p1 p2 dt p1).vx - (mem p1).vx) / dt =
        -(((apply_gravity sqrtf mem p1 p2 dt p2).vx - (mem p2).vx) / dt) ∧
      ((apply_gravity sqrtf mem p1 p2 dt p1).vy - (mem p1).vy) / dt =
        -(((apply_gravity sqrtf mem p1 p2 dt p2).vy - (mem p2).vy) / dt)) := by
  obtain ⟨e1, e2, -⟩ := apply_gravity_active sqrtf mem p1 p2 dt hne h1 h2
  have n1 : (mem p1).mass ≠ 0 := ne_of_gt hm1
  have n2 : (mem p2).mass ≠ 0 := ne_of_gt hm2
  rw [e1, e2]
  simp only [add_sub_cancel_left, sub_sub_cancel_left]
  by_cases hdt : dt = 0
  · subst hdt
    simp [div_pos hm2 hm1]
  · refine ⟨div_pos hm2 hm1, ?_, ?_, ?_, ?_, ?_⟩
    · field_simp
      ring
    · field_simp
      ring
    · field_simp
      ring
    · field_simp
      ring
    · intro heq
      rw [heq]
      constructor <;> ring

/-- C3 (amended) at `gravity_example` with `dt = 1`: the hypotheses hold, and
the mass-weighted accelerations are opposite on the x axis. -/
theorem apply_gravity_accelerations_witness :
    ((0 : Nat) ≠ 1 ∧ (gravity_example 0).active = true ∧ (gravity_example 1).active = true ∧
      0 < (gravity_example 0).mass ∧ 0 < (gravity_example 1).mass) ∧
    (gravity_example 0).mass *
        (((apply_gravity Rat.sqrt gravity_example 0 1 1 0).vx - (gravity_example 0).vx) / 1) =
      -((gravity_example 1).mass *
        (((apply_gravity Rat.sqrt gravity_example 0 1 1 1).vx - (gravity_example 1).vx) / 1)) :=
  ⟨⟨by decide, rfl, rfl, by norm_num [gravity_example, body],
      by norm_num [gravity_example, body]⟩,
    (apply_gravity_accelerations Rat.sqrt gravity_example 0 1 1 (by decide) rfl rfl
      (by norm_num [gravity_example, body]) (by norm_num [gravity_example, body])).2.2.2.1⟩

/-- C4. For two distinct active bodies with non-zero masses and every `dt`,
`apply_gravity` changes each velocity by the force component divided by that
body's own mass, times `dt`, with opposite signs; so the impulses are equal and
opposite, `m1 * Δv1 = -(m2 * Δv2)` on each axis, and the total momentum
`m1*v1 + m2*v2` of the pair is unchanged. -/
theorem apply_gravity_momentum (sqrtf : ℚ → ℚ) (mem : Store) (p1 p2 : Nat) (dt : ℚ)
    (hne : p1 ≠ p2) (h1 : (mem p1).active = true) (h2 : (mem p2).active = true)
    (hm1 : (mem p1).mass ≠ 0) (hm2 : (mem p2).mass ≠ 0) :
    ((apply_gravity sqrtf mem p1 p2 dt p1).vx - (mem p1).vx =
        force_x sqrtf mem p1 p2 / (mem p1).mass * dt ∧
      (apply_gravity sqrtf mem p1 p2 dt p1).vy - (mem p1).vy =
        force_y sqrtf mem p1 p2 / (mem p1).mass * dt ∧
      (apply_gravity sqrtf mem p1 p2 dt p2).vx - (mem p2).vx =
        -(force_x sqrtf mem p1 p2 / (mem p2).mass * dt) ∧
      (apply_gravity sqrtf mem p1 p2 dt p2).vy - (mem p2).vy =
        -(force_y sqrtf mem p1 p2 / (mem p2).mass * dt)) ∧
    ((mem p1).mass * ((apply_gravity sqrtf mem p1 p2 dt p1).vx - (mem p1).vx) =
        -((mem p2).mass * ((apply_gravity sqrtf mem p1 p2 dt p2).vx - (mem p2).vx)) ∧
      (mem p1).mass * ((apply_gravity sqrtf mem p1 p2 dt p1).vy - (mem p1).vy) =
        -((mem p2).mass * ((apply_gravity sqrtf mem p1 p2 dt p2).vy - (mem p2).vy))) ∧
    ((apply_gravity sqrtf mem p1 p2 dt p1).mass * (apply_gravity sqrtf mem p1 p2 dt p1).vx +
        (apply_gravity sqrtf mem p1 p2 dt p2).mass * (apply_gravity sqrtf mem p1 p2 dt p2).vx =
        (mem p1).mass * (mem p1).vx + (mem p2).mass * (mem p2).vx ∧
      (apply_gravity sqrtf mem p1 p2 dt p1).mass * (apply_gravity sqrtf mem p1 p2 dt p1).vy +
        (apply_gravity sqrtf mem p1 p2 dt p2).mass * (apply_gravity sqrtf mem p1 p2 dt p2).vy =
        (mem p1).mass * (mem p1).vy + (mem p2).mass * (mem p2).vy) := by
  obtain ⟨e1, e2, -⟩ := apply_gravity_active sqrtf mem p1 p2 dt hne h1 h2
  rw [e1, e2]
  refine ⟨⟨?_, ?_, ?_, ?_⟩, ⟨?_, ?_⟩, ⟨?_, ?_⟩⟩
  · ring
  · ring
  · ring
  · ring
  · field_simp
    ring
  · field_simp
    ring
  · field_simp
    ring
  · field_simp
    ring

/-- C4 at `gravity_example` with `dt = 1/20`: the hypotheses hold and the
x-momentum of the pair is unchanged. -/
theorem apply_gravity_momentum_witness :
    ((0 : Nat) ≠ 1 ∧ (gravity_example 0).active = true ∧ (gravity_example 1).active = true ∧
      (gravity_example 0).mass ≠ 0 ∧ (gravity_example 1).mass ≠ 0) ∧
    (apply_gravity Rat.sqrt gravity_example 0 1 (1 / 20) 0).mass *
        (apply_gravity Rat.sqrt gravity_example 0 1 (1 / 20) 0).vx +
      (apply_gravity Rat.sqrt gravity_example 0 1 (1 / 20) 1).mass *
        (apply_gravity Rat.sqrt gravity_example 0 1 (1 / 20) 1).vx =
      (gravity_example 0).mass * (gravity_example 0).vx +
        (gravity_example 1).mass * (gravity_example 1).vx :=
  ⟨⟨by decide, rfl, rfl, by norm_num [gravity_example, body],
      by norm_num [gravity_example, body]⟩,
    (apply_gravity_momentum Rat.sqrt gravity_example 0 1 (1 / 20) (by decide) rfl rfl
      (by norm_num [gravity_example, body]) (by norm_num [gravity_example, body])).2.2.1⟩

/-- Dividing the force component by the first body's mass cancels that mass. -/
theorem force_over_first_mass (g m1 m2 D d s dt : ℚ) (h : m1 ≠ 0) :
    g * m1 * m2 / D * d / s / m1 * dt = g * m2 * dt / D * (d / s) := by
  have hc := mul_inv_cancel₀ h
  simp only [div_eq_mul_inv]
  linear_combination (g * m2 * D⁻¹ * d * s⁻¹ * dt) * hc

/-- Dividing the force component by the second body's mass cancels that mass. -/
theorem force_over_second_mass (g m1 m2 D d s dt : ℚ) (h : m2 ≠ 0) :
    -(g * m1 * m2 / D * d / s / m2 * dt) = g * m1 * dt / D * (-d / s) := by
  have hc := mul_inv_cancel₀ h
  simp only [div_eq_mul_inv]
  linear_combination (-(g * m1 * D⁻¹ * d * s⁻¹ * dt)) * hc

/-- The floored `distance_sq` is `max(squared distance, 1.0)`. -/
theorem floored_distance_sq_eq_max (mem : Store) (p1 p2 : Nat) :
    floored_distance_sq mem p1 p2 = max (separation_sq mem p1 p2) 1 := by
  unfold floored_distance_sq
  split_ifs with h
  · exact (max_eq_right h.le).symm
  · exact (max_eq_left (not_lt.mp h)).symm

/-- C5, as stated, fails: at `close_example` (masses 1, positions `(0,0)` and
`(1/2,0)`, `dt = 1`) the squared distance `1/4` is floored to `D = 1`, and the
velocity change of the first body is `G/2`, not `G * m_b * dt / D` times the
unit vector `(1, 0)` from the first body to the second. -/
theorem apply_gravity_unit_vector_counterexample :
    ((0 : Nat) ≠ 1 ∧ (close_example 0).active = true ∧ (close_example 1).active = true ∧
      0 < (close_example 0).mass ∧ 0 < (close_example 1).mass ∧
      (close_example 0).x ≠ (close_example 1).x ∧
      Rat.sqrt (separation_sq close_example 0 1) = 1 / 2 ∧
      max (separation_sq close_example 0 1) 1 = 1) ∧
    (apply_gravity Rat.sqrt close_example 0 1 1 0).vx - (close_example 0).vx = G / 2 ∧
    (apply_gravity Rat.sqrt close_example 0 1 1 0).vx - (close_example 0).vx ≠
      G * (close_example 1).mass * 1 / max (separation_sq close_example 0 1) 1 *
        (((close_example 1).x - (close_example 0).x) /
          Rat.sqrt (separation_sq close_example 0 1)) := by
  have hsep : separation_sq close_example 0 1 = 1 / 4 := by
    norm_num [separation_sq, close_example, body]
  have hq : Rat.sqrt (1 / 4) = 1 / 2 := by
    have h := Rat.sqrt_eq (1 / 2)
    rw [abs_of_nonneg (by norm_num)] at h
    rw [← h]
    norm_num
  have h1 : Rat.sqrt 1 = 1 := by
    have h := Rat.sqrt_eq 1
    rw [abs_of_nonneg (by norm_num)] at h
    rw [← h]
    norm_num
  have hd : floored_distance_sq close_example 0 1 = 1 := by
    norm_num [floored_distance_sq, hsep]
  obtain ⟨e1, -, -⟩ := apply_gravity_active Rat.sqrt close_example 0 1 1 (by decide) rfl rfl
  have hv : (apply_gravity Rat.sqrt close_example 0 1 1 0).vx - (close_example 0).vx = G / 2 := by
    rw [e1]
    simp only [force_x, hd, h1]
    norm_num [close_example, body]
    ring
  refine ⟨⟨by decide, rfl, rfl, ?_, ?_, ?_, ?_, ?_⟩, hv, ?_⟩
  · norm_num [close_example, body]
  · norm_num [close_example, body]
  · norm_num [close_example, body]
  · rw [hsep, hq]
  · rw [hsep]; norm_num
  · rw [hv, hsep, hq]
    norm_num [close_example, body, G]

/-- C5, amended. For two distinct active bodies `a`, `b` with positive masses
and every `dt`, `apply_gravity` changes `a`'s velocity by `G * m_b * dt / D`
times the separation vector from `a` to `b` divided by `sqrtf(D)`, and `b`'s
velocity by `G * m_a * dt / D` times the opposite vector, where
`D = max(squared distance, 1.0)` and `G = 0.0667430`; positions, masses, radii
and active flags are unchanged. When the squared distance is at least 1.0,
`D` is the squared distance, so the vector is the unit vector from `a` to `b`
(of length one wherever `sqrtf` is exact); for closer bodies it is shorter. -/
theorem apply_gravity_velocity_change (sqrtf : ℚ → ℚ) (mem : Store) (p1 p2 : Nat) (dt : ℚ)
    (hne : p1 ≠ p2) (h1 : (mem p1).active = true) (h2 : (mem p2).active = true)
    (hm1 : 0 < (mem p1).mass) (hm2 : 0 < (mem p2).mass) :
    G = 667430 / 10000000 ∧
    ((apply_gravity sqrtf mem p1 p2 dt p1).vx - (mem p1).vx =
        G * (mem p2).mass * dt / max (separation_sq mem p1 p2) 1 *
          (((mem p2).x - (mem p1).x) / sqrtf (max (separation_sq mem p1 p2) 1)) ∧
      (apply_gravity sqrtf mem p1 p2 dt p1).vy - (mem p1).vy =
        G * (mem p2).mass * dt / max (separation_sq mem p1 p2) 1 *
          (((mem p2).y - (mem p1).y) / sqrtf (max (separation_sq mem p1 p2) 1)) ∧
      (apply_gravity sqrtf mem p1 p2 dt p2).vx - (mem p2).vx =
        G * (mem p1).mass * dt / max (separation_sq mem p1 p2) 1 *
          (-((mem p2).x - (mem p1).x) / sqrtf (max (separation_sq mem p1 p2) 1)) ∧
      (apply_gravity sqrtf mem p1 p2 dt p2).vy - (mem p2).vy =
        G * (mem p1).mass * dt / max (separation_sq mem p1 p2) 1 *
          (-((mem p2).y - (mem p1).y) / sqrtf (max (separation_sq mem p1 p2) 1))) ∧
    ((apply_gravity sqrtf mem p1 p2 dt p1).x = (mem p1).x ∧
      (apply_gravity sqrtf mem p1 p2 dt p1).y = (mem p1).y ∧
      (apply_gravity sqrtf mem p1 p2 dt p1).mass = (mem p1).mass ∧
      (apply_gravity sqrtf mem p1 p2 dt p1).radius = (mem p1).radius ∧
      (apply_gravity sqrtf mem p1 p2 dt p1).active = (mem p1).active ∧
      (apply_gravity sqrtf mem p1 p2 dt p2).x = (mem p2).x ∧
      (apply_gravity sqrtf mem p1 p2 dt p2).y = (mem p2).y ∧
      (apply_gravity sqrtf mem p1 p2 dt p2).mass = (mem p2).mass ∧
      (apply_gravity sqrtf mem p1 p2 dt p2).radius = (mem p2).radius ∧
      (apply_gravity sqrtf mem p1 p2 dt p2).active = (mem p2).active) ∧
    (1 ≤ separation_sq mem p1 p2 →
      max (separation_sq mem p1 p2) 1 = separation_sq mem p1 p2 ∧
      (sqrtf (separation_sq mem p1 p2) * sqrtf (separation_sq mem p1 p2) =
          separation_sq mem p1 p2 →
        (((mem p2).x - (mem p1).x) / sqrtf (max (separation_sq mem p1 p2) 1)) ^ 2 +
          (((mem p2).y - (mem p1).y) / sqrtf (max (separation_sq mem p1 p2) 1)) ^ 2 = 1)) := by
  obtain ⟨e1, e2, -⟩ := apply_gravity_active sqrtf mem p1 p2 dt hne h1 h2
  have n1 : (mem p1).mass ≠ 0 := ne_of_gt hm1
  have n2 : (mem p2).mass ≠ 0 := ne_of_gt hm2
  rw [e1, e2, ← floored_distance_sq_eq_max]
  refine ⟨rfl, ⟨?_, ?_, ?_, ?_⟩, ⟨rfl, rfl, rfl, rfl, rfl, rfl, rfl, rfl, rfl, rfl⟩, ?_⟩
  · simp only [force_x, add_sub_cancel_left]
    exact force_over_first_mass _ _ _ _ _ _ _ n1
  · simp only [force_y, add_sub_cancel_left]
    exact force_over_first_mass _ _ _ _ _ _ _ n1
  · simp only [force_x, sub_sub_cancel_left]
    exact force_over_second_mass _ _ _ _ _ _ _ n2
  · simp only [force_y, sub_sub_cancel_left]
    exact force_over_second_mass _ _ _ _ _ _ _ n2
  · intro hsep
    have hD : floored_distance_sq mem p1 p2 = separation_sq mem p1 p2 := by
      rw [floored_distance_sq_eq_max]
      exact max_eq_left hsep
    refine ⟨hD, ?_⟩
    intro hsq
    rw [hD]
    have hpos : 0 < separation_sq mem p1 p2 := lt_of_lt_of_le one_pos hsep
    have hs0 : sqrtf (separation_sq mem p1 p2) ≠ 0 := by
      intro h0
      rw [h0] at hsq
      simp at hsq
      exact absurd hsq.symm (ne_of_gt hpos)
    rw [div_pow, div_pow, ← add_div, pow_two (sqrtf _), hsq]
    rw [div_eq_one_iff_eq (ne_of_gt hpos)]
    unfold separation_sq
    ring

/-- C5 (amended) at `gravity_example` with `dt = 1/20`: the hypotheses hold and
the x-velocity of the first body changes by `G * m_b * dt / D` times the x
component of the separation over `sqrtf(D)`. -/
theorem apply_gravity_velocity_change_witness :
    ((0 : Nat) ≠ 1 ∧ (gravity_example 0).active = true ∧ (gravity_example 1).active = true ∧
      0 < (gravity_example 0).mass ∧ 0 < (gravity_example 1).mass) ∧
    (apply_gravity Rat.sqrt gravity_example 0 1 (1 / 20) 0).vx - (gravity_example 0).vx =
      G * (gravity_example 1).mass * (1 / 20) / max (separation_sq gravity_example 0 1) 1 *
        (((gravity_example 1).x - (gravity_example 0).x) /
          Rat.sqrt (max (separation_sq gravity_example 0 1) 1)) :=
  ⟨⟨by decide, rfl, rfl, by norm_num [gravity_example, body],
      by norm_num [gravity_example, body]⟩,
    (apply_gravity_velocity_change Rat.sqrt gravity_example 0 1 (1 / 20) (by decide) rfl rfl
      (by norm_num [gravity_example, body]) (by norm_num [gravity_example, body])).2.1.1⟩

/-! ## Integration and boundary reflection -/

/-- The effect of `update_particle` on an active body, field by field. -/
theorem update_particle_active (mem : Store) (p : Nat) (dt : ℚ)
    (h : (mem p).active = true) :
    (update_particle mem p dt p).x =
      (if (mem p).x + (mem p).vx * dt - (mem p).radius < 0 then (mem p).radius
       else if (mem p).x + (mem p).vx * dt + (mem p).radius > 800 then 800 - (mem p).radius
       else (mem p).x + (mem p).vx * dt) ∧
    (update_particle mem p dt p).vx =
      (if (mem p).x + (mem p).vx * dt - (mem p).radius < 0 then -(mem p).vx * (8 / 10)
       else if (mem p).x + (mem p).vx * dt + (mem p).radius > 800 then -(mem p).vx * (8 / 10)
       else (mem p).vx) ∧
    (update_particle mem p dt p).y =
      (if (mem p).y + (mem p).vy * dt - (mem p).radius < 0 then (mem p).radius
       else if (mem p).y + (mem p).vy * dt + (mem p).radius > 600 then 600 - (mem p).radius
       else (mem p).y + (mem p).vy * dt) ∧
    (update_particle mem p dt p).vy =
      (if (mem p).y + (mem p).vy * dt - (mem p).radius < 0 then -(mem p).vy * (8 / 10)
       else if (mem p).y + (mem p).vy * dt + (mem p).radius > 600 then -(mem p).vy * (8 / 10)
       else (mem p).vy) ∧
    (update_particle mem p dt p).radius = (mem p).radius ∧
    (update_particle mem p dt p).mass = (mem p).mass ∧
    (update_particle mem p dt p).active = true := by
  by_cases hx0 : (mem p).x + (mem p).vx * dt - (mem p).radius < 0 <;>
    by_cases hx1 : (mem p).x + (mem p).vx * dt + (mem p).radius > 800 <;>
    by_cases hy0 : (mem p).y + (mem p).vy * dt - (mem p).radius < 0 <;>
    by_cases hy1 : (mem p).y + (mem p).vy * dt + (mem p).radius > 600 <;>
    simp [update_particle, h, hx0, hx1, hy0, hy1]

/-- `update_particle` writes only through its pointer. -/
theorem update_particle_other (mem : Store) (p q : Nat) (dt : ℚ) (hq : q ≠ p) :
    update_particle mem p dt q = mem q := by
  unfold update_particle
  simp only
  split_ifs <;> simp [hq]

/-- C6, as stated, fails: the active body of `big_example` has positive radius
402, wider than half the window; after `update_particle` its disk sticks out of
the 800 x 600 bounds (`x + radius = 804`). -/
theorem update_particle_containment_counterexample :
    ((big_example 0).active = true ∧ 0 < (big_example 0).radius) ∧
    (update_particle big_example 0 0 0).x + (update_particle big_example 0 0 0).radius = 804 ∧
    ¬ (0 ≤ (update_particle big_example 0 0 0).x - (update_particle big_example 0 0 0).radius ∧
       (update_particle big_example 0 0 0).x + (update_particle big_example 0 0 0).radius ≤ 800 ∧
       0 ≤ (update_particle big_example 0 0 0).y - (update_particle big_example 0 0 0).radius ∧
       (update_particle big_example 0 0 0).y + (update_particle big_example 0 0 0).radius ≤ 600) := by
  obtain ⟨ex, -, -, -, er, -, -⟩ := update_particle_active big_example 0 0 rfl
  have hx : (update_particle big_example 0 0 0).x +
      (update_particle big_example 0 0 0).radius = 804 := by
    rw [ex, er]
    norm_num [big_example, body]
  refine ⟨⟨rfl, by norm_num [big_example, body]⟩, hx, ?_⟩
  rintro ⟨-, h, -, -⟩
  rw [hx] at h
  norm_num at h

/-- C6, amended. For every active body with positive radius, every
pre-integration position and velocity and every `dt`, after `update_particle`:
if the radius is at most 400 then `0 <= x - radius` and `x + radius <= 800`,
and if the radius is at most 300 then `0 <= y - radius` and
`y + radius <= 600`. So every body whose disk fits into the bounds
(radius at most 300) ends inside the 800 x 600 simulation bounds. -/
theorem update_particle_containment (mem : Store) (p : Nat) (dt : ℚ)
    (h : (mem p).active = true) (_hr : 0 < (mem p).radius) :
    ((mem p).radius ≤ 400 →
      0 ≤ (update_particle mem p dt p).x - (update_particle mem p dt p).radius ∧
      (update_particle mem p dt p).x + (update_particle mem p dt p).radius ≤ 800) ∧
    ((mem p).radius ≤ 300 →
      0 ≤ (update_particle mem p dt p).y - (update_particle mem p dt p).radius ∧
      (update_particle mem p dt p).y + (update_particle mem p dt p).radius ≤ 600) := by
  obtain ⟨ex, -, ey, -, er, -, -⟩ := update_particle_active mem p dt h
  rw [ex, ey, er]
  constructor
  · intro hr
    split_ifs with h0 h1
    · constructor <;> linarith
    · constructor <;> linarith
    · constructor <;> linarith
  · intro hr
    split_ifs with h0 h1
    · constructor <;> linarith
    · constructor <;> linarith
    · constructor <;> linarith

/-- C6 (amended) at `bounce_example` (radius 10, leaving through the left edge)
with `dt = 1`: the hypotheses hold and the disk ends inside the bounds. -/
theorem update_particle_containment_witness :
    ((bounce_example 0).active = true ∧ 0 < (bounce_example 0).radius ∧
      (bounce_example 0).radius ≤ 400 ∧ (bounce_example 0).radius ≤ 300) ∧
    (0 ≤ (update_particle bounce_example 0 1 0).x - (update_particle bounce_example 0 1 0).radius ∧
      (update_particle bounce_example 0 1 0).x + (update_particle bounce_example 0 1 0).radius
        ≤ 800) ∧
    (0 ≤ (update_particle bounce_example 0 1 0).y - (update_particle bounce_example 0 1 0).radius ∧
      (update_particle bounce_example 0 1 0).y + (update_particle bounce_example 0 1 0).radius
        ≤ 600) :=
  ⟨⟨rfl, by norm_num [bounce_example, body], by norm_num [bounce_example, body],
      by norm_num [bounce_example, body]⟩,
    (update_particle_containment bounce_example 0 1 rfl
      (by norm_num [bounce_example, body])).1 (by norm_num [bounce_example, body]),
    (update_particle_containment bounce_example 0 1 rfl
      (by norm_num [bounce_example, body])).2 (by norm_num [bounce_example, body])⟩

/-! ## The spatial grid -/

/-- Reading a two-dimensional array after one element was written. -/
theorem update_update_apply {α : Type} (f : Nat → Nat → α) (r c : Nat) (v : α) (a b : Nat) :
    Function.update f r (Function.update (f r) c v) a b =
      if a = r ∧ b = c then v else f a b := by
  by_cases ha : a = r
  · subst ha
    by_cases hb : b = c
    · subst hb
      simp
    · simp [Function.update_noteq hb, hb]
  · simp [Function.update_noteq ha, ha]

/-- The clamped coordinate lies in `[0, GRID_SIZE - 1]`. -/
theorem clamp_cell_bounds (c : Int) : 0 ≤ clamp_cell c ∧ clamp_cell c ≤ 7 := by
  unfold clamp_cell GRID_SIZE
  simp only
  split_ifs <;> constructor <;> omega

/-- The clamped coordinate is a valid array index. -/
theorem clamp_cell_toNat_lt (c : Int) : (clamp_cell c).toNat < GRID_SIZE := by
  have h := clamp_cell_bounds c
  unfold GRID_SIZE
  omega

/-- Inside the `int` range the conversion `(int) f` is the integral part. -/
theorem c_int_in_range (q : ℚ)
    (h : (INT_MIN : ℚ) - 1 < q ∧ q < (INT_MAX : ℚ) + 1) :
    c_int q = trunc_toward_zero q := by
  obtain ⟨hlo, hhi⟩ := h
  have hrange : INT_MIN ≤ trunc_toward_zero q ∧ trunc_toward_zero q ≤ INT_MAX := by
    unfold trunc_toward_zero INT_MIN INT_MAX
    unfold INT_MIN at hlo
    unfold INT_MAX at hhi
    push_cast at hlo hhi
    by_cases hq : 0 ≤ q
    · have hf : 0 ≤ ⌊q⌋ := Int.floor_nonneg.mpr hq
      have hlt : ⌊q⌋ < 2147483648 := by
        rw [Int.floor_lt]
        push_cast
        linarith
      simp only [hq, if_true]
      omega
    · have hneg : q < 0 := not_le.mp hq
      have hf : 0 ≤ ⌊-q⌋ := Int.floor_nonneg.mpr (by linarith)
      have hlt : ⌊-q⌋ < 2147483649 := by
        rw [Int.floor_lt]
        push_cast
        linarith
      simp only [hq, if_false]
      omega
  unfold c_int
  rw [if_pos hrange]

/-- Inside the `int` range, truncation toward zero and the floor agree once
clamped into `[0, 7]`. -/
theorem clamp_cell_c_int (q : ℚ)
    (h : (INT_MIN : ℚ) - 1 < q ∧ q < (INT_MAX : ℚ) + 1) :
    clamp_cell (c_int q) = spec_cell_coord q 1 := by
  rw [c_int_in_range q h]
  unfold spec_cell_coord trunc_toward_zero clamp_cell GRID_SIZE
  simp only [div_one]
  by_cases hq : 0 ≤ q
  · have hf : 0 ≤ ⌊q⌋ := Int.floor_nonneg.mpr hq
    simp only [hq, if_true]
    split_ifs <;> omega
  · have hneg : q < 0 := not_le.mp hq
    have hf : ⌊q⌋ < 0 := by
      have : ⌊q⌋ ≤ -1 := by
        apply Int.le_of_lt_add_one
        rw [Int.floor_lt]
        simpa using hneg
      omega
    have hf' : 0 ≤ ⌊-q⌋ := Int.floor_nonneg.mpr (by linarith)
    simp only [hq, if_false]
    split_ifs <;> omega

/-- The column computed by the code is the specification's clamped floor when
`x / cellWidth` is inside the `int` range. -/
theorem cell_x_eq_spec (grid : SpatialGrid) (p : Particle)
    (h : (INT_MIN : ℚ) - 1 < p.x / grid.cellWidth ∧ p.x / grid.cellWidth < (INT_MAX : ℚ) + 1) :
    cell_x grid p = spec_cell_coord p.x grid.cellWidth := by
  unfold cell_x
  rw [clamp_cell_c_int _ h]
  simp [spec_cell_coord]

/-- The row computed by the code is the specification's clamped floor when
`y / cellHeight` is inside the `int` range. -/
theorem cell_y_eq_spec (grid : SpatialGrid) (p : Particle)
    (h : (INT_MIN : ℚ) - 1 < p.y / grid.cellHeight ∧
      p.y / grid.cellHeight < (INT_MAX : ℚ) + 1) :
    cell_y grid p = spec_cell_coord p.y grid.cellHeight := by
  unfold cell_y
  rw [clamp_cell_c_int _ h]
  simp [spec_cell_coord]

/-- Every cell of the grid after `add_particle_to_grid`: the owning cell of an
active body gains the index if it is not full, nothing else changes. -/
theorem add_particle_to_grid_cells (grid : SpatialGrid) (particles : Store) (index : Nat)
    (a b : Nat) :
    (add_particle_to_grid grid particles index).cells a b =
      if (particles index).active = true ∧
          (a = (cell_y grid (particles index)).toNat ∧
            b = (cell_x grid (particles index)).toNat) ∧
          (grid.cells a b).count < MAX_PARTICLES_PER_CELL then
        { particleIndices :=
            Function.update (grid.cells a b).particleIndices (grid.cells a b).count index,
          count := (grid.cells a b).count + 1 }
      else grid.cells a b := by
  unfold add_particle_to_grid
  by_cases hact : (particles index).active = true
  · simp only [hact, Bool.not_true, Bool.false_eq_true, if_false, true_and]
    by_cases hcnt : (grid.cells (cell_y grid (particles index)).toNat
        (cell_x grid (particles index)).toNat).count < MAX_PARTICLES_PER_CELL
    · simp only [hcnt, if_true, update_update_apply]
      by_cases hab : a = (cell_y grid (particles index)).toNat ∧
          b = (cell_x grid (particles index)).toNat
      · obtain ⟨rfl, rfl⟩ := hab
        simp [hcnt]
      · simp [hab]
    · simp only [hcnt, if_false]
      by_cases hab : a = (cell_y grid (particles index)).toNat ∧
          b = (cell_x grid (particles index)).toNat
      · obtain ⟨rfl, rfl⟩ := hab
        simp [hcnt]
      · simp [hab]
  · simp [hact]

/-- `add_particle_to_grid` leaves the grid geometry alone. -/
theorem add_particle_to_grid_geometry (grid : SpatialGrid) (particles : Store) (index : Nat) :
    (add_particle_to_grid grid particles index).cellWidth = grid.cellWidth ∧
    (add_particle_to_grid grid particles index).cellHeight = grid.cellHeight := by
  unfold add_particle_to_grid
  simp only
  split_ifs <;> exact ⟨rfl, rfl⟩

/-- C9 (amended). For every active body whose quotients `x / cellWidth` and
`y / cellHeight` are inside the range of `int` (strictly between
`INT_MIN - 1` and `INT_MAX + 1`, so that the conversion `(int)` does not
overflow), at any such position, negative, on the boundary or beyond it,
`add_particle_to_grid` on a grid whose owning cell is not full appends the
index to the cell whose column is `floor(x / cellWidth)` clamped into `[0, 7]`
and whose row is `floor(y / cellHeight)` clamped into `[0, 7]` (although the
code truncates toward zero): that cell stores the index in slot `count` and
its count grows by one, and every other cell is unchanged. -/
theorem add_particle_to_grid_owning_cell (grid : SpatialGrid) (particles : Store)
    (index : Nat) (hact : (particles index).active = true)
    (hx : (INT_MIN : ℚ) - 1 < (particles index).x / grid.cellWidth ∧
      (particles index).x / grid.cellWidth < (INT_MAX : ℚ) + 1)
    (hy : (INT_MIN : ℚ) - 1 < (particles index).y / grid.cellHeight ∧
      (particles index).y / grid.cellHeight < (INT_MAX : ℚ) + 1)
    (hroom : (grid.cells (spec_cell_coord (particles index).y grid.cellHeight).toNat
      (spec_cell_coord (particles index).x grid.cellWidth).toNat).count
        < MAX_PARTICLES_PER_CELL) :
    (spec_cell_coord (particles index).y grid.cellHeight).toNat < GRID_SIZE ∧
    (spec_cell_coord (particles index).x grid.cellWidth).toNat < GRID_SIZE ∧
    (add_particle_to_grid grid particles index).cells
        (spec_cell_coord (particles index).y grid.cellHeight).toNat
        (spec_cell_coord (particles index).x grid.cellWidth).toNat =
      { particleIndices := Function.update
          (grid.cells (spec_cell_coord (particles index).y grid.cellHeight).toNat
            (spec_cell_coord (particles index).x grid.cellWidth).toNat).particleIndices
          (grid.cells (spec_cell_coord (particles index).y grid.cellHeight).toNat
            (spec_cell_coord (particles index).x grid.cellWidth).toNat).count index,
        count := (grid.cells (spec_cell_coord (particles index).y grid.cellHeight).toNat
            (spec_cell_coord (particles index).x grid.cellWidth).toNat).count + 1 } ∧
    (∀ a b, ¬ (a = (spec_cell_coord (particles index).y grid.cellHeight).toNat ∧
          b = (spec_cell_coord (particles index).x grid.cellWidth).toNat) →
        (add_particle_to_grid grid particles index).cells a b = grid.cells a b) := by
  rw [← cell_x_eq_spec grid (particles index) hx,
    ← cell_y_eq_spec grid (particles index) hy] at *
  refine ⟨clamp_cell_toNat_lt _, clamp_cell_toNat_lt _, ?_, ?_⟩
  · rw [add_particle_to_grid_cells]
    simp [hact, hroom]
  · intro a b hab
    rw [add_particle_to_grid_cells]
    simp [hab]

/-- C9 (amended) at the body of `outside_example` left of the window
(`x = -30`, `y = 300`) and the empty 800 x 600 grid: the hypotheses hold (the
quotients are `-3/10` and `4`), the clamped-floor cell is row 4, column 0, it
holds index 0 afterwards with count 1, and every other cell is unchanged. -/
theorem add_particle_to_grid_owning_cell_witness :
    ((outside_example 0).active = true ∧
      ((INT_MIN : ℚ) - 1 < (outside_example 0).x / empty_grid.cellWidth ∧
        (outside_example 0).x / empty_grid.cellWidth < (INT_MAX : ℚ) + 1) ∧
      ((INT_MIN : ℚ) - 1 < (outside_example 0).y / empty_grid.cellHeight ∧
        (outside_example 0).y / empty_grid.cellHeight < (INT_MAX : ℚ) + 1) ∧
      (empty_grid.cells (spec_cell_coord (outside_example 0).y empty_grid.cellHeight).toNat
        (spec_cell_coord (outside_example 0).x empty_grid.cellWidth).toNat).count
          < MAX_PARTICLES_PER_CELL) ∧
    (spec_cell_coord (outside_example 0).y empty_grid.cellHeight = 4 ∧
      spec_cell_coord (outside_example 0).x empty_grid.cellWidth = 0) ∧
    ((add_particle_to_grid empty_grid outside_example 0).cells
        (spec_cell_coord (outside_example 0).y empty_grid.cellHeight).toNat
        (spec_cell_coord (outside_example 0).x empty_grid.cellWidth).toNat).count = 1 ∧
    (∀ a b, ¬ (a = (spec_cell_coord (outside_example 0).y empty_grid.cellHeight).toNat ∧
          b = (spec_cell_coord (outside_example 0).x empty_grid.cellWidth).toNat) →
        (add_particle_to_grid empty_grid outside_example 0).cells a b = empty_grid.cells a b) := by
  have hx : (INT_MIN : ℚ) - 1 < (outside_example 0).x / empty_grid.cellWidth ∧
      (outside_example 0).x / empty_grid.cellWidth < (INT_MAX : ℚ) + 1 := by
    norm_num [outside_example, pair_store, body, empty_grid, INT_MIN, INT_MAX]
  have hy : (INT_MIN : ℚ) - 1 < (outside_example 0).y / empty_grid.cellHeight ∧
      (outside_example 0).y / empty_grid.cellHeight < (INT_MAX : ℚ) + 1 := by
    norm_num [outside_example, pair_store, body, empty_grid, INT_MIN, INT_MAX]
  have hroom : (empty_grid.cells
      (spec_cell_coord (outside_example 0).y empty_grid.cellHeight).toNat
      (spec_cell_coord (outside_example 0).x empty_grid.cellWidth).toNat).count
        < MAX_PARTICLES_PER_CELL := by
    simp [empty_grid, MAX_PARTICLES_PER_CELL]
  have h := add_particle_to_grid_owning_cell empty_grid outside_example 0 rfl hx hy hroom
  refine ⟨⟨rfl, hx, hy, hroom⟩, ⟨?_, ?_⟩, ?_, h.2.2.2⟩
  · norm_num [spec_cell_coord, outside_example, pair_store, body, empty_grid, GRID_SIZE]
  · norm_num [spec_cell_coord, outside_example, pair_store, body, empty_grid, GRID_SIZE]
  · rw [h.2.2.1]
    simp [empty_grid]

/-- C9 fails beyond the `int` range.  The active body of `far_example` sits at
`x = 299999985664`, `y = 300`; in the empty 800 x 600 grid (`cellWidth = 100`)
the quotient `x / cellWidth = 2999999856.64` exceeds `INT_MAX`, so the
conversion `(int)` overflows to `INT_MIN` and the clamp gives column 0.  The
clamped floor of the claim is column 7, row 4; that cell is left empty and
the index is appended to the cell in row 4, column 0 instead. -/
theorem add_particle_to_grid_owning_cell_counterexample :
    (far_example 0).active = true ∧
    (∀ a b, (empty_grid.cells a b).count < MAX_PARTICLES_PER_CELL) ∧
    spec_cell_coord (far_example 0).x empty_grid.cellWidth = 7 ∧
    spec_cell_coord (far_example 0).y empty_grid.cellHeight = 4 ∧
    cell_x empty_grid (far_example 0) = 0 ∧
    cell_y empty_grid (far_example 0) = 4 ∧
    ((add_particle_to_grid empty_grid far_example 0).cells 4 7).count = 0 ∧
    ((add_particle_to_grid empty_grid far_example 0).cells 4 0).count = 1 ∧
    ((add_particle_to_grid empty_grid far_example 0).cells 4 0).particleIndices 0 = 0 := by
  have hsx : spec_cell_coord (far_example 0).x empty_grid.cellWidth = 7 := by
    norm_num [spec_cell_coord, far_example, body, empty_grid, GRID_SIZE]
  have hsy : spec_cell_coord (far_example 0).y empty_grid.cellHeight = 4 := by
    norm_num [spec_cell_coord, far_example, body, empty_grid, GRID_SIZE]
  have hcx : cell_x empty_grid (far_example 0) = 0 := by
    norm_num [cell_x, clamp_cell, c_int, trunc_toward_zero, INT_MIN, INT_MAX, GRID_SIZE,
      far_example, body, empty_grid]
  have hcy : cell_y empty_grid (far_example 0) = 4 := by
    norm_num [cell_y, clamp_cell, c_int, trunc_toward_zero, INT_MIN, INT_MAX, GRID_SIZE,
      far_example, body, empty_grid]
  refine ⟨rfl, ?_, hsx, hsy, hcx, hcy, ?_, ?_, ?_⟩
  · intro a b
    simp [empty_grid, MAX_PARTICLES_PER_CELL]
  · rw [add_particle_to_grid_cells, hcx, hcy]
    simp [empty_grid]
  · rw [add_particle_to_grid_cells, hcx, hcy]
    simp [empty_grid, MAX_PARTICLES_PER_CELL, far_example, body]
  · rw [add_particle_to_grid_cells, hcx, hcy]
    simp [empty_grid, MAX_PARTICLES_PER_CELL, far_example, body]

/-- C10. In a grid whose cell counts are all at most `MAX_PARTICLES_PER_CELL`
(50), `add_particle_to_grid` of a body whose owning cell already holds 50
indices returns the grid unchanged (no count and no stored index of any cell
is altered), and after any call every count is still at most 50. -/
theorem add_particle_to_grid_full (grid : SpatialGrid) (particles : Store) (index : Nat)
    (hcap : ∀ a b, (grid.cells a b).count ≤ MAX_PARTICLES_PER_CELL) :
    ((grid.cells (cell_y grid (particles index)).toNat
          (cell_x grid (particles index)).toNat).count = MAX_PARTICLES_PER_CELL →
      add_particle_to_grid grid particles index = grid) ∧
    (∀ a b, ((add_particle_to_grid grid particles index).cells a b).count
      ≤ MAX_PARTICLES_PER_CELL) := by
  constructor
  · intro hfull
    unfold add_particle_to_grid
    simp [hfull]
  · intro a b
    rw [add_particle_to_grid_cells]
    split_ifs with h
    · exact h.2.2
    · exact hcap a b

/-- C10 at `full_grid` (every cell holds 50 indices) and the bodies of
`merge_example`: the hypothesis holds, the grid is returned unchanged and no
count exceeds 50. -/
theorem add_particle_to_grid_full_witness :
    (∀ a b, (full_grid.cells a b).count ≤ MAX_PARTICLES_PER_CELL) ∧
    (full_grid.cells (cell_y full_grid (merge_example 0)).toNat
        (cell_x full_grid (merge_example 0)).toNat).count = MAX_PARTICLES_PER_CELL ∧
    add_particle_to_grid full_grid merge_example 0 = full_grid ∧
    (∀ a b, ((add_particle_to_grid full_grid merge_example 0).cells a b).count
      ≤ MAX_PARTICLES_PER_CELL) :=
  ⟨fun _ _ => le_refl _, rfl,
    (add_particle_to_grid_full full_grid merge_example 0 (fun _ _ => le_refl _)).1 rfl,
    (add_particle_to_grid_full full_grid merge_example 0 (fun _ _ => le_refl _)).2⟩

/-! ### Clearing the grid -/

/-- Reading a cell after `grid->cells[i][j].count = c`. -/
theorem set_count_cells (grid : SpatialGrid) (i j c a b : Nat) :
    (set_count grid i j c).cells a b =
      if a = i ∧ b = j then { particleIndices := (grid.cells a b).particleIndices, count := c }
      else grid.cells a b := by
  unfold set_count
  simp only [update_update_apply]
  by_cases h : a = i ∧ b = j
  · obtain ⟨rfl, rfl⟩ := h
    simp
  · simp [h]

/-- The inner loop of `clear_grid` after `n` rounds. -/
theorem clear_row_cells (grid : SpatialGrid) (i n a b : Nat) :
    ((List.range n).foldl (fun grid j => set_count grid i j 0) grid).cells a b =
      if a = i ∧ b < n then { particleIndices := (grid.cells a b).particleIndices, count := 0 }
      else grid.cells a b := by
  induction n with
  | zero => simp
  | succ n ih =>
    rw [List.range_succ, List.foldl_append]
    simp only [List.foldl_cons, List.foldl_nil, set_count_cells, ih]
    by_cases ha : a = i
    · by_cases hb : b = n
      · subst ha hb
        simp
      · by_cases hlt : b < n
        · have : b < n + 1 := by omega
          simp [ha, hb, hlt, this]
        · have : ¬ b < n + 1 := by omega
          simp [ha, hb, hlt, this]
    · simp [ha]

/-- The inner loop of `clear_grid` leaves the geometry alone. -/
theorem clear_row_geometry (grid : SpatialGrid) (i n : Nat) :
    ((List.range n).foldl (fun grid j => set_count grid i j 0) grid).cellWidth =
        grid.cellWidth ∧
    ((List.range n).foldl (fun grid j => set_count grid i j 0) grid).cellHeight =
        grid.cellHeight := by
  induction n with
  | zero => simp
  | succ n ih =>
    rw [List.range_succ, List.foldl_append]
    simpa [set_count] using ih

/-- The outer loop of `clear_grid` after `m` rounds. -/
theorem clear_rows_cells (grid : SpatialGrid) (m a b : Nat) :
    ((List.range m).foldl
        (fun grid i => (List.range GRID_SIZE).foldl (fun grid j => set_count grid i j 0) grid)
        grid).cells a b =
      if a < m ∧ b < GRID_SIZE then
        { particleIndices := (grid.cells a b).particleIndices, count := 0 }
      else grid.cells a b := by
  induction m with
  | zero => simp
  | succ m ih =>
    rw [List.range_succ, List.foldl_append]
    simp only [List.foldl_cons, List.foldl_nil, clear_row_cells, ih]
    by_cases ha : a = m
    · subst ha
      by_cases hb : b < GRID_SIZE
      · simp [hb]
      · simp [hb]
    · by_cases hlt : a < m
      · have : a < m + 1 := by omega
        simp [ha, hlt, this]
      · have : ¬ a < m + 1 := by omega
        simp [ha, hlt, this]

/-- The outer loop of `clear_grid` leaves the geometry alone. -/
theorem clear_rows_geometry (grid : SpatialGrid) (m : Nat) :
    ((List.range m).foldl
        (fun grid i => (List.range GRID_SIZE).foldl (fun grid j => set_count grid i j 0) grid)
        grid).cellWidth = grid.cellWidth ∧
    ((List.range m).foldl
        (fun grid i => (List.range GRID_SIZE).foldl (fun grid j => set_count grid i j 0) grid)
        grid).cellHeight = grid.cellHeight := by
  induction m with
  | zero => simp
  | succ m ih =>
    rw [List.range_succ, List.foldl_append]
    simp only [List.foldl_cons, List.foldl_nil]
    obtain ⟨h1, h2⟩ := clear_row_geometry
      ((List.range m).foldl
        (fun grid i => (List.range GRID_SIZE).foldl (fun grid j => set_count grid i j 0) grid)
        grid) m GRID_SIZE
    exact ⟨h1.trans ih.1, h2.trans ih.2⟩

/-- `clear_grid` zeroes the count of every cell of the `8 x 8` array and
changes nothing else. -/
theorem clear_grid_cells (grid : SpatialGrid) (a b : Nat) :
    (clear_grid grid).cells a b =
      if a < GRID_SIZE ∧ b < GRID_SIZE then
        { particleIndices := (grid.cells a b).particleIndices, count := 0 }
      else grid.cells a b :=
  clear_rows_cells grid GRID_SIZE a b

/-- `clear_grid` leaves the geometry alone. -/
theorem clear_grid_geometry (grid : SpatialGrid) :
    (clear_grid grid).cellWidth = grid.cellWidth ∧
    (clear_grid grid).cellHeight = grid.cellHeight :=
  clear_rows_geometry grid GRID_SIZE

/-! ### Filling the grid -/

/-- The number of indices a cell holds is its `count`. -/
theorem GridCell.length_members (cell : GridCell) : cell.members.length = cell.count := by
  simp [GridCell.members]

/-- Storing an index in slot `count` and incrementing `count` appends it. -/
theorem GridCell.members_push (cell : GridCell) (index : Nat) :
    GridCell.members
        { particleIndices := Function.update cell.particleIndices cell.count index,
          count := cell.count + 1 } =
      cell.members ++ [index] := by
  unfold GridCell.members
  simp only [List.range_succ, List.map_append, List.map_cons, List.map_nil,
    Function.update_same]
  congr 1
  apply List.map_congr_left
  intro j hj
  have hne : j ≠ cell.count := Nat.ne_of_lt (List.mem_range.mp hj)
  exact Function.update_noteq hne _ _

/-- The column of a body depends on the grid only through `cellWidth`. -/
theorem cell_x_congr (g g' : SpatialGrid) (p : Particle) (h : g'.cellWidth = g.cellWidth) :
    cell_x g' p = cell_x g p := by
  unfold cell_x
  rw [h]

/-- The row of a body depends on the grid only through `cellHeight`. -/
theorem cell_y_congr (g g' : SpatialGrid) (p : Particle) (h : g'.cellHeight = g.cellHeight) :
    cell_y g' p = cell_y g p := by
  unfold cell_y
  rw [h]

/-- One more body: the list of a cell's bodies grows by it exactly when it is
active and owned by the cell. -/
theorem bodies_of_cell_succ (grid : SpatialGrid) (particles : Store) (k a b : Nat) :
    bodies_of_cell grid particles (k + 1) a b =
      bodies_of_cell grid particles k a b ++
        (if (particles k).active = true ∧ (a = (cell_y grid (particles k)).toNat ∧
            b = (cell_x grid (particles k)).toNat) then [k] else []) := by
  unfold bodies_of_cell
  rw [List.range_succ, List.filter_append]
  congr 1
  by_cases hact : (particles k).active = true
  · by_cases hy : (cell_y grid (particles k)).toNat = a
    · by_cases hx : (cell_x grid (particles k)).toNat = b
      · simp [hact, hy, hx]
      · have hx' : ¬ b = (cell_x grid (particles k)).toNat := fun h => hx h.symm
        simp [hact, hy, hx, hx']
    · have hy' : ¬ a = (cell_y grid (particles k)).toNat := fun h => hy h.symm
      simp [hact, hy, hy']
  · simp [hact]

/-- Taking at most `n` elements after appending one, for a list that was itself
cut at `n`. -/
theorem take_append_singleton {α : Type} (n : Nat) (l : List α) (x : α) :
    List.take n (l ++ [x]) =
      if (List.take n l).length < n then List.take n l ++ [x] else List.take n l := by
  rw [List.length_take]
  by_cases h : l.length < n
  · have h1 : min n l.length < n := by omega
    rw [if_pos h1, List.take_of_length_le (by simp; omega), List.take_of_length_le (by omega)]
  · have h1 : ¬ min n l.length < n := by omega
    rw [if_neg h1, List.take_append_of_le_length (by omega)]

/-- Loop invariant of the filling loop: after `k` rounds the geometry is that of
the initial grid and every cell of the `8 x 8` array holds, in index order, the
first `MAX_PARTICLES_PER_CELL` of the active bodies `i < k` that it owns. -/
theorem fill_loop_invariant (grid : SpatialGrid) (particles : Store) (k : Nat) :
    (((List.range k).foldl
        (fun grid i =>
          if (particles i).active then add_particle_to_grid grid particles i else grid)
        (clear_grid grid)).cellWidth = grid.cellWidth ∧
      ((List.range k).foldl
        (fun grid i =>
          if (particles i).active then add_particle_to_grid grid particles i else grid)
        (clear_grid grid)).cellHeight = grid.cellHeight) ∧
    ∀ a b, a < GRID_SIZE → b < GRID_SIZE →
      (((List.range k).foldl
        (fun grid i =>
          if (particles i).active then add_particle_to_grid grid particles i else grid)
        (clear_grid grid)).cells a b).members =
        List.take MAX_PARTICLES_PER_CELL (bodies_of_cell grid particles k a b) := by
  induction k with
  | zero =>
    refine ⟨by simpa using clear_grid_geometry grid, ?_⟩
    intro a b ha hb
    simp [clear_grid_cells, ha, hb, GridCell.members, bodies_of_cell]
  | succ k ih =>
    obtain ⟨⟨hw, hh⟩, hcells⟩ := ih
    rw [List.range_succ, List.foldl_append]
    simp only [List.foldl_cons, List.foldl_nil]
    generalize (List.range k).foldl
        (fun grid i =>
          if (particles i).active then add_particle_to_grid grid particles i else grid)
        (clear_grid grid) = gk at hw hh hcells ⊢
    by_cases hact : (particles k).active = true
    · simp only [hact, if_true]
      obtain ⟨gw, gh⟩ := add_particle_to_grid_geometry gk particles k
      refine ⟨⟨gw.trans hw, gh.trans hh⟩, ?_⟩
      intro a b ha hb
      rw [add_particle_to_grid_cells, bodies_of_cell_succ, cell_x_congr grid gk _ hw,
        cell_y_congr grid gk _ hh]
      by_cases hab : a = (cell_y grid (particles k)).toNat ∧
          b = (cell_x grid (particles k)).toNat
      · have hk := hcells a b ha hb
        obtain ⟨rfl, rfl⟩ := hab
        simp only [hact, and_self, true_and, if_true]
        rw [take_append_singleton, ← hk, GridCell.length_members]
        split_ifs with hc
        · exact GridCell.members_push _ _
        · rfl
      · simp only [hab, and_false, false_and, if_false, List.append_nil]
        exact hcells a b ha hb
    · simp only [hact, Bool.false_eq_true, if_false]
      refine ⟨⟨hw, hh⟩, ?_⟩
      intro a b ha hb
      rw [bodies_of_cell_succ]
      simp only [hact, Bool.false_eq_true, false_and, if_false, List.append_nil]
      exact hcells a b ha hb

/-- After `fill_grid` every cell of the `8 x 8` array holds, in index order, the
first `MAX_PARTICLES_PER_CELL` active bodies it owns. -/
theorem fill_grid_cells (grid : SpatialGrid) (particles : Store) (count : Nat) (a b : Nat)
    (ha : a < GRID_SIZE) (hb : b < GRID_SIZE) :
    ((fill_grid grid particles count).cells a b).members =
      List.take MAX_PARTICLES_PER_CELL (bodies_of_cell grid particles count a b) :=
  (fill_loop_invariant grid particles count).2 a b ha hb

/-- `fill_grid` leaves the geometry alone. -/
theorem fill_grid_geometry (grid : SpatialGrid) (particles : Store) (count : Nat) :
    (fill_grid grid particles count).cellWidth = grid.cellWidth ∧
    (fill_grid grid particles count).cellHeight = grid.cellHeight :=
  (fill_loop_invariant grid particles count).1

/-- What membership in a cell's list of bodies means. -/
theorem mem_bodies_of_cell (grid : SpatialGrid) (particles : Store) (count a b i : Nat) :
    i ∈ bodies_of_cell grid particles count a b ↔
      i < count ∧ (particles i).active = true ∧
        (cell_y grid (particles i)).toNat = a ∧ (cell_x grid (particles i)).toNat = b := by
  unfold bodies_of_cell
  simp [List.mem_filter, and_assoc]

/-- A cell's list of bodies has no duplicates. -/
theorem nodup_bodies_of_cell (grid : SpatialGrid) (particles : Store) (count a b : Nat) :
    (bodies_of_cell grid particles count a b).Nodup :=
  List.Nodup.filter _ (List.nodup_range count)

/-- An index stored in a cell after `fill_grid` is an active body owned by it. -/
theorem mem_fill_grid_cell (grid : SpatialGrid) (particles : Store) (count a b i : Nat)
    (ha : a < GRID_SIZE) (hb : b < GRID_SIZE)
    (hi : i ∈ ((fill_grid grid particles count).cells a b).members) :
    i < count ∧ (particles i).active = true ∧
      (cell_y grid (particles i)).toNat = a ∧ (cell_x grid (particles i)).toNat = b := by
  rw [fill_grid_cells grid particles count a b ha hb] at hi
  exact (mem_bodies_of_cell grid particles count a b i).mp (List.mem_of_mem_take hi)

/-- After `fill_grid` no index is stored twice in the grid. -/
theorem nodup_members_fill_grid (grid : SpatialGrid) (particles : Store) (count : Nat) :
    (fill_grid grid particles count).members.Nodup := by
  unfold SpatialGrid.members
  rw [List.nodup_flatMap]
  constructor
  · intro a ha
    have ha' : a < GRID_SIZE := List.mem_range.mp ha
    rw [List.nodup_flatMap]
    constructor
    · intro b hb
      have hb' : b < GRID_SIZE := List.mem_range.mp hb
      rw [fill_grid_cells grid particles count a b ha' hb']
      exact (nodup_bodies_of_cell grid particles count a b).sublist (List.take_sublist _ _)
    · refine List.Pairwise.imp_of_mem ?_ (List.nodup_range GRID_SIZE)
      intro b b' hb hb' hne
      rw [Function.onFun, List.disjoint_left]
      intro i hi hi'
      have h1 := mem_fill_grid_cell grid particles count a b i ha' (List.mem_range.mp hb) hi
      have h2 := mem_fill_grid_cell grid particles count a b' i ha' (List.mem_range.mp hb') hi'
      exact hne (h1.2.2.2.symm.trans h2.2.2.2)
  · refine List.Pairwise.imp_of_mem ?_ (List.nodup_range GRID_SIZE)
    intro a a' ha ha' hne
    rw [Function.onFun, List.disjoint_left]
    intro i hi hi'
    obtain ⟨b, hb, hib⟩ := List.mem_flatMap.mp hi
    obtain ⟨b', hb', hib'⟩ := List.mem_flatMap.mp hi'
    have h1 := mem_fill_grid_cell grid particles count a b i (List.mem_range.mp ha)
      (List.mem_range.mp hb) hib
    have h2 := mem_fill_grid_cell grid particles count a' b' i (List.mem_range.mp ha')
      (List.mem_range.mp hb') hib'
    exact hne (h1.2.2.1.symm.trans h2.2.2.1)

/-- Every index stored in the grid after `fill_grid` is an active body. -/
theorem mem_members_fill_grid (grid : SpatialGrid) (particles : Store) (count i : Nat)
    (hi : i ∈ (fill_grid grid particles count).members) :
    i ∈ active_indices particles count := by
  unfold SpatialGrid.members at hi
  obtain ⟨a, ha, hi⟩ := List.mem_flatMap.mp hi
  obtain ⟨b, hb, hi⟩ := List.mem_flatMap.mp hi
  have h := mem_fill_grid_cell grid particles count a b i (List.mem_range.mp ha)
    (List.mem_range.mp hb) hi
  unfold active_indices
  exact List.mem_filter.mpr ⟨List.mem_range.mpr h.1, h.2.1⟩

/-- An active body whose owning cell receives at most `MAX_PARTICLES_PER_CELL`
bodies is stored in the grid after `fill_grid`. -/
theorem mem_members_of_room (grid : SpatialGrid) (particles : Store) (count i : Nat)
    (hi : i ∈ active_indices particles count)
    (hroom : (bodies_of_cell grid particles count (cell_y grid (particles i)).toNat
      (cell_x grid (particles i)).toNat).length ≤ MAX_PARTICLES_PER_CELL) :
    i ∈ (fill_grid grid particles count).members := by
  unfold active_indices at hi
  obtain ⟨hlt, hact⟩ := List.mem_filter.mp hi
  have hy : (cell_y grid (particles i)).toNat < GRID_SIZE := clamp_cell_toNat_lt _
  have hx : (cell_x grid (particles i)).toNat < GRID_SIZE := clamp_cell_toNat_lt _
  unfold SpatialGrid.members
  refine List.mem_flatMap.mpr ⟨_, List.mem_range.mpr hy, List.mem_flatMap.mpr
    ⟨_, List.mem_range.mpr hx, ?_⟩⟩
  rw [fill_grid_cells grid particles count _ _ hy hx, List.take_of_length_le hroom]
  exact (mem_bodies_of_cell grid particles count _ _ i).mpr
    ⟨List.mem_range.mp hlt, hact, rfl, rfl⟩

/-- C8, as stated, fails: with the 51 active bodies of `crowded_example`, all
in one cell, body 50 is active but its index is not stored in any cell after
`clear_grid` and the adding loop, so the stored indices are not the active ones. -/
theorem fill_grid_complete_counterexample :
    50 ∈ active_indices crowded_example 51 ∧
    50 ∉ (fill_grid empty_grid crowded_example 51).members ∧
    ¬ (fill_grid empty_grid crowded_example 51).members.Perm
        (active_indices crowded_example 51) := by
  have hact : 50 ∈ active_indices crowded_example 51 := by
    unfold active_indices
    exact List.mem_filter.mpr ⟨List.mem_range.mpr (by norm_num), rfl⟩
  have hnot : 50 ∉ (fill_grid empty_grid crowded_example 51).members := by
    intro hmem
    unfold SpatialGrid.members at hmem
    obtain ⟨a, ha, hmem⟩ := List.mem_flatMap.mp hmem
    obtain ⟨b, hb, hmem⟩ := List.mem_flatMap.mp hmem
    have ha' := List.mem_range.mp ha
    have hb' := List.mem_range.mp hb
    obtain ⟨-, -, hy, hx⟩ := mem_fill_grid_cell empty_grid crowded_example 51 a b 50 ha' hb' hmem
    rw [fill_grid_cells empty_grid crowded_example 51 a b ha' hb'] at hmem
    have hall : bodies_of_cell empty_grid crowded_example 51 a b = List.range 51 := by
      unfold bodies_of_cell
      rw [List.filter_eq_self]
      intro i _
      have hi : crowded_example i = crowded_example 50 := rfl
      rw [hi, hy, hx]
      simp [crowded_example, body]
    rw [hall, MAX_PARTICLES_PER_CELL, List.take_range] at hmem
    have := List.mem_range.mp hmem
    omega
  exact ⟨hact, hnot, fun hperm => hnot (hperm.mem_iff.mpr hact)⟩

/-- C8, amended. For every body store of any size, after `clear_grid` followed
by `add_particle_to_grid` for every index, the indices stored in all `8 x 8`
cells taken together are indices of active bodies, each appearing at most once;
and when no cell owns more than `MAX_PARTICLES_PER_CELL` (50) active bodies
they are exactly the indices of the active bodies, each appearing exactly once. -/
theorem fill_grid_complete (grid : SpatialGrid) (particles : Store) (count : Nat) :
    ((fill_grid grid particles count).members.Nodup ∧
      ∀ i ∈ (fill_grid grid particles count).members, i ∈ active_indices particles count) ∧
    ((∀ a b, a < GRID_SIZE → b < GRID_SIZE →
        (bodies_of_cell grid particles count a b).length ≤ MAX_PARTICLES_PER_CELL) →
      (fill_grid grid particles count).members.Perm (active_indices particles count)) := by
  refine ⟨⟨nodup_members_fill_grid grid particles count,
    fun i hi => mem_members_fill_grid grid particles count i hi⟩, ?_⟩
  intro hroom
  have hnd : (active_indices particles count).Nodup :=
    List.Nodup.filter _ (List.nodup_range count)
  rw [List.perm_ext_iff_of_nodup (nodup_members_fill_grid grid particles count) hnd]
  intro i
  constructor
  · exact mem_members_fill_grid grid particles count i
  · intro hi
    exact mem_members_of_room grid particles count i hi
      (hroom _ _ (clamp_cell_toNat_lt _) (clamp_cell_toNat_lt _))

/-- C8 (amended) at the two bodies of `merge_example` and the empty 800 x 600
grid: no cell owns more than 50 bodies, and the stored indices are a
permutation of the active indices. -/
theorem fill_grid_complete_witness :
    (∀ a b, a < GRID_SIZE → b < GRID_SIZE →
        (bodies_of_cell empty_grid merge_example 2 a b).length ≤ MAX_PARTICLES_PER_CELL) ∧
    (fill_grid empty_grid merge_example 2).members.Perm (active_indices merge_example 2) :=
  ⟨fun _ _ _ _ => le_trans (List.length_filter_le _ _) (by simp [MAX_PARTICLES_PER_CELL]),
    (fill_grid_complete empty_grid merge_example 2).2
      (fun _ _ _ _ => le_trans (List.length_filter_le _ _) (by simp [MAX_PARTICLES_PER_CELL]))⟩

/-! ## The loops over the cells -/

/-- A loop whose body does nothing leaves the state alone. -/
theorem foldl_of_forall_id {α β : Type} (f : α → β → α) (l : List β)
    (hid : ∀ s x, x ∈ l → f s x = s) (s : α) : l.foldl f s = s := by
  induction l generalizing s with
  | nil => rfl
  | cons x xs ih =>
    rw [List.foldl_cons, hid s x (List.mem_cons_self x xs)]
    exact ih (fun s y hy => hid s y (List.mem_cons_of_mem x hy)) s

/-- A loop over distinct values whose body acts at one value only acts once. -/
theorem foldl_of_single {α β : Type} (f : α → β → α) (l : List β) (x0 : β)
    (hnd : l.Nodup) (hmem : x0 ∈ l) (hid : ∀ s x, x ∈ l → x ≠ x0 → f s x = s) (s : α) :
    l.foldl f s = f s x0 := by
  induction l generalizing s with
  | nil => exact absurd hmem (List.not_mem_nil x0)
  | cons x xs ih =>
    rw [List.foldl_cons]
    rw [List.nodup_cons] at hnd
    by_cases hx : x = x0
    · subst hx
      apply foldl_of_forall_id
      intro t y hy
      apply hid t y (List.mem_cons_of_mem x hy)
      rintro rfl
      exact hnd.1 hy
    · rw [hid s x (List.mem_cons_self x xs) hx]
      have hmem' : x0 ∈ xs := by
        rcases List.mem_cons.mp hmem with h | h
        · exact absurd h.symm hx
        · exact h
      exact ih hnd.2 hmem' (fun t y hy => hid t y (List.mem_cons_of_mem x hy)) s

/-- The values a loop `for (n = lo; n <= hi; n++)` runs through. -/
theorem mem_int_range (lo hi x : Int) : x ∈ int_range lo hi ↔ lo ≤ x ∧ x ≤ hi := by
  unfold int_range
  simp only [List.mem_map, List.mem_range]
  constructor
  · rintro ⟨k, hk, rfl⟩
    omega
  · rintro ⟨h1, h2⟩
    refine ⟨(x - lo).toNat, ?_, ?_⟩ <;> omega

/-- The neighbour loops only visit cells of the `8 x 8` array. -/
theorem mem_neighbor_range (c : Nat) (n : Int)
    (hn : n ∈ int_range (max_int 0 ((c : Int) - 1)) (min_int ((GRID_SIZE : Int) - 1) (c + 1))) :
    0 ≤ n ∧ n.toNat < GRID_SIZE := by
  rw [mem_int_range] at hn
  unfold max_int min_int GRID_SIZE at *
  obtain ⟨h1, h2⟩ := hn
  split_ifs at h1 h2 <;> omega

/-- A cell holding no index contributes nothing to the pair loops. -/
theorem cell_loop_empty (sqrtf : ℚ → ℚ) (grid : SpatialGrid) (cellY cellX : Nat) (dt : ℚ)
    (particles : Store) (h : (grid.cells cellY cellX).count = 0) :
    cell_loop sqrtf grid cellY cellX dt particles = particles := by
  unfold cell_loop
  simp [h]

/-- The neighbour loops do nothing when every other cell is empty. -/
theorem neighbor_loop_empty (sqrtf : ℚ → ℚ) (grid : SpatialGrid) (cellY cellX : Nat)
    (p1Index : Nat) (dt : ℚ) (particles : Store)
    (h : ∀ a b, a < GRID_SIZE → b < GRID_SIZE → ¬ (a = cellY ∧ b = cellX) →
      (grid.cells a b).count = 0) :
    neighbor_loop sqrtf grid cellY cellX p1Index dt particles = particles := by
  unfold neighbor_loop
  apply foldl_of_forall_id
  intro s nY hY
  apply foldl_of_forall_id
  intro t nX hX
  obtain ⟨hY0, hYlt⟩ := mem_neighbor_range cellY nY hY
  obtain ⟨hX0, hXlt⟩ := mem_neighbor_range cellX nX hX
  split_ifs with hsame
  · rfl
  · have hne : ¬ (nY.toNat = cellY ∧ nX.toNat = cellX) := by
      rintro ⟨e1, e2⟩
      apply hsame
      constructor <;> omega
    simp [h nY.toNat nX.toNat hYlt hXlt hne]

/-- With a single stored index in the whole grid, the pair loops reduce to one
call of `update_particle` on that body. -/
theorem update_particles_pairs_single (sqrtf : ℚ → ℚ) (grid : SpatialGrid) (particles : Store)
    (dt : ℚ) (cellY cellX : Nat) (hY : cellY < GRID_SIZE) (hX : cellX < GRID_SIZE)
    (hone : (grid.cells cellY cellX).count = 1)
    (hact : (particles ((grid.cells cellY cellX).particleIndices 0)).active = true)
    (hrest : ∀ a b, a < GRID_SIZE → b < GRID_SIZE → ¬ (a = cellY ∧ b = cellX) →
      (grid.cells a b).count = 0) :
    update_particles_pairs sqrtf grid particles dt =
      update_particle particles ((grid.cells cellY cellX).particleIndices 0) dt := by
  unfold update_particles_pairs
  rw [foldl_of_single _ (List.range GRID_SIZE) cellY (List.nodup_range _)
    (List.mem_range.mpr hY)]
  · rw [foldl_of_single _ (List.range GRID_SIZE) cellX (List.nodup_range _)
      (List.mem_range.mpr hX)]
    · unfold cell_loop
      have hr : List.range 1 = [0] := rfl
      simp only [hone, hr, List.foldl_cons, List.foldl_nil, hact, Bool.not_true,
        Bool.false_eq_true, if_false]
      rw [neighbor_loop_empty sqrtf grid cellY cellX _ dt _ hrest]
      unfold same_cell_loop
      simp [hone]
    · intro s b hb hne
      exact cell_loop_empty sqrtf grid cellY b dt s
        (hrest cellY b hY (List.mem_range.mp hb) (fun h => hne h.2))
  · intro s a ha hne
    apply foldl_of_forall_id
    intro t b hb
    exact cell_loop_empty sqrtf grid a b dt t
      (hrest a b (List.mem_range.mp ha) (List.mem_range.mp hb) (fun h => hne h.1))

/-- The grid after `fill_grid` for a store with one body, which is active: its
owning cell holds exactly index 0 and every other cell is empty. -/
theorem fill_grid_single (grid : SpatialGrid) (particles : Store)
    (hact : (particles 0).active = true) :
    ((fill_grid grid particles 1).cells (cell_y grid (particles 0)).toNat
        (cell_x grid (particles 0)).toNat).count = 1 ∧
    ((fill_grid grid particles 1).cells (cell_y grid (particles 0)).toNat
        (cell_x grid (particles 0)).toNat).particleIndices 0 = 0 ∧
    (∀ a b, a < GRID_SIZE → b < GRID_SIZE →
      ¬ (a = (cell_y grid (particles 0)).toNat ∧ b = (cell_x grid (particles 0)).toNat) →
      ((fill_grid grid particles 1).cells a b).count = 0) := by
  have hbod : ∀ a b, bodies_of_cell grid particles 1 a b =
      if a = (cell_y grid (particles 0)).toNat ∧ b = (cell_x grid (particles 0)).toNat
      then [0] else [] := by
    intro a b
    rw [bodies_of_cell_succ]
    simp [bodies_of_cell, hact]
  have hy : (cell_y grid (particles 0)).toNat < GRID_SIZE := clamp_cell_toNat_lt _
  have hx : (cell_x grid (particles 0)).toNat < GRID_SIZE := clamp_cell_toNat_lt _
  have hown := fill_grid_cells grid particles 1 _ _ hy hx
  rw [hbod] at hown
  simp only [and_self, if_true, MAX_PARTICLES_PER_CELL] at hown
  have hcount : ((fill_grid grid particles 1).cells (cell_y grid (particles 0)).toNat
      (cell_x grid (particles 0)).toNat).count = 1 := by
    rw [← GridCell.length_members, hown]
    rfl
  refine ⟨hcount, ?_, ?_⟩
  · unfold GridCell.members at hown
    rw [hcount] at hown
    have hr : List.range 1 = [0] := rfl
    rw [hr] at hown
    simpa using hown
  · intro a b ha hb hne
    have hcell := fill_grid_cells grid particles 1 a b ha hb
    rw [hbod, if_neg hne] at hcell
    rw [← GridCell.length_members, hcell]
    rfl

/-- One `update_particles` step on a store with a single, active body is one
call of `update_particle` on it, whatever the statics hold. -/
theorem update_particles_single (sqrtf : ℚ → ℚ) (st : GridStatic) (particles : Store)
    (dt : ℚ) (hact : (particles 0).active = true) :
    (update_particles sqrtf st particles 1 dt).2 = update_particle particles 0 dt := by
  unfold update_particles
  simp only
  generalize (if (!st.gridInitialized) = true then
      ({ grid := init_grid st.grid 800 600, gridInitialized := true } : GridStatic)
    else st) = st'
  obtain ⟨hone, hzero, hrest⟩ := fill_grid_single st'.grid particles hact
  have h := update_particles_pairs_single sqrtf (fill_grid st'.grid particles 1) particles dt
    (cell_y st'.grid (particles 0)).toNat (cell_x st'.grid (particles 0)).toNat
    (clamp_cell_toNat_lt _) (clamp_cell_toNat_lt _) hone (by rw [hzero]; exact hact) hrest
  rw [hzero] at h
  exact h

/-- C7. For every active body and every `dt`, on each axis independently: if
after `position += velocity * dt` the leading edge `position - radius` is below
0, `update_particle` sets that coordinate to the radius and that velocity
component to `-0.8` times its previous value. And a single body at `(5, 300)`
with radius 10 and velocity `(-2, 0)` (any mass and colour) ends one
`update_particles` step (any statics, any `sqrtf`, any `dt >= 0`) with `x = 10`
and `vx = 1.6`. -/
theorem update_particle_lower_bounce :
    (∀ (mem : Store) (p : Nat) (dt : ℚ), (mem p).active = true →
      ((mem p).x + (mem p).vx * dt - (mem p).radius < 0 →
        (update_particle mem p dt p).x = (mem p).radius ∧
        (update_particle mem p dt p).vx = -(8 / 10) * (mem p).vx) ∧
      ((mem p).y + (mem p).vy * dt - (mem p).radius < 0 →
        (update_particle mem p dt p).y = (mem p).radius ∧
        (update_particle mem p dt p).vy = -(8 / 10) * (mem p).vy)) ∧
    (∀ (sqrtf : ℚ → ℚ) (st : GridStatic) (particles : Store) (dt : ℚ),
      (particles 0).active = true → (particles 0).x = 5 → (particles 0).y = 300 →
      (particles 0).radius = 10 → (particles 0).vx = -2 → (particles 0).vy = 0 → 0 ≤ dt →
      ((update_particles sqrtf st particles 1 dt).2 0).x = 10 ∧
      ((update_particles sqrtf st particles 1 dt).2 0).vx = 16 / 10) := by
  have gen : ∀ (mem : Store) (p : Nat) (dt : ℚ), (mem p).active = true →
      ((mem p).x + (mem p).vx * dt - (mem p).radius < 0 →
        (update_particle mem p dt p).x = (mem p).radius ∧
        (update_particle mem p dt p).vx = -(8 / 10) * (mem p).vx) ∧
      ((mem p).y + (mem p).vy * dt - (mem p).radius < 0 →
        (update_particle mem p dt p).y = (mem p).radius ∧
        (update_particle mem p dt p).vy = -(8 / 10) * (mem p).vy) := by
    intro mem p dt h
    obtain ⟨ex, evx, ey, evy, -, -, -⟩ := update_particle_active mem p dt h
    constructor
    · intro hlt
      rw [ex, evx, if_pos hlt, if_pos hlt]
      exact ⟨rfl, by ring⟩
    · intro hlt
      rw [ey, evy, if_pos hlt, if_pos hlt]
      exact ⟨rfl, by ring⟩
  refine ⟨gen, ?_⟩
  intro sqrtf st particles dt hact hx _hy hr hvx _hvy hdt
  rw [update_particles_single sqrtf st particles dt hact]
  have hlt : (particles 0).x + (particles 0).vx * dt - (particles 0).radius < 0 := by
    rw [hx, hvx, hr]
    linarith
  obtain ⟨h1, h2⟩ := (gen particles 0 dt hact).1 hlt
  rw [h1, h2, hr, hvx]
  constructor <;> norm_num

/-- C7 at `bounce_example` with `dt = 1/20`, from the initial statics: the body
is active, its leading edge ends left of 0, it is put at `x = radius` with
`vx = -0.8 * (-2)`, and the whole step gives `x = 10`, `vx = 1.6`. -/
theorem update_particle_lower_bounce_witness :
    ((bounce_example 0).active = true ∧
      (bounce_example 0).x + (bounce_example 0).vx * (1 / 20) - (bounce_example 0).radius < 0 ∧
      (0 : ℚ) ≤ 1 / 20) ∧
    ((update_particle bounce_example 0 (1 / 20) 0).x = (bounce_example 0).radius ∧
      (update_particle bounce_example 0 (1 / 20) 0).vx = -(8 / 10) * (bounce_example 0).vx) ∧
    (((update_particles Rat.sqrt GridStatic.initial bounce_example 1 (1 / 20)).2 0).x = 10 ∧
      ((update_particles Rat.sqrt GridStatic.initial bounce_example 1 (1 / 20)).2 0).vx
        = 16 / 10) :=
  ⟨⟨rfl, by norm_num [bounce_example, body], by norm_num⟩,
    (update_particle_lower_bounce.1 bounce_example 0 (1 / 20) rfl).1
      (by norm_num [bounce_example, body]),
    update_particle_lower_bounce.2 Rat.sqrt GridStatic.initial bounce_example (1 / 20)
      rfl rfl rfl rfl rfl rfl (by norm_num)⟩

/-! ## Inactive bodies -/

/-- `apply_gravity` returns at once when one of the two bodies is inactive. -/
theorem apply_gravity_inactive (sqrtf : ℚ → ℚ) (mem : Store) (p1 p2 : Nat) (dt : ℚ)
    (h : (mem p1).active = false ∨ (mem p2).active = false) :
    apply_gravity sqrtf mem p1 p2 dt = mem := by
  unfold apply_gravity
  rcases h with h | h <;> simp [h]

/-- `check_collision` returns 0 when one of the two bodies is inactive. -/
theorem check_collision_inactive (mem : Store) (p1 p2 : Nat)
    (h : (mem p1).active = false ∨ (mem p2).active = false) :
    check_collision mem p1 p2 = false := by
  unfold check_collision
  rcases h with h | h <;> simp [h]

/-- A collision is only reported for two active bodies. -/
theorem check_collision_active (mem : Store) (p1 p2 : Nat)
    (h : check_collision mem p1 p2 = true) :
    (mem p1).active = true ∧ (mem p2).active = true := by
  by_cases h1 : (mem p1).active = true
  · by_cases h2 : (mem p2).active = true
    · exact ⟨h1, h2⟩
    · rw [check_collision_inactive mem p1 p2 (Or.inr (by simpa using h2))] at h
      exact absurd h (by simp)
  · rw [check_collision_inactive mem p1 p2 (Or.inl (by simpa using h1))] at h
    exact absurd h (by simp)

/-- `update_particle` does nothing to an inactive body. -/
theorem update_particle_inactive (mem : Store) (p : Nat) (dt : ℚ)
    (h : (mem p).active = false) : update_particle mem p dt = mem := by
  unfold update_particle
  simp [h]

/-- The per-pair step of `update_particles` (gravity, collision test, merge)
does nothing when one of the two bodies is inactive. -/
theorem interact_inactive (sqrtf : ℚ → ℚ) (mem : Store) (p1 p2 : Nat) (dt : ℚ)
    (h : (mem p1).active = false ∨ (mem p2).active = false) :
    interact sqrtf mem p1 p2 dt = mem := by
  unfold interact
  by_cases h2 : (mem p2).active = true
  · simp only [h2, Bool.not_true, Bool.false_eq_true, if_false]
    rw [apply_gravity_inactive sqrtf mem p1 p2 dt h, check_collision_inactive mem p1 p2 h]
    simp
  · simp [h2]

/-- C11, as stated, fails for `merge_particles`, which has no check of the
active flags: at `inactive_example` the inactive body in slot 1 is the heavier
one, and the call raises its mass from 20 to 30 and deactivates the active
body in slot 0. -/
theorem merge_particles_inactive_counterexample :
    (inactive_example 1).active = false ∧
    (inactive_example 1).mass = 20 ∧
    (merge_particles Rat.sqrt inactive_example 0 1 1).mass = 30 ∧
    (inactive_example 0).active = true ∧
    (merge_particles Rat.sqrt inactive_example 0 1 0).active = false ∧
    merge_particles Rat.sqrt inactive_example 0 1 ≠ inactive_example := by
  have hlt : (inactive_example 0).mass < (inactive_example 1).mass := by
    norm_num [inactive_example, body]
  obtain ⟨-, hb, hm, -, -⟩ :=
    merge_particles_keep_second Rat.sqrt inactive_example 0 1 (by decide) hlt
  have hm30 : (merge_particles Rat.sqrt inactive_example 0 1 1).mass = 30 := by
    rw [hm]
    norm_num [inactive_example, body]
  refine ⟨rfl, rfl, hm30, rfl, hb, ?_⟩
  intro heq
  rw [heq] at hb
  exact absurd hb (by decide)

/-- C11, amended. Calling `apply_gravity`, `check_collision` or
`update_particle` with an already-inactive body is a no-op: the store is
returned unchanged (no field of the inactive body, nor of the other body of the
pair, changes) and `check_collision` returns false. `merge_particles` has no
such check of its own; `update_particles` reaches it only after
`check_collision`, so its whole per-pair step (gravity, collision test, merge)
is a no-op when either body is inactive. -/
theorem inactive_body_noop (sqrtf : ℚ → ℚ) (mem : Store) (p1 p2 : Nat) (dt : ℚ)
    (h : (mem p1).active = false ∨ (mem p2).active = false) :
    apply_gravity sqrtf mem p1 p2 dt = mem ∧
    check_collision mem p1 p2 = false ∧
    interact sqrtf mem p1 p2 dt = mem ∧
    ((mem p1).active = false → update_particle mem p1 dt = mem) ∧
    ((mem p2).active = false → update_particle mem p2 dt = mem) :=
  ⟨apply_gravity_inactive sqrtf mem p1 p2 dt h, check_collision_inactive mem p1 p2 h,
    interact_inactive sqrtf mem p1 p2 dt h,
    fun h1 => update_particle_inactive mem p1 dt h1,
    fun h2 => update_particle_inactive mem p2 dt h2⟩

/-- C11 (amended) at `inactive_example`, whose slot 1 is inactive: the
hypothesis holds and the operations return the store unchanged. -/
theorem inactive_body_noop_witness :
    ((inactive_example 0).active = false ∨ (inactive_example 1).active = false) ∧
    apply_gravity Rat.sqrt inactive_example 0 1 (1 / 20) = inactive_example ∧
    check_collision inactive_example 0 1 = false ∧
    interact Rat.sqrt inactive_example 0 1 (1 / 20) = inactive_example ∧
    update_particle inactive_example 1 (1 / 20) = inactive_example :=
  ⟨Or.inr rfl,
    (inactive_body_noop Rat.sqrt inactive_example 0 1 (1 / 20) (Or.inr rfl)).1,
    (inactive_body_noop Rat.sqrt inactive_example 0 1 (1 / 20) (Or.inr rfl)).2.1,
    (inactive_body_noop Rat.sqrt inactive_example 0 1 (1 / 20) (Or.inr rfl)).2.2.1,
    (inactive_body_noop Rat.sqrt inactive_example 0 1 (1 / 20) (Or.inr rfl)).2.2.2.2 rfl⟩

/-! ## Which body survives a merge -/

/-- Reading any slot after a write through a pointer. -/
theorem Store.modify_apply (mem : Store) (p q : Nat) (f : Particle → Particle) :
    mem.modify p f q = if q = p then f (mem p) else mem q := by
  by_cases h : q = p
  · subst h
    simp
  · simp [h]

/-- The complete effect of `merge_particles` on two distinct bodies when the
first is not the lighter one: the first absorbs the second. -/
theorem merge_particles_first_full (sqrtf : ℚ → ℚ) (mem : Store) (p1 p2 : Nat)
    (hne : p1 ≠ p2) (hge : ¬ (mem p1).mass < (mem p2).mass) :
    merge_particles sqrtf mem p1 p2 p1 =
      Particle.mk (mem p1).x (mem p1).y
        (((mem p1).vx * (mem p1).mass + (mem p2).vx * (mem p2).mass) /
          ((mem p1).mass + (mem p2).mass))
        (((mem p1).vy * (mem p1).mass + (mem p2).vy * (mem p2).mass) /
          ((mem p1).mass + (mem p2).mass))
        ((mem p1).mass + (mem p2).mass)
        (calculate_radius sqrtf ((mem p1).mass + (mem p2).mass))
        (SDL_Color.mk
          (if c_uint8 (128 + ((mem p1).mass + (mem p2).mass) / 100 * 127) > 255 then 255
           else c_uint8 (128 + ((mem p1).mass + (mem p2).mass) / 100 * 127))
          (c_uint8 (192 - ((mem p1).mass + (mem p2).mass) / 100 * 128))
          (c_uint8 (255 - ((mem p1).mass + (mem p2).mass) / 100 * 128))
          (mem p1).color.a)
        (mem p1).active ∧
    merge_particles sqrtf mem p1 p2 p2 =
      Particle.mk (mem p2).x (mem p2).y (mem p2).vx (mem p2).vy (mem p2).mass (mem p2).radius
        (mem p2).color false ∧
    ∀ q, q ≠ p1 → q ≠ p2 → merge_particles sqrtf mem p1 p2 q = mem q := by
  have hne' : p2 ≠ p1 := fun h => hne h.symm
  refine ⟨?_, ?_, ?_⟩
  · simp [merge_particles, hge, hne, hne']
  · simp [merge_particles, hge, hne, hne']
  · intro q h1 h2
    simp [merge_particles, hge, h1, h2]

/-- When the first body is the lighter one, `merge_particles` swaps its two
pointers: the call is the call with the arguments exchanged. -/
theorem merge_particles_swap (sqrtf : ℚ → ℚ) (mem : Store) (p1 p2 : Nat)
    (hlt : (mem p1).mass < (mem p2).mass) :
    merge_particles sqrtf mem p1 p2 = merge_particles sqrtf mem p2 p1 := by
  have hge : ¬ (mem p2).mass < (mem p1).mass := not_lt.mpr hlt.le
  simp [merge_particles, hlt, hge]

/-- `merge_particles` moves neither of two distinct bodies. -/
theorem merge_particles_position (sqrtf : ℚ → ℚ) (mem : Store) (p1 p2 : Nat)
    (hne : p1 ≠ p2) :
    (merge_particles sqrtf mem p1 p2 p1).x = (mem p1).x ∧
    (merge_particles sqrtf mem p1 p2 p1).y = (mem p1).y ∧
    (merge_particles sqrtf mem p1 p2 p2).x = (mem p2).x ∧
    (merge_particles sqrtf mem p1 p2 p2).y = (mem p2).y := by
  have hne' : p2 ≠ p1 := fun h => hne h.symm
  by_cases hlt : (mem p1).mass < (mem p2).mass
  · rw [merge_particles_swap sqrtf mem p1 p2 hlt]
    obtain ⟨e1, e2, -⟩ :=
      merge_particles_first_full sqrtf mem p2 p1 hne' (not_lt.mpr hlt.le)
    rw [e1, e2]
    exact ⟨rfl, rfl, rfl, rfl⟩
  · obtain ⟨e1, e2, -⟩ := merge_particles_first_full sqrtf mem p1 p2 hne hlt
    rw [e1, e2]
    exact ⟨rfl, rfl, rfl, rfl⟩

/-- C12. For two distinct active bodies, `merge_particles(p1, p2)` keeps the
body of strictly larger mass active and deactivates the other; when the masses
are equal, the first argument `p1` stays active and `p2` is deactivated. The
position of the survivor is unchanged. -/
theorem merge_particles_winner (sqrtf : ℚ → ℚ) (mem : Store) (p1 p2 : Nat)
    (hne : p1 ≠ p2) (h1 : (mem p1).active = true) (h2 : (mem p2).active = true) :
    ((mem p2).mass < (mem p1).mass →
      (merge_particles sqrtf mem p1 p2 p1).active = true ∧
      (merge_particles sqrtf mem p1 p2 p2).active = false ∧
      (merge_particles sqrtf mem p1 p2 p1).x = (mem p1).x ∧
      (merge_particles sqrtf mem p1 p2 p1).y = (mem p1).y) ∧
    ((mem p1).mass < (mem p2).mass →
      (merge_particles sqrtf mem p1 p2 p2).active = true ∧
      (merge_particles sqrtf mem p1 p2 p1).active = false ∧
      (merge_particles sqrtf mem p1 p2 p2).x = (mem p2).x ∧
      (merge_particles sqrtf mem p1 p2 p2).y = (mem p2).y) ∧
    ((mem p1).mass = (mem p2).mass →
      (merge_particles sqrtf mem p1 p2 p1).active = true ∧
      (merge_particles sqrtf mem p1 p2 p2).active = false ∧
      (merge_particles sqrtf mem p1 p2 p1).x = (mem p1).x ∧
      (merge_particles sqrtf mem p1 p2 p1).y = (mem p1).y) := by
  refine ⟨?_, ?_, ?_⟩
  · intro hgt
    obtain ⟨ha, hb, -, -, -⟩ :=
      merge_particles_keep_first sqrtf mem p1 p2 hne (not_lt.mpr hgt.le)
    exact ⟨ha.trans h1, hb, (merge_particles_position sqrtf mem p1 p2 hne).1,
      (merge_particles_position sqrtf mem p1 p2 hne).2.1⟩
  · intro hlt
    obtain ⟨ha, hb, -, -, -⟩ := merge_particles_keep_second sqrtf mem p1 p2 hne hlt
    exact ⟨ha.trans h2, hb, (merge_particles_position sqrtf mem p1 p2 hne).2.2.1,
      (merge_particles_position sqrtf mem p1 p2 hne).2.2.2⟩
  · intro heq
    obtain ⟨ha, hb, -, -, -⟩ :=
      merge_particles_keep_first sqrtf mem p1 p2 hne (by rw [heq]; exact lt_irrefl _)
    exact ⟨ha.trans h1, hb, (merge_particles_position sqrtf mem p1 p2 hne).1,
      (merge_particles_position sqrtf mem p1 p2 hne).2.1⟩

/-- C12 at `equal_mass_example` (two active bodies of mass 10): the hypotheses
hold, the masses are equal, and the first argument survives in place. -/
theorem merge_particles_winner_witness :
    ((0 : Nat) ≠ 1 ∧ (equal_mass_example 0).active = true ∧
      (equal_mass_example 1).active = true ∧
      (equal_mass_example 0).mass = (equal_mass_example 1).mass) ∧
    (merge_particles Rat.sqrt equal_mass_example 0 1 0).active = true ∧
    (merge_particles Rat.sqrt equal_mass_example 0 1 1).active = false ∧
    (merge_particles Rat.sqrt equal_mass_example 0 1 0).x = (equal_mass_example 0).x ∧
    (merge_particles Rat.sqrt equal_mass_example 0 1 0).y = (equal_mass_example 0).y :=
  ⟨⟨by decide, rfl, rfl, rfl⟩,
    (merge_particles_winner Rat.sqrt equal_mass_example 0 1 (by decide) rfl rfl).2.2 rfl⟩

/-! ## Colour of a merged body -/

/-- C15, evaluated on the code: merging the two bodies of `heavy_example`
(masses 80 and 80) leaves slot 0 active with mass 160; its red channel is
`(Uint8) 331.2 = 75` and its green channel `(Uint8) (-12.8) = 244`, where the
clamped affine values are 255 and 0 (blue is 50 in both). The test
`if (r > 255)` comes after the conversion to `Uint8` and never fires, and
green and blue have no clamp at all. -/
theorem merge_particles_color_wraps :
    (merge_particles Rat.sqrt heavy_example 0 1 0).active = true ∧
    (merge_particles Rat.sqrt heavy_example 0 1 0).mass = 160 ∧
    (merge_particles Rat.sqrt heavy_example 0 1 0).color.r = 75 ∧
    spec_color_channel (128 + 127 * 160 / 100) = 255 ∧
    (merge_particles Rat.sqrt heavy_example 0 1 0).color.g = 244 ∧
    spec_color_channel (192 - 128 * 160 / 100) = 0 ∧
    (merge_particles Rat.sqrt heavy_example 0 1 0).color.b = 50 ∧
    spec_color_channel (255 - 128 * 160 / 100) = 50 := by
  have hge : ¬ (heavy_example 0).mass < (heavy_example 1).mass := by
    norm_num [heavy_example, body]
  obtain ⟨e, -, -⟩ := merge_particles_first_full Rat.sqrt heavy_example 0 1 (by decide) hge
  have hm : (heavy_example 0).mass + (heavy_example 1).mass = 160 := by
    norm_num [heavy_example, body]
  rw [e, hm]
  have hr : c_uint8 (128 + (160 : ℚ) / 100 * 127) = 75 := by
    norm_num [c_uint8, c_int, trunc_toward_zero, INT_MIN, INT_MAX]
    rfl
  have hg : c_uint8 (192 - (160 : ℚ) / 100 * 128) = 244 := by
    norm_num [c_uint8, c_int, trunc_toward_zero, INT_MIN, INT_MAX]
    rfl
  have hb : c_uint8 (255 - (160 : ℚ) / 100 * 128) = 50 := by
    norm_num [c_uint8, c_int, trunc_toward_zero, INT_MIN, INT_MAX]
    rfl
  refine ⟨rfl, rfl, ?_, ?_, ?_, ?_, ?_, ?_⟩
  · simp only [hr]
    decide
  · norm_num [spec_color_channel]
    rfl
  · exact hg
  · norm_num [spec_color_channel]
  · exact hb
  · norm_num [spec_color_channel]
    rfl

/-! ## Placement of a body by the user -/

/-- The creation loop writes slot `i` only. -/
theorem create_particles_round_other (sqrtf : ℚ → ℚ) (RAND_MAX : ℚ) (rand : Nat → ℚ)
    (particles : Store) (i q : Nat) (h : q ≠ i) :
    create_particles_round sqrtf RAND_MAX rand particles i q = particles q := by
  unfold create_particles_round
  simp [Function.update_noteq h]

/-- The creation loop makes the body of its round active. -/
theorem create_particles_round_active (sqrtf : ℚ → ℚ) (RAND_MAX : ℚ) (rand : Nat → ℚ)
    (particles : Store) (i : Nat) :
    (create_particles_round sqrtf RAND_MAX rand particles i i).active = true := by
  unfold create_particles_round
  simp

/-- After the loop of `create_particles`, every body below `count` is active. -/
theorem create_particles_loop_active (sqrtf : ℚ → ℚ) (RAND_MAX : ℚ) (rand : Nat → ℚ)
    (block : Store) (count i : Nat) (hi : i < count) :
    (((List.range count).foldl (create_particles_round sqrtf RAND_MAX rand) block) i).active
      = true := by
  induction count with
  | zero => omega
  | succ n ih =>
    rw [List.range_succ, List.foldl_append]
    simp only [List.foldl_cons, List.foldl_nil]
    by_cases h : i = n
    · subst h
      exact create_particles_round_active _ _ _ _ _
    · rw [create_particles_round_other _ _ _ _ _ _ h]
      exact ih (by omega)

/-- The search loop finds no slot when every body below `particleCount` is active. -/
theorem find_inactive_slot_none (particles : Store) (particleCount : Nat)
    (h : ∀ i, i < particleCount → (particles i).active = true) :
    find_inactive_slot particles particleCount = -1 := by
  unfold find_inactive_slot
  have hnone : (List.range particleCount).find? (fun i => !(particles i).active) = none := by
    rw [List.find?_eq_none]
    intro i hi
    simp [h i (List.mem_range.mp hi)]
  rw [hnone]

/-- C14, evaluated on the code: `create_particles(100)` obtains storage for 100
bodies and makes all of them active; a left-button release in that state finds
no inactive slot, takes `newIndex = particleCount++ = 100` because
`100 < MAX_PARTICLES`, and writes the new body into slot 100, the first slot
behind the allocated storage. -/
theorem left_button_up_past_allocation (sqrtf : ℚ → ℚ) (block : Store) (RAND_MAX : ℚ)
    (rand : Nat → ℚ) (r1 r2 : ℚ) :
    ∃ s0 : MainState,
      main_startup sqrtf (fun _ => some block) RAND_MAX rand = some s0 ∧
      s0.allocated = 100 ∧
      (∀ i, i < 100 → (s0.particles i).active = true) ∧
      (placement_slot s0).1 = 100 ∧
      ¬ ((placement_slot s0).1 < (s0.allocated : Int)) ∧
      ((left_button_up sqrtf RAND_MAX r1 r2 s0).particles 100).active = true ∧
      ((left_button_up sqrtf RAND_MAX r1 r2 s0).particles 100).mass = 50 ∧
      (left_button_up sqrtf RAND_MAX r1 r2 s0).particleCount = 101 ∧
      (left_button_up sqrtf RAND_MAX r1 r2 s0).allocated = 100 := by
  have hact : ∀ i, i < 100 →
      (((List.range 100).foldl (create_particles_round sqrtf RAND_MAX rand) block) i).active
        = true :=
    fun i hi => create_particles_loop_active sqrtf RAND_MAX rand block 100 i hi
  refine ⟨_, rfl, rfl, hact, ?_⟩
  have hfind := find_inactive_slot_none _ 100 hact
  have hslot : placement_slot
      { particles := (List.range 100).foldl (create_particles_round sqrtf RAND_MAX rand) block,
        allocated := 100, particleCount := 100, activeCount := 100, placementMass := 50,
        mouseX := 0, mouseY := 0 } = (100, 101) := by
    unfold placement_slot
    simp only [hfind]
    simp [MAX_PARTICLES]
  refine ⟨by rw [hslot], by rw [hslot]; simp, ?_, ?_, ?_, ?_⟩
  · unfold left_button_up
    simp [hslot, MAX_PARTICLES]
  · unfold left_button_up
    simp [hslot, MAX_PARTICLES]
  · unfold left_button_up
    simp [hslot, MAX_PARTICLES]
  · unfold left_button_up
    simp [hslot, MAX_PARTICLES]

/-! ## The step on two bodies -/

/-- `update_particles` in terms of its three phases. -/
theorem update_particles_eq (sqrtf : ℚ → ℚ) (st : GridStatic) (particles : Store)
    (count : Nat) (dt : ℚ) :
    (update_particles sqrtf st particles count dt).2 =
      update_particles_pairs sqrtf (fill_grid (lazy_init st).grid particles count)
        particles dt :=
  rfl

/-- After the lazy initialisation the grid has the geometry of the 800 x 600
window, provided the statics are fresh or already carry that geometry. -/
theorem lazy_init_geometry (st : GridStatic)
    (h : st.gridInitialized = false ∨
      (st.grid.cellWidth = 100 ∧ st.grid.cellHeight = 75)) :
    (lazy_init st).grid.cellWidth = 100 ∧ (lazy_init st).grid.cellHeight = 75 := by
  unfold lazy_init
  by_cases hi : st.gridInitialized = true
  · rcases h with h | h
    · rw [hi] at h
      exact absurd h (by simp)
    · simpa [hi] using h
  · have hi' : st.gridInitialized = false := by simpa using hi
    simp only [hi', Bool.not_false, if_true]
    unfold init_grid
    simp only []
    constructor
    · rw [(clear_grid_geometry _).1]
      norm_num [GRID_SIZE]
    · rw [(clear_grid_geometry _).2]
      norm_num [GRID_SIZE]

/-- A cell whose stored indices are `[]` has count 0. -/
theorem GridCell.count_of_members_nil (cell : GridCell) (h : cell.members = []) :
    cell.count = 0 := by
  rw [← GridCell.length_members, h]
  rfl

/-- A cell whose stored indices are `[x]` has count 1 and `x` in slot 0. -/
theorem GridCell.of_members_singleton (cell : GridCell) (x : Nat) (h : cell.members = [x]) :
    cell.count = 1 ∧ cell.particleIndices 0 = x := by
  have hc : cell.count = 1 := by
    rw [← GridCell.length_members, h]
    rfl
  refine ⟨hc, ?_⟩
  unfold GridCell.members at h
  rw [hc] at h
  have hr : List.range 1 = [0] := rfl
  rw [hr] at h
  simpa using h

/-- A cell whose stored indices are `[x, y]` has count 2, `x` in slot 0 and `y`
in slot 1. -/
theorem GridCell.of_members_pair (cell : GridCell) (x y : Nat) (h : cell.members = [x, y]) :
    cell.count = 2 ∧ cell.particleIndices 0 = x ∧ cell.particleIndices 1 = y := by
  have hc : cell.count = 2 := by
    rw [← GridCell.length_members, h]
    rfl
  refine ⟨hc, ?_⟩
  unfold GridCell.members at h
  rw [hc] at h
  have hr : List.range 2 = [0, 1] := rfl
  rw [hr] at h
  simpa using h

/-- The indices each cell holds after `fill_grid` for a store of two active
bodies: index 0 if the cell owns body 0, then index 1 if it owns body 1. -/
theorem fill_grid_two (grid : SpatialGrid) (particles : Store)
    (h0 : (particles 0).active = true) (h1 : (particles 1).active = true)
    (a b : Nat) (ha : a < GRID_SIZE) (hb : b < GRID_SIZE) :
    ((fill_grid grid particles 2).cells a b).members =
      (if a = (cell_y grid (particles 0)).toNat ∧ b = (cell_x grid (particles 0)).toNat
        then [0] else []) ++
      (if a = (cell_y grid (particles 1)).toNat ∧ b = (cell_x grid (particles 1)).toNat
        then [1] else []) := by
  rw [fill_grid_cells grid particles 2 a b ha hb, bodies_of_cell_succ, bodies_of_cell_succ]
  have hnil : bodies_of_cell grid particles 0 a b = [] := by simp [bodies_of_cell]
  rw [hnil, List.take_of_length_le]
  · simp [h0, h1]
  · simp only [List.nil_append, List.length_append, MAX_PARTICLES_PER_CELL]
    split_ifs <;> simp

/-- A loop over `0 .. n-1` whose body acts at two values only acts at the
smaller one, then at the larger one. -/
theorem foldl_range_of_two {α : Type} (f : α → Nat → α) (n x0 x1 : Nat) (h01 : x0 < x1)
    (h1 : x1 < n) (hid : ∀ s x, x < n → x ≠ x0 → x ≠ x1 → f s x = s) (s : α) :
    (List.range n).foldl f s = f (f s x0) x1 := by
  induction n with
  | zero => omega
  | succ n ih =>
    rw [List.range_succ, List.foldl_append]
    simp only [List.foldl_cons, List.foldl_nil]
    by_cases hn : x1 = n
    · subst hn
      rw [foldl_of_single f (List.range x1) x0 (List.nodup_range _) (List.mem_range.mpr h01)]
      intro t x hx hne
      have hx' := List.mem_range.mp hx
      exact hid t x (by omega) hne (by omega)
    · rw [ih (by omega) (fun t x hx => hid t x (by omega))]
      exact hid _ n (by omega) (by omega) (fun h => hn h.symm)

/-- The values of a `for` loop over integers are distinct. -/
theorem nodup_int_range (lo hi : Int) : (int_range lo hi).Nodup := by
  unfold int_range
  apply List.Nodup.map _ (List.nodup_range _)
  intro a b h
  simpa using h

/-- The same-cell loop of the last member of a cell has no round. -/
theorem same_cell_loop_last (sqrtf : ℚ → ℚ) (cell : GridCell) (i p1Index : Nat) (dt : ℚ)
    (particles : Store) (h : cell.count ≤ i + 1) :
    same_cell_loop sqrtf cell i p1Index dt particles = particles := by
  unfold same_cell_loop
  have h0 : cell.count - (i + 1) = 0 := by omega
  rw [h0]
  rfl

/-- With exactly one stored index in the neighbouring cells, at an adjacent
cell, the neighbour loops make one per-pair step with that body. -/
theorem neighbor_loop_single (sqrtf : ℚ → ℚ) (grid : SpatialGrid) (aY aX bY bX : Nat)
    (p1Index : Nat) (dt : ℚ) (particles : Store)
    (hbY : bY < GRID_SIZE) (hbX : bX < GRID_SIZE)
    (hadjY : aY ≤ bY + 1 ∧ bY ≤ aY + 1) (hadjX : aX ≤ bX + 1 ∧ bX ≤ aX + 1)
    (hne : ¬ (bY = aY ∧ bX = aX))
    (hone : (grid.cells bY bX).count = 1)
    (hrest : ∀ a b, a < GRID_SIZE → b < GRID_SIZE → ¬ (a = aY ∧ b = aX) →
      ¬ (a = bY ∧ b = bX) → (grid.cells a b).count = 0) :
    neighbor_loop sqrtf grid aY aX p1Index dt particles =
      interact sqrtf particles p1Index ((grid.cells bY bX).particleIndices 0) dt := by
  have hmemY : (bY : Int) ∈ int_range (max_int 0 ((aY : Int) - 1))
      (min_int ((GRID_SIZE : Int) - 1) (aY + 1)) := by
    rw [mem_int_range]
    unfold max_int min_int GRID_SIZE at *
    split_ifs <;> omega
  have hmemX : (bX : Int) ∈ int_range (max_int 0 ((aX : Int) - 1))
      (min_int ((GRID_SIZE : Int) - 1) (aX + 1)) := by
    rw [mem_int_range]
    unfold max_int min_int GRID_SIZE at *
    split_ifs <;> omega
  unfold neighbor_loop
  rw [foldl_of_single _ _ (bY : Int) (nodup_int_range _ _) hmemY]
  · rw [foldl_of_single _ _ (bX : Int) (nodup_int_range _ _) hmemX]
    · have hcur : ¬ ((bY : Int) = (aY : Int) ∧ (bX : Int) = (aX : Int)) := by
        rintro ⟨e1, e2⟩
        exact hne ⟨by omega, by omega⟩
      have hr : List.range 1 = [0] := rfl
      simp only [hcur, if_false, Int.toNat_ofNat, hone, hr, List.foldl_cons, List.foldl_nil]
    · intro t nX hX hneX
      obtain ⟨hX0, hXlt⟩ := mem_neighbor_range aX nX hX
      split_ifs with hsame
      · rfl
      · have hA : ¬ (bY = aY ∧ nX.toNat = aX) := by
          rintro ⟨e1, e2⟩
          apply hsame
          constructor <;> omega
        have hB : ¬ (bY = bY ∧ nX.toNat = bX) := by
          rintro ⟨-, e2⟩
          apply hneX
          omega
        simp [hrest bY nX.toNat hbY hXlt hA hB]
  · intro s nY hY hneY
    apply foldl_of_forall_id
    intro t nX hX
    obtain ⟨hY0, hYlt⟩ := mem_neighbor_range aY nY hY
    obtain ⟨hX0, hXlt⟩ := mem_neighbor_range aX nX hX
    split_ifs with hsame
    · rfl
    · have hA : ¬ (nY.toNat = aY ∧ nX.toNat = aX) := by
        rintro ⟨e1, e2⟩
        apply hsame
        constructor <;> omega
      have hB : ¬ (nY.toNat = bY ∧ nX.toNat = bX) := by
        rintro ⟨e1, -⟩
        apply hneY
        omega
      simp [hrest nY.toNat nX.toNat hYlt hXlt hA hB]

/-- The loop over a cell that holds one index, of an active body: the
neighbour loops for it, then `update_particle`. -/
theorem cell_loop_one (sqrtf : ℚ → ℚ) (grid : SpatialGrid) (cellY cellX : Nat) (dt : ℚ)
    (particles : Store) (hone : (grid.cells cellY cellX).count = 1)
    (hact : (particles ((grid.cells cellY cellX).particleIndices 0)).active = true) :
    cell_loop sqrtf grid cellY cellX dt particles =
      update_particle
        (neighbor_loop sqrtf grid cellY cellX ((grid.cells cellY cellX).particleIndices 0) dt
          particles)
        ((grid.cells cellY cellX).particleIndices 0) dt := by
  unfold cell_loop
  have hr : List.range 1 = [0] := rfl
  simp only [hone, hr, List.foldl_cons, List.foldl_nil, hact, Bool.not_true,
    Bool.false_eq_true, if_false]
  rw [same_cell_loop_last sqrtf _ 0 _ dt particles (by rw [hone])]

/-- The loop over a cell that holds two indices, the first of an active body,
when all other cells are empty: one per-pair step, then `update_particle` on
each of the two. -/
theorem cell_loop_pair (sqrtf : ℚ → ℚ) (grid : SpatialGrid) (cellY cellX : Nat) (dt : ℚ)
    (particles : Store) (htwo : (grid.cells cellY cellX).count = 2)
    (hact : (particles ((grid.cells cellY cellX).particleIndices 0)).active = true)
    (hrest : ∀ a b, a < GRID_SIZE → b < GRID_SIZE → ¬ (a = cellY ∧ b = cellX) →
      (grid.cells a b).count = 0) :
    cell_loop sqrtf grid cellY cellX dt particles =
      update_particle
        (update_particle
          (interact sqrtf particles ((grid.cells cellY cellX).particleIndices 0)
            ((grid.cells cellY cellX).particleIndices 1) dt)
          ((grid.cells cellY cellX).particleIndices 0) dt)
        ((grid.cells cellY cellX).particleIndices 1) dt := by
  unfold cell_loop
  have hr : List.range 2 = [0, 1] := rfl
  simp only [htwo, hr, List.foldl_cons, List.foldl_nil, hact, Bool.not_true,
    Bool.false_eq_true, if_false]
  simp only [neighbor_loop_empty sqrtf grid cellY cellX _ dt _ hrest]
  rw [same_cell_loop_last sqrtf _ 1 _ dt _ (by rw [htwo])]
  have hfirst : same_cell_loop sqrtf (grid.cells cellY cellX) 0
      ((grid.cells cellY cellX).particleIndices 0) dt particles =
      interact sqrtf particles ((grid.cells cellY cellX).particleIndices 0)
        ((grid.cells cellY cellX).particleIndices 1) dt := by
    unfold same_cell_loop
    rw [htwo]
    rfl
  rw [hfirst]
  generalize update_particle
    (interact sqrtf particles ((grid.cells cellY cellX).particleIndices 0)
      ((grid.cells cellY cellX).particleIndices 1) dt)
    ((grid.cells cellY cellX).particleIndices 0) dt = s1
  split_ifs with hin
  · rw [update_particle_inactive s1 _ dt (by simpa using hin)]
  · rfl

/-- With only one cell occupied, by two indices, the loops over the cells
reduce to the loop over that cell. -/
theorem update_particles_pairs_one_cell (sqrtf : ℚ → ℚ) (grid : SpatialGrid)
    (particles : Store) (dt : ℚ) (cellY cellX : Nat) (hY : cellY < GRID_SIZE)
    (hX : cellX < GRID_SIZE)
    (hrest : ∀ a b, a < GRID_SIZE → b < GRID_SIZE → ¬ (a = cellY ∧ b = cellX) →
      (grid.cells a b).count = 0) :
    update_particles_pairs sqrtf grid particles dt =
      cell_loop sqrtf grid cellY cellX dt particles := by
  unfold update_particles_pairs
  rw [foldl_of_single _ (List.range GRID_SIZE) cellY (List.nodup_range _)
    (List.mem_range.mpr hY)]
  · rw [foldl_of_single _ (List.range GRID_SIZE) cellX (List.nodup_range _)
      (List.mem_range.mpr hX)]
    intro s b hb hne
    exact cell_loop_empty sqrtf grid cellY b dt s
      (hrest cellY b hY (List.mem_range.mp hb) (fun h => hne h.2))
  · intro s a ha hne
    apply foldl_of_forall_id
    intro t b hb
    exact cell_loop_empty sqrtf grid a b dt t
      (hrest a b (List.mem_range.mp ha) (List.mem_range.mp hb) (fun h => hne h.1))

/-- With two cells occupied, the loops over the cells run the loop over the
cell that comes first in row-major order, then the loop over the other. -/
theorem update_particles_pairs_two_cells (sqrtf : ℚ → ℚ) (grid : SpatialGrid)
    (particles : Store) (dt : ℚ) (aY aX bY bX : Nat)
    (haY : aY < GRID_SIZE) (haX : aX < GRID_SIZE) (hbY : bY < GRID_SIZE)
    (hbX : bX < GRID_SIZE) (hord : aY < bY ∨ (aY = bY ∧ aX < bX))
    (hrest : ∀ a b, a < GRID_SIZE → b < GRID_SIZE → ¬ (a = aY ∧ b = aX) →
      ¬ (a = bY ∧ b = bX) → (grid.cells a b).count = 0) :
    update_particles_pairs sqrtf grid particles dt =
      cell_loop sqrtf grid bY bX dt (cell_loop sqrtf grid aY aX dt particles) := by
  unfold update_particles_pairs
  rcases hord with hlt | ⟨heq, hlt⟩
  · have hrowA : ∀ s : Store, (List.range GRID_SIZE).foldl
        (fun particles cellX => cell_loop sqrtf grid aY cellX dt particles) s =
        cell_loop sqrtf grid aY aX dt s := by
      intro s
      apply foldl_of_single _ (List.range GRID_SIZE) aX (List.nodup_range _)
        (List.mem_range.mpr haX)
      intro t b hb hne
      exact cell_loop_empty sqrtf grid aY b dt t
        (hrest aY b haY (List.mem_range.mp hb) (fun h => hne h.2) (fun h => by omega))
    have hrowB : ∀ s : Store, (List.range GRID_SIZE).foldl
        (fun particles cellX => cell_loop sqrtf grid bY cellX dt particles) s =
        cell_loop sqrtf grid bY bX dt s := by
      intro s
      apply foldl_of_single _ (List.range GRID_SIZE) bX (List.nodup_range _)
        (List.mem_range.mpr hbX)
      intro t b hb hne
      exact cell_loop_empty sqrtf grid bY b dt t
        (hrest bY b hbY (List.mem_range.mp hb) (fun h => by omega) (fun h => hne h.2))
    rw [foldl_range_of_two _ GRID_SIZE aY bY hlt hbY]
    · rw [hrowA, hrowB]
    · intro s a ha hne0 hne1
      apply foldl_of_forall_id
      intro t b hb
      exact cell_loop_empty sqrtf grid a b dt t
        (hrest a b ha (List.mem_range.mp hb) (fun h => hne0 h.1) (fun h => hne1 h.1))
  · subst heq
    rw [foldl_of_single _ (List.range GRID_SIZE) aY (List.nodup_range _)
      (List.mem_range.mpr haY)]
    · rw [foldl_range_of_two _ GRID_SIZE aX bX hlt hbX]
      intro s b hb hne0 hne1
      exact cell_loop_empty sqrtf grid aY b dt s
        (hrest aY b haY hb (fun h => hne0 h.2) (fun h => hne1 h.2))
    · intro s a ha hne
      apply foldl_of_forall_id
      intro t b hb
      exact cell_loop_empty sqrtf grid a b dt t
        (hrest a b (List.mem_range.mp ha) (List.mem_range.mp hb) (fun h => hne h.1)
          (fun h => hne h.1))

/-- The per-pair step on two distinct active bodies that collide after the
gravity update: gravity, then the merge. -/
theorem interact_collide (sqrtf : ℚ → ℚ) (mem : Store) (p1 p2 : Nat) (dt : ℚ)
    (h2 : (mem p2).active = true)
    (hc : check_collision (apply_gravity sqrtf mem p1 p2 dt) p1 p2 = true) :
    interact sqrtf mem p1 p2 dt =
      merge_particles sqrtf (apply_gravity sqrtf mem p1 p2 dt) p1 p2 := by
  unfold interact
  simp [h2, hc]

/-- The per-pair step on two bodies that do not collide after the gravity
update: gravity only. -/
theorem interact_apart (sqrtf : ℚ → ℚ) (mem : Store) (p1 p2 : Nat) (dt : ℚ)
    (h2 : (mem p2).active = true)
    (hc : check_collision (apply_gravity sqrtf mem p1 p2 dt) p1 p2 = false) :
    interact sqrtf mem p1 p2 dt = apply_gravity sqrtf mem p1 p2 dt := by
  unfold interact
  simp [h2, hc]

/-- C13. A store of two active bodies at rest, with masses 10 and 20, positions
`(100,100)` and `(103,100)` and radii `2 + 2*sqrtf(mass)`: one
`update_particles` step with any `dt > 0` (statics fresh or carrying the
800 x 600 geometry; `sqrtf` non-negative at 10 and 20 and at most 49 at 30)
leaves the mass-20 body as the single active body, with mass 30 and position
exactly `(103,100)`, and the mass-10 body inactive. -/
theorem update_particles_merge_scenario (sqrtf : ℚ → ℚ) (st : GridStatic) (particles : Store)
    (dt : ℚ)
    (hst : st.gridInitialized = false ∨
      (st.grid.cellWidth = 100 ∧ st.grid.cellHeight = 75))
    (a0 : (particles 0).active = true) (x0 : (particles 0).x = 100)
    (y0 : (particles 0).y = 100) (vx0 : (particles 0).vx = 0) (vy0 : (particles 0).vy = 0)
    (m0 : (particles 0).mass = 10) (r0 : (particles 0).radius = calculate_radius sqrtf 10)
    (a1 : (particles 1).active = true) (x1 : (particles 1).x = 103)
    (y1 : (particles 1).y = 100) (vx1 : (particles 1).vx = 0) (vy1 : (particles 1).vy = 0)
    (m1 : (particles 1).mass = 20) (r1 : (particles 1).radius = calculate_radius sqrtf 20)
    (hs10 : 0 ≤ sqrtf 10) (hs20 : 0 ≤ sqrtf 20) (hs30 : sqrtf 30 ≤ 49) (_hdt : 0 < dt) :
    ((update_particles sqrtf st particles 2 dt).2 1).active = true ∧
    ((update_particles sqrtf st particles 2 dt).2 1).mass = 30 ∧
    ((update_particles sqrtf st particles 2 dt).2 1).x = 103 ∧
    ((update_particles sqrtf st particles 2 dt).2 1).y = 100 ∧
    ((update_particles sqrtf st particles 2 dt).2 0).active = false ∧
    (∀ i, i < 2 → ((update_particles sqrtf st particles 2 dt).2 i).active = true → i = 1) := by
  -- the grid: both bodies are in cell (1, 1)
  obtain ⟨hw, hh⟩ := lazy_init_geometry st hst
  have cx0 : (cell_x (lazy_init st).grid (particles 0)).toNat = 1 := by
    unfold cell_x
    rw [hw, x0]
    norm_num [clamp_cell, c_int, trunc_toward_zero, INT_MIN, INT_MAX, GRID_SIZE]
  have cy0 : (cell_y (lazy_init st).grid (particles 0)).toNat = 1 := by
    unfold cell_y
    rw [hh, y0]
    norm_num [clamp_cell, c_int, trunc_toward_zero, INT_MIN, INT_MAX, GRID_SIZE]
  have cx1 : (cell_x (lazy_init st).grid (particles 1)).toNat = 1 := by
    unfold cell_x
    rw [hw, x1]
    norm_num [clamp_cell, c_int, trunc_toward_zero, INT_MIN, INT_MAX, GRID_SIZE]
  have cy1 : (cell_y (lazy_init st).grid (particles 1)).toNat = 1 := by
    unfold cell_y
    rw [hh, y1]
    norm_num [clamp_cell, c_int, trunc_toward_zero, INT_MIN, INT_MAX, GRID_SIZE]
  have hmem := fill_grid_two (lazy_init st).grid particles a0 a1
  rw [cx0, cy0, cx1, cy1] at hmem
  have hown := hmem 1 1 (by norm_num [GRID_SIZE]) (by norm_num [GRID_SIZE])
  simp only [and_self, if_true, List.singleton_append] at hown
  obtain ⟨htwo, hp0, hp1⟩ := GridCell.of_members_pair _ 0 1 hown
  have hrest : ∀ a b, a < GRID_SIZE → b < GRID_SIZE → ¬ (a = 1 ∧ b = 1) →
      ((fill_grid (lazy_init st).grid particles 2).cells a b).count = 0 := by
    intro a b ha hb hne
    apply GridCell.count_of_members_nil
    rw [hmem a b ha hb]
    simp [hne]
  rw [update_particles_eq,
    update_particles_pairs_one_cell sqrtf _ particles dt 1 1 (by norm_num [GRID_SIZE])
      (by norm_num [GRID_SIZE]) hrest,
    cell_loop_pair sqrtf _ 1 1 dt particles htwo (by rw [hp0]; exact a0) hrest, hp0, hp1]
  -- gravity, then the collision test succeeds
  obtain ⟨g0, g1, -⟩ := apply_gravity_active sqrtf particles 0 1 dt (by decide) a0 a1
  have hcol : check_collision (apply_gravity sqrtf particles 0 1 dt) 0 1 = true := by
    unfold check_collision
    rw [g0, g1]
    simp only [a0, a1, x0, x1, y0, y1, r0, r1, calculate_radius, Bool.not_true, Bool.or_self,
      Bool.false_eq_true, if_false, decide_eq_true_eq]
    nlinarith [mul_nonneg hs10 hs20, mul_nonneg hs10 hs10, mul_nonneg hs20 hs20]
  rw [interact_collide sqrtf particles 0 1 dt a1 hcol]
  -- the merge keeps body 1
  have hlt : (apply_gravity sqrtf particles 0 1 dt 0).mass <
      (apply_gravity sqrtf particles 0 1 dt 1).mass := by
    rw [g0, g1]
    simp only [m0, m1]
    norm_num
  rw [merge_particles_swap sqrtf _ 0 1 hlt]
  obtain ⟨e1, e0, -⟩ := merge_particles_first_full sqrtf
    (apply_gravity sqrtf particles 0 1 dt) 1 0 (by decide) (not_lt.mpr hlt.le)
  simp only [g0, g1] at e1 e0
  generalize merge_particles sqrtf (apply_gravity sqrtf particles 0 1 dt) 1 0 = s2 at e1 e0 ⊢
  have hin0 : (s2 0).active = false := by rw [e0]
  have hac1 : (s2 1).active = true := by rw [e1]; exact a1
  rw [update_particle_inactive s2 0 dt hin0]
  obtain ⟨ex, -, ey, -, -, em, ea⟩ := update_particle_active s2 1 dt hac1
  have hvx : (s2 1).vx = 0 := by
    rw [e1]
    simp only [vx0, vx1, m0, m1]
    ring
  have hvy : (s2 1).vy = 0 := by
    rw [e1]
    simp only [vy0, vy1, m0, m1]
    ring
  have hx : (s2 1).x = 103 := by rw [e1]; exact x1
  have hy : (s2 1).y = 100 := by rw [e1]; exact y1
  have hm : (s2 1).mass = 30 := by
    rw [e1]
    simp only [m0, m1]
    norm_num
  have hr : (s2 1).radius = 2 + sqrtf 30 * 2 := by
    rw [e1]
    simp only [m0, m1, calculate_radius]
    norm_num
  have h0' : (update_particle s2 1 dt 0).active = false := by
    rw [update_particle_other s2 1 0 dt (by decide)]
    exact hin0
  rw [hvx, hx, hr] at ex
  rw [hvy, hy, hr] at ey
  have hxf : (update_particle s2 1 dt 1).x = 103 := by
    rw [ex, if_neg (by linarith), if_neg (by linarith)]
    ring
  have hyf : (update_particle s2 1 dt 1).y = 100 := by
    rw [ey, if_neg (by linarith), if_neg (by linarith)]
    ring
  refine ⟨ea, em.trans hm, hxf, hyf, h0', ?_⟩
  intro i hi hact
  by_contra hne
  have hi0 : i = 0 := by omega
  rw [hi0, h0'] at hact
  exact absurd hact (by simp)

/-- The rational square root `Rat.sqrt` gives 5 at 30. -/
theorem rat_sqrt_thirty : Rat.sqrt 30 = 5 := by
  have h1 : Nat.sqrt 30 = 5 := by
    symm
    rw [Nat.eq_sqrt]
    norm_num
  have h3 : Int.toNat 30 = 30 := rfl
  unfold Rat.sqrt Int.sqrt
  norm_num [h3, h1]

/-- C13 at `scenario_example` with `sqrtf = Rat.sqrt`, the initial statics and
`dt = 1/20`: the hypotheses hold, and the step leaves body 1 as the single
active body, with mass 30 at `(103,100)`. -/
theorem update_particles_merge_scenario_witness :
    ((GridStatic.initial.gridInitialized = false ∨
        (GridStatic.initial.grid.cellWidth = 100 ∧ GridStatic.initial.grid.cellHeight = 75)) ∧
      (scenario_example 0).active = true ∧ (scenario_example 0).x = 100 ∧
      (scenario_example 0).y = 100 ∧ (scenario_example 0).vx = 0 ∧
      (scenario_example 0).vy = 0 ∧ (scenario_example 0).mass = 10 ∧
      (scenario_example 0).radius = calculate_radius Rat.sqrt 10 ∧
      (scenario_example 1).active = true ∧ (scenario_example 1).x = 103 ∧
      (scenario_example 1).y = 100 ∧ (scenario_example 1).vx = 0 ∧
      (scenario_example 1).vy = 0 ∧ (scenario_example 1).mass = 20 ∧
      (scenario_example 1).radius = calculate_radius Rat.sqrt 20 ∧
      0 ≤ Rat.sqrt 10 ∧ 0 ≤ Rat.sqrt 20 ∧ Rat.sqrt 30 ≤ 49 ∧ (0 : ℚ) < 1 / 20) ∧
    (((update_particles Rat.sqrt GridStatic.initial scenario_example 2 (1 / 20)).2 1).active
        = true ∧
      ((update_particles Rat.sqrt GridStatic.initial scenario_example 2 (1 / 20)).2 1).mass
        = 30 ∧
      ((update_particles Rat.sqrt GridStatic.initial scenario_example 2 (1 / 20)).2 1).x
        = 103 ∧
      ((update_particles Rat.sqrt GridStatic.initial scenario_example 2 (1 / 20)).2 1).y
        = 100 ∧
      ((update_particles Rat.sqrt GridStatic.initial scenario_example 2 (1 / 20)).2 0).active
        = false ∧
      (∀ i, i < 2 →
        ((update_particles Rat.sqrt GridStatic.initial scenario_example 2 (1 / 20)).2 i).active
          = true → i = 1)) :=
  ⟨⟨Or.inl rfl, rfl, rfl, rfl, rfl, rfl, rfl, rfl, rfl, rfl, rfl, rfl, rfl, rfl, rfl,
      Rat.sqrt_nonneg 10, Rat.sqrt_nonneg 20, by rw [rat_sqrt_thirty]; norm_num, by norm_num⟩,
    update_particles_merge_scenario Rat.sqrt GridStatic.initial scenario_example (1 / 20)
      (Or.inl rfl) rfl rfl rfl rfl rfl rfl rfl rfl rfl rfl rfl rfl rfl rfl
      (Rat.sqrt_nonneg 10) (Rat.sqrt_nonneg 20) (by rw [rat_sqrt_thirty]; norm_num)
      (by norm_num)⟩

/-- The grid after `fill_grid` for a store of two active bodies `a`, `b` (the
slots 0 and 1 in either order) that lie in different cells: each of the two
cells holds the index of its body, every other cell is empty. -/
theorem fill_grid_two_cells (grid : SpatialGrid) (particles : Store) (a b : Nat)
    (hab : (a = 0 ∧ b = 1) ∨ (a = 1 ∧ b = 0))
    (ha : (particles a).active = true) (hb : (particles b).active = true)
    (hne : ¬ ((cell_y grid (particles b)).toNat = (cell_y grid (particles a)).toNat ∧
      (cell_x grid (particles b)).toNat = (cell_x grid (particles a)).toNat)) :
    (((fill_grid grid particles 2).cells (cell_y grid (particles a)).toNat
        (cell_x grid (particles a)).toNat).count = 1 ∧
      ((fill_grid grid particles 2).cells (cell_y grid (particles a)).toNat
        (cell_x grid (particles a)).toNat).particleIndices 0 = a) ∧
    (((fill_grid grid particles 2).cells (cell_y grid (particles b)).toNat
        (cell_x grid (particles b)).toNat).count = 1 ∧
      ((fill_grid grid particles 2).cells (cell_y grid (particles b)).toNat
        (cell_x grid (particles b)).toNat).particleIndices 0 = b) ∧
    (∀ r c, r < GRID_SIZE → c < GRID_SIZE →
      ¬ (r = (cell_y grid (particles a)).toNat ∧ c = (cell_x grid (particles a)).toNat) →
      ¬ (r = (cell_y grid (particles b)).toNat ∧ c = (cell_x grid (particles b)).toNat) →
      ((fill_grid grid particles 2).cells r c).count = 0) := by
  have hne' : ¬ ((cell_y grid (particles a)).toNat = (cell_y grid (particles b)).toNat ∧
      (cell_x grid (particles a)).toNat = (cell_x grid (particles b)).toNat) :=
    fun h => hne ⟨h.1.symm, h.2.symm⟩
  have hyA : (cell_y grid (particles a)).toNat < GRID_SIZE := clamp_cell_toNat_lt _
  have hxA : (cell_x grid (particles a)).toNat < GRID_SIZE := clamp_cell_toNat_lt _
  have hyB : (cell_y grid (particles b)).toNat < GRID_SIZE := clamp_cell_toNat_lt _
  have hxB : (cell_x grid (particles b)).toNat < GRID_SIZE := clamp_cell_toNat_lt _
  rcases hab with ⟨rfl, rfl⟩ | ⟨rfl, rfl⟩
  · have hmem := fill_grid_two grid particles ha hb
    refine ⟨?_, ?_, ?_⟩
    · apply GridCell.of_members_singleton
      rw [hmem _ _ hyA hxA]
      simp [hne']
    · apply GridCell.of_members_singleton
      rw [hmem _ _ hyB hxB]
      simp [hne]
    · intro r c hr hc h0 h1
      apply GridCell.count_of_members_nil
      rw [hmem r c hr hc]
      simp [h0, h1]
  · have hmem := fill_grid_two grid particles hb ha
    refine ⟨?_, ?_, ?_⟩
    · apply GridCell.of_members_singleton
      rw [hmem _ _ hyA hxA]
      simp [hne']
    · apply GridCell.of_members_singleton
      rw [hmem _ _ hyB hxB]
      simp [hne]
    · intro r c hr hc h0 h1
      apply GridCell.count_of_members_nil
      rw [hmem r c hr hc]
      simp [h0, h1]

/-- A write that keeps an observation of the body keeps it in every slot. -/
theorem Store.modify_field {α : Type} (g : Particle → α) (mem : Store) (p q : Nat)
    (f : Particle → Particle) (hf : ∀ r, g (f r) = g r) :
    g (mem.modify p f q) = g (mem q) := by
  rw [Store.modify_apply]
  split_ifs with h
  · rw [hf, h]
  · rfl

/-- `apply_gravity` changes no active flag and no mass, whatever its pointers. -/
theorem apply_gravity_flag (sqrtf : ℚ → ℚ) (mem : Store) (p1 p2 q : Nat) (dt : ℚ) :
    (apply_gravity sqrtf mem p1 p2 dt q).active = (mem q).active ∧
    (apply_gravity sqrtf mem p1 p2 dt q).mass = (mem q).mass := by
  unfold apply_gravity
  by_cases hg : (!(mem p1).active || !(mem p2).active) = true
  · rw [if_pos hg]
    exact ⟨rfl, rfl⟩
  · rw [if_neg hg]
    constructor
    · rw [Store.modify_field Particle.active, Store.modify_field Particle.active,
        Store.modify_field Particle.active, Store.modify_field Particle.active]
      all_goals intro r; rfl
    · rw [Store.modify_field Particle.mass, Store.modify_field Particle.mass,
        Store.modify_field Particle.mass, Store.modify_field Particle.mass]
      all_goals intro r; rfl

/-- `update_particle` changes no active flag and no mass. -/
theorem update_particle_flag (mem : Store) (p q : Nat) (dt : ℚ) :
    (update_particle mem p dt q).active = (mem q).active ∧
    (update_particle mem p dt q).mass = (mem q).mass := by
  by_cases hq : q = p
  · subst hq
    by_cases h : (mem q).active = true
    · obtain ⟨-, -, -, -, -, hm, ha⟩ := update_particle_active mem q dt h
      exact ⟨ha.trans h.symm, hm⟩
    · rw [update_particle_inactive mem q dt (by simpa using h)]
      exact ⟨rfl, rfl⟩
  · rw [update_particle_other mem p q dt hq]
    exact ⟨rfl, rfl⟩

/-- C16. For a store of exactly two active bodies `a` and `b` (slots 0 and 1 in
either order) that lie in two different, adjacent grid cells, `a`'s cell first
in row-major order, and for which `check_collision` is false both times it is
evaluated, one `update_particles` step applies `apply_gravity` to the pair
twice, once from each cell: the final store is `apply_gravity(a,b,dt)`, then
`update_particle(a,dt)`, then `apply_gravity(b,a,dt)`, then
`update_particle(b,dt)`. -/
theorem update_particles_cross_cell (sqrtf : ℚ → ℚ) (st : GridStatic) (particles : Store)
    (dt : ℚ) (a b : Nat) (hab : (a = 0 ∧ b = 1) ∨ (a = 1 ∧ b = 0))
    (ha : (particles a).active = true) (hb : (particles b).active = true)
    (hadjY : (cell_y (lazy_init st).grid (particles a)).toNat ≤
        (cell_y (lazy_init st).grid (particles b)).toNat + 1 ∧
      (cell_y (lazy_init st).grid (particles b)).toNat ≤
        (cell_y (lazy_init st).grid (particles a)).toNat + 1)
    (hadjX : (cell_x (lazy_init st).grid (particles a)).toNat ≤
        (cell_x (lazy_init st).grid (particles b)).toNat + 1 ∧
      (cell_x (lazy_init st).grid (particles b)).toNat ≤
        (cell_x (lazy_init st).grid (particles a)).toNat + 1)
    (hord : (cell_y (lazy_init st).grid (particles a)).toNat <
        (cell_y (lazy_init st).grid (particles b)).toNat ∨
      ((cell_y (lazy_init st).grid (particles a)).toNat =
          (cell_y (lazy_init st).grid (particles b)).toNat ∧
        (cell_x (lazy_init st).grid (particles a)).toNat <
          (cell_x (lazy_init st).grid (particles b)).toNat))
    (hc1 : check_collision (apply_gravity sqrtf particles a b dt) a b = false)
    (hc2 : check_collision
      (apply_gravity sqrtf (update_particle (apply_gravity sqrtf particles a b dt) a dt) b a dt)
      b a = false) :
    (update_particles sqrtf st particles 2 dt).2 =
      update_particle
        (apply_gravity sqrtf (update_particle (apply_gravity sqrtf particles a b dt) a dt)
          b a dt)
        b dt := by
  have hne : ¬ ((cell_y (lazy_init st).grid (particles b)).toNat =
        (cell_y (lazy_init st).grid (particles a)).toNat ∧
      (cell_x (lazy_init st).grid (particles b)).toNat =
        (cell_x (lazy_init st).grid (particles a)).toNat) := by
    rintro ⟨e1, e2⟩
    omega
  have hne' : ¬ ((cell_y (lazy_init st).grid (particles a)).toNat =
        (cell_y (lazy_init st).grid (particles b)).toNat ∧
      (cell_x (lazy_init st).grid (particles a)).toNat =
        (cell_x (lazy_init st).grid (particles b)).toNat) :=
    fun h => hne ⟨h.1.symm, h.2.symm⟩
  obtain ⟨⟨hA1, hAi⟩, ⟨hB1, hBi⟩, hrest⟩ :=
    fill_grid_two_cells (lazy_init st).grid particles a b hab ha hb hne
  have hyA : (cell_y (lazy_init st).grid (particles a)).toNat < GRID_SIZE :=
    clamp_cell_toNat_lt _
  have hxA : (cell_x (lazy_init st).grid (particles a)).toNat < GRID_SIZE :=
    clamp_cell_toNat_lt _
  have hyB : (cell_y (lazy_init st).grid (particles b)).toNat < GRID_SIZE :=
    clamp_cell_toNat_lt _
  have hxB : (cell_x (lazy_init st).grid (particles b)).toNat < GRID_SIZE :=
    clamp_cell_toNat_lt _
  rw [update_particles_eq]
  generalize hG : fill_grid (lazy_init st).grid particles 2 = grid at hA1 hAi hB1 hBi hrest
  generalize (cell_y (lazy_init st).grid (particles a)).toNat = aY at *
  generalize (cell_x (lazy_init st).grid (particles a)).toNat = aX at *
  generalize (cell_y (lazy_init st).grid (particles b)).toNat = bY at *
  generalize (cell_x (lazy_init st).grid (particles b)).toNat = bX at *
  rw [update_particles_pairs_two_cells sqrtf grid particles dt aY aX bY bX hyA hxA hyB hxB
    hord hrest]
  -- the loop over `a`'s cell
  have hloopA : cell_loop sqrtf grid aY aX dt particles =
      update_particle (apply_gravity sqrtf particles a b dt) a dt := by
    rw [cell_loop_one sqrtf grid aY aX dt particles hA1 (by rw [hAi]; exact ha), hAi,
      neighbor_loop_single sqrtf grid aY aX bY bX a dt particles hyB hxB hadjY hadjX hne hB1
        hrest, hBi, interact_apart sqrtf particles a b dt hb hc1]
  rw [hloopA]
  -- the loop over `b`'s cell
  have hb' : (update_particle (apply_gravity sqrtf particles a b dt) a dt b).active = true := by
    rw [(update_particle_flag _ a b dt).1, (apply_gravity_flag sqrtf particles a b b dt).1]
    exact hb
  have ha' : (update_particle (apply_gravity sqrtf particles a b dt) a dt a).active = true := by
    rw [(update_particle_flag _ a a dt).1, (apply_gravity_flag sqrtf particles a b a dt).1]
    exact ha
  rw [cell_loop_one sqrtf grid bY bX dt _ hB1 (by rw [hBi]; exact hb'), hBi,
    neighbor_loop_single sqrtf grid bY bX aY aX b dt _ hyA hxA ⟨hadjY.2, hadjY.1⟩
      ⟨hadjX.2, hadjX.1⟩ hne' hA1 (fun r c hr hc h0 h1 => hrest r c hr hc h1 h0), hAi,
    interact_apart sqrtf _ b a dt ha' hc2]

/-- C16 at `cross_example` with `sqrtf = Rat.sqrt`, the initial statics and
`dt = 1/20`: body 0 lies in cell (1,0), body 1 in the adjacent cell (1,1), no
collision is detected, and the step is the stated sequence of four calls. -/
theorem update_particles_cross_cell_witness :
    (((cell_y (lazy_init GridStatic.initial).grid (cross_example 0)).toNat =
          (cell_y (lazy_init GridStatic.initial).grid (cross_example 1)).toNat ∧
        (cell_x (lazy_init GridStatic.initial).grid (cross_example 0)).toNat <
          (cell_x (lazy_init GridStatic.initial).grid (cross_example 1)).toNat) ∧
      (cross_example 0).active = true ∧ (cross_example 1).active = true ∧
      check_collision (apply_gravity Rat.sqrt cross_example 0 1 (1 / 20)) 0 1 = false ∧
      check_collision
        (apply_gravity Rat.sqrt
          (update_particle (apply_gravity Rat.sqrt cross_example 0 1 (1 / 20)) 0 (1 / 20))
          1 0 (1 / 20))
        1 0 = false) ∧
    (update_particles Rat.sqrt GridStatic.initial cross_example 2 (1 / 20)).2 =
      update_particle
        (apply_gravity Rat.sqrt
          (update_particle (apply_gravity Rat.sqrt cross_example 0 1 (1 / 20)) 0 (1 / 20))
          1 0 (1 / 20))
        1 (1 / 20) := by
  obtain ⟨hw, hh⟩ := lazy_init_geometry GridStatic.initial (Or.inl rfl)
  have cx0 : (cell_x (lazy_init GridStatic.initial).grid (cross_example 0)).toNat = 0 := by
    unfold cell_x
    rw [hw]
    norm_num [clamp_cell, c_int, trunc_toward_zero, INT_MIN, INT_MAX, GRID_SIZE, cross_example,
      body]
  have cy0 : (cell_y (lazy_init GridStatic.initial).grid (cross_example 0)).toNat = 1 := by
    unfold cell_y
    rw [hh]
    norm_num [clamp_cell, c_int, trunc_toward_zero, INT_MIN, INT_MAX, GRID_SIZE, cross_example,
      body]
  have cx1 : (cell_x (lazy_init GridStatic.initial).grid (cross_example 1)).toNat = 1 := by
    unfold cell_x
    rw [hw]
    norm_num [clamp_cell, c_int, trunc_toward_zero, INT_MIN, INT_MAX, GRID_SIZE, cross_example,
      body]
  have cy1 : (cell_y (lazy_init GridStatic.initial).grid (cross_example 1)).toNat = 1 := by
    unfold cell_y
    rw [hh]
    norm_num [clamp_cell, c_int, trunc_toward_zero, INT_MIN, INT_MAX, GRID_SIZE, cross_example,
      body]
  have hs : Rat.sqrt 400 = 20 := by
    have h := Rat.sqrt_eq 20
    rw [abs_of_nonneg (by norm_num)] at h
    rw [← h]
    norm_num
  -- the first collision test
  obtain ⟨g0, g1, -⟩ :=
    apply_gravity_active Rat.sqrt cross_example 0 1 (1 / 20) (by decide) rfl rfl
  have hc1 : check_collision (apply_gravity Rat.sqrt cross_example 0 1 (1 / 20)) 0 1 = false := by
    unfold check_collision
    rw [g0, g1]
    norm_num [cross_example, body]
  -- the state after the first two calls
  have ha0 : (apply_gravity Rat.sqrt cross_example 0 1 (1 / 20) 0).active = true := by
    rw [g0]
    rfl
  obtain ⟨ux, -, uy, -, ur, -, ua⟩ :=
    update_particle_active (apply_gravity Rat.sqrt cross_example 0 1 (1 / 20)) 0 (1 / 20) ha0
  have hd : floored_distance_sq cross_example 0 1 = 400 := by
    norm_num [floored_distance_sq, separation_sq, cross_example, body]
  have hx : (update_particle (apply_gravity Rat.sqrt cross_example 0 1 (1 / 20)) 0 (1 / 20)
      0).x = 14400000066743 / 160000000000 := by
    rw [ux, g0]
    simp only [force_x, hd, hs]
    norm_num [cross_example, body, G]
  have hy : (update_particle (apply_gravity Rat.sqrt cross_example 0 1 (1 / 20)) 0 (1 / 20)
      0).y = 100 := by
    rw [uy, g0]
    simp only [force_y, hd, hs]
    norm_num [cross_example, body, G]
  have hr : (update_particle (apply_gravity Rat.sqrt cross_example 0 1 (1 / 20)) 0 (1 / 20)
      0).radius = 4 := by
    rw [ur, g0]
    rfl
  have u1 : update_particle (apply_gravity Rat.sqrt cross_example 0 1 (1 / 20)) 0 (1 / 20) 1 =
      apply_gravity Rat.sqrt cross_example 0 1 (1 / 20) 1 :=
    update_particle_other _ 0 1 (1 / 20) (by decide)
  have hb1 : (update_particle (apply_gravity Rat.sqrt cross_example 0 1 (1 / 20)) 0 (1 / 20)
      1).active = true := by
    rw [u1, g1]
    rfl
  obtain ⟨k1, k0, -⟩ := apply_gravity_active Rat.sqrt
    (update_particle (apply_gravity Rat.sqrt cross_example 0 1 (1 / 20)) 0 (1 / 20)) 1 0
    (1 / 20) (by decide) hb1 ua
  have hc2 : check_collision
      (apply_gravity Rat.sqrt
        (update_particle (apply_gravity Rat.sqrt cross_example 0 1 (1 / 20)) 0 (1 / 20))
        1 0 (1 / 20))
      1 0 = false := by
    unfold check_collision
    rw [k1, k0]
    simp only [hx, hy, hr, u1, g1, ua]
    norm_num [cross_example, body]
  refine ⟨⟨⟨by rw [cy0, cy1], by rw [cx0, cx1]; norm_num⟩, rfl, rfl, hc1, hc2⟩, ?_⟩
  exact update_particles_cross_cell Rat.sqrt GridStatic.initial cross_example (1 / 20) 0 1
    (Or.inl ⟨rfl, rfl⟩) rfl rfl (by rw [cy0, cy1]; omega) (by rw [cx0, cx1]; omega)
    (Or.inr ⟨by rw [cy0, cy1], by rw [cx0, cx1]; norm_num⟩) hc1 hc2

/-! ## Conservation of mass by the step -/

/-- The store component of a loop with ghost state is the loop without it. -/
theorem foldl_fst {α β γ : Type} (F : α × γ → β → α × γ) (f : α → β → α)
    (h : ∀ t x, (F t x).1 = f t.1 x) (l : List β) (t : α × γ) :
    (l.foldl F t).1 = l.foldl f t.1 := by
  induction l generalizing t with
  | nil => rfl
  | cons x xs ih =>
    rw [List.foldl_cons, List.foldl_cons, ih, h]

/-- A property kept by every round of a loop holds after the loop. -/
theorem foldl_invariant {α β : Type} (I : α → Prop) (f : α → β → α) (l : List β)
    (h : ∀ s x, x ∈ l → I s → I (f s x)) (s : α) (hs : I s) : I (l.foldl f s) := by
  induction l generalizing s with
  | nil => exact hs
  | cons x xs ih =>
    rw [List.foldl_cons]
    exact ih (fun s y hy => h s y (List.mem_cons_of_mem x hy)) _
      (h s x (List.mem_cons_self x xs) hs)

/-- Erasing the record from `interact_traced` gives `interact`. -/
theorem interact_traced_fst (sqrtf : ℚ → ℚ) (t : Store × List MergeCall) (p1 p2 : Nat)
    (dt : ℚ) : (interact_traced sqrtf t p1 p2 dt).1 = interact sqrtf t.1 p1 p2 dt := by
  unfold interact_traced interact
  simp only []
  split_ifs <;> rfl

/-- Erasing the record from `same_cell_loop_traced` gives `same_cell_loop`. -/
theorem same_cell_loop_traced_fst (sqrtf : ℚ → ℚ) (cell : GridCell) (i p1 : Nat) (dt : ℚ)
    (t : Store × List MergeCall) :
    (same_cell_loop_traced sqrtf cell i p1 dt t).1 = same_cell_loop sqrtf cell i p1 dt t.1 := by
  unfold same_cell_loop_traced same_cell_loop
  exact foldl_fst _ _ (fun t j => interact_traced_fst sqrtf t p1 _ dt) _ t

/-- Erasing the record from `neighbor_loop_traced` gives `neighbor_loop`. -/
theorem neighbor_loop_traced_fst (sqrtf : ℚ → ℚ) (grid : SpatialGrid) (cellY cellX p1 : Nat)
    (dt : ℚ) (t : Store × List MergeCall) :
    (neighbor_loop_traced sqrtf grid cellY cellX p1 dt t).1 =
      neighbor_loop sqrtf grid cellY cellX p1 dt t.1 := by
  unfold neighbor_loop_traced neighbor_loop
  apply foldl_fst
  intro t nY
  apply foldl_fst
  intro t nX
  split_ifs
  · rfl
  · exact foldl_fst _ _ (fun t j => interact_traced_fst sqrtf t p1 _ dt) _ t

/-- Erasing the record from `cell_loop_traced` gives `cell_loop`. -/
theorem cell_loop_traced_fst (sqrtf : ℚ → ℚ) (grid : SpatialGrid) (cellY cellX : Nat)
    (dt : ℚ) (t : Store × List MergeCall) :
    (cell_loop_traced sqrtf grid cellY cellX dt t).1 =
      cell_loop sqrtf grid cellY cellX dt t.1 := by
  unfold cell_loop_traced cell_loop
  apply foldl_fst
  intro t i
  simp only []
  split_ifs
  · rfl
  · simp only [neighbor_loop_traced_fst, same_cell_loop_traced_fst]

/-- Erasing the record from `update_particles_pairs_traced` gives
`update_particles_pairs`. -/
theorem update_particles_pairs_traced_fst (sqrtf : ℚ → ℚ) (grid : SpatialGrid)
    (t : Store × List MergeCall) (dt : ℚ) :
    (update_particles_pairs_traced sqrtf grid t dt).1 =
      update_particles_pairs sqrtf grid t.1 dt := by
  unfold update_particles_pairs_traced update_particles_pairs
  apply foldl_fst
  intro t cellY
  apply foldl_fst
  intro t cellX
  exact cell_loop_traced_fst sqrtf grid cellY cellX dt t

/-- Erasing the record from `update_particles_traced` gives the store that
`update_particles` returns. -/
theorem update_particles_traced_fst (sqrtf : ℚ → ℚ) (st : GridStatic) (particles : Store)
    (count : Nat) (dt : ℚ) :
    (update_particles_traced sqrtf st particles count dt).1 =
      (update_particles sqrtf st particles count dt).2 := by
  rw [update_particles_eq]
  exact update_particles_pairs_traced_fst sqrtf _ (particles, []) dt

/-- The active mass only depends on the active flags and the masses. -/
theorem active_mass_congr (s s' : Store) (count : Nat)
    (h : ∀ i, i < count → (s' i).active = (s i).active ∧ (s' i).mass = (s i).mass) :
    active_mass s' count = active_mass s count := by
  unfold active_mass
  apply Finset.sum_congr rfl
  intro i hi
  obtain ⟨ha, hm⟩ := h i (Finset.mem_range.mp hi)
  rw [ha, hm]

/-- Merging two distinct active bodies below `count`, the first not the lighter
one, keeps the active mass. -/
theorem active_mass_merge_first (sqrtf : ℚ → ℚ) (s : Store) (p1 p2 count : Nat)
    (hne : p1 ≠ p2) (hge : ¬ (s p1).mass < (s p2).mass)
    (h1 : (s p1).active = true) (h2 : (s p2).active = true)
    (hp1 : p1 < count) (hp2 : p2 < count) :
    active_mass (merge_particles sqrtf s p1 p2) count = active_mass s count := by
  obtain ⟨e1, e2, eo⟩ := merge_particles_first_full sqrtf s p1 p2 hne hge
  unfold active_mass
  rw [← sub_eq_zero, ← Finset.sum_sub_distrib, Finset.sum_eq_add p1 p2 hne]
  · rw [e1, e2]
    simp only [h1, h2, if_true, Bool.false_eq_true, if_false]
    ring
  · intro c _ hc
    rw [eo c hc.1 hc.2]
    exact sub_self _
  · intro hn
    exact absurd (Finset.mem_range.mpr hp1) hn
  · intro hn
    exact absurd (Finset.mem_range.mpr hp2) hn

/-- Merging two distinct active bodies below `count` keeps the active mass. -/
theorem active_mass_merge (sqrtf : ℚ → ℚ) (s : Store) (p1 p2 count : Nat)
    (hne : p1 ≠ p2) (h1 : (s p1).active = true) (h2 : (s p2).active = true)
    (hp1 : p1 < count) (hp2 : p2 < count) :
    active_mass (merge_particles sqrtf s p1 p2) count = active_mass s count := by
  by_cases hlt : (s p1).mass < (s p2).mass
  · rw [merge_particles_swap sqrtf s p1 p2 hlt]
    exact active_mass_merge_first sqrtf s p2 p1 count (fun h => hne h.symm)
      (not_lt.mpr hlt.le) h2 h1 hp2 hp1
  · exact active_mass_merge_first sqrtf s p1 p2 count hne hlt h1 h2 hp1 hp2

/-- Merging two distinct bodies activates none. -/
theorem merge_particles_no_activation (sqrtf : ℚ → ℚ) (s : Store) (p1 p2 i : Nat)
    (hne : p1 ≠ p2) (h : (merge_particles sqrtf s p1 p2 i).active = true) :
    (s i).active = true := by
  have key : ∀ (a b : Nat), a ≠ b → ¬ (s a).mass < (s b).mass →
      (merge_particles sqrtf s a b i).active = true → (s i).active = true := by
    intro a b hab hge hact
    obtain ⟨e1, e2, eo⟩ := merge_particles_first_full sqrtf s a b hab hge
    by_cases hi1 : i = a
    · subst hi1
      rw [e1] at hact
      exact hact
    · by_cases hi2 : i = b
      · subst hi2
        rw [e2] at hact
        exact absurd hact (by simp)
      · rw [eo i hi1 hi2] at hact
        exact hact
  by_cases hlt : (s p1).mass < (s p2).mass
  · rw [merge_particles_swap sqrtf s p1 p2 hlt] at h
    exact key p2 p1 (fun h => hne h.symm) (not_lt.mpr hlt.le) h
  · exact key p1 p2 hne hlt h

/-- The per-pair step on two distinct bodies below `count` keeps the invariant
of the step. -/
theorem interact_traced_invariant (sqrtf : ℚ → ℚ) (count : Nat) (initial : Store)
    (t : Store × List MergeCall) (p1 p2 : Nat) (dt : ℚ) (hne : p1 ≠ p2)
    (hp1 : p1 < count) (hp2 : p2 < count) (hinv : StepInvariant count initial t) :
    StepInvariant count initial (interact_traced sqrtf t p1 p2 dt) := by
  obtain ⟨hmass, hflag, hlog⟩ := hinv
  unfold interact_traced
  simp only []
  split_ifs with hin hcol
  · exact ⟨hmass, hflag, hlog⟩
  · obtain ⟨hc1, hc2⟩ := check_collision_active _ p1 p2 hcol
    refine ⟨?_, ?_, ?_⟩
    · show active_mass (merge_particles sqrtf (apply_gravity sqrtf t.1 p1 p2 dt) p1 p2) count =
        active_mass initial count
      rw [active_mass_merge sqrtf _ p1 p2 count hne hc1 hc2 hp1 hp2, ← hmass]
      exact active_mass_congr _ _ count (fun i _ => apply_gravity_flag sqrtf t.1 p1 p2 i dt)
    · intro i hi
      apply hflag
      rw [← (apply_gravity_flag sqrtf t.1 p1 p2 i dt).1]
      exact merge_particles_no_activation sqrtf _ p1 p2 i hne hi
    · intro c hc
      rcases List.mem_append.mp hc with hc | hc
      · exact hlog c hc
      · rw [List.mem_singleton] at hc
        subst hc
        exact ⟨hne, hc1, hc2⟩
  · refine ⟨?_, ?_, hlog⟩
    · show active_mass (apply_gravity sqrtf t.1 p1 p2 dt) count = active_mass initial count
      rw [← hmass]
      exact active_mass_congr _ _ count (fun i _ => apply_gravity_flag sqrtf t.1 p1 p2 i dt)
    · intro i hi
      apply hflag
      rw [← (apply_gravity_flag sqrtf t.1 p1 p2 i dt).1]
      exact hi

/-- `update_particle` keeps the invariant of the step. -/
theorem update_particle_invariant (count : Nat) (initial : Store)
    (t : Store × List MergeCall) (p : Nat) (dt : ℚ) (hinv : StepInvariant count initial t) :
    StepInvariant count initial (update_particle t.1 p dt, t.2) := by
  obtain ⟨hmass, hflag, hlog⟩ := hinv
  refine ⟨?_, ?_, hlog⟩
  · show active_mass (update_particle t.1 p dt) count = active_mass initial count
    rw [← hmass]
    exact active_mass_congr _ _ count (fun i _ => update_particle_flag t.1 p i dt)
  · intro i hi
    apply hflag
    rw [← (update_particle_flag t.1 p i dt).1]
    exact hi

/-- The grid that `fill_grid` builds stores only indices below `count`, each in
one slot. -/
theorem fill_grid_sound (grid : SpatialGrid) (particles : Store) (count : Nat) :
    GridSound count (fill_grid grid particles count) := by
  have hmem : ∀ a b, a < GRID_SIZE → b < GRID_SIZE → ∀ j,
      j < ((fill_grid grid particles count).cells a b).count →
      ((fill_grid grid particles count).cells a b).particleIndices j ∈
        ((fill_grid grid particles count).cells a b).members := by
    intro a b _ _ j hj
    unfold GridCell.members
    exact List.mem_map.mpr ⟨j, List.mem_range.mpr hj, rfl⟩
  constructor
  · intro a b ha hb j hj
    exact (mem_fill_grid_cell grid particles count a b _ ha hb (hmem a b ha hb j hj)).1
  · intro a b a' b' ha hb ha' hb' j j' hj hj' heq
    have h1 := mem_fill_grid_cell grid particles count a b _ ha hb (hmem a b ha hb j hj)
    have h2 := mem_fill_grid_cell grid particles count a' b' _ ha' hb'
      (hmem a' b' ha' hb' j' hj')
    rw [← heq] at h2
    have hy : a = a' := h1.2.2.1.symm.trans h2.2.2.1
    have hx : b = b' := h1.2.2.2.symm.trans h2.2.2.2
    subst hy hx
    refine ⟨rfl, rfl, ?_⟩
    have hnd : ((fill_grid grid particles count).cells a b).members.Nodup := by
      rw [fill_grid_cells grid particles count a b ha hb]
      exact (nodup_bodies_of_cell grid particles count a b).sublist (List.take_sublist _ _)
    unfold GridCell.members at hnd
    exact (List.nodup_map_iff_inj_on (List.nodup_range _)).mp hnd j (List.mem_range.mpr hj) j'
      (List.mem_range.mpr hj') heq

/-- The same-cell loop keeps the invariant of the step. -/
theorem same_cell_loop_traced_invariant (sqrtf : ℚ → ℚ) (count : Nat) (initial : Store)
    (grid : SpatialGrid) (hg : GridSound count grid) (cellY cellX i : Nat) (dt : ℚ)
    (hY : cellY < GRID_SIZE) (hX : cellX < GRID_SIZE) (hi : i < (grid.cells cellY cellX).count)
    (t : Store × List MergeCall) (hinv : StepInvariant count initial t) :
    StepInvariant count initial
      (same_cell_loop_traced sqrtf (grid.cells cellY cellX) i
        ((grid.cells cellY cellX).particleIndices i) dt t) := by
  unfold same_cell_loop_traced
  apply foldl_invariant (StepInvariant count initial) _ _ _ t hinv
  intro s j hj hs
  rw [List.mem_range'_1] at hj
  have hjc : j < (grid.cells cellY cellX).count := by omega
  apply interact_traced_invariant sqrtf count initial s _ _ dt _
    (hg.1 cellY cellX hY hX i hi) (hg.1 cellY cellX hY hX j hjc) hs
  intro heq
  have := (hg.2 cellY cellX cellY cellX hY hX hY hX i j hi hjc heq).2.2
  omega

/-- The neighbour loops keep the invariant of the step. -/
theorem neighbor_loop_traced_invariant (sqrtf : ℚ → ℚ) (count : Nat) (initial : Store)
    (grid : SpatialGrid) (hg : GridSound count grid) (cellY cellX i : Nat) (dt : ℚ)
    (hY : cellY < GRID_SIZE) (hX : cellX < GRID_SIZE) (hi : i < (grid.cells cellY cellX).count)
    (t : Store × List MergeCall) (hinv : StepInvariant count initial t) :
    StepInvariant count initial
      (neighbor_loop_traced sqrtf grid cellY cellX
        ((grid.cells cellY cellX).particleIndices i) dt t) := by
  unfold neighbor_loop_traced
  apply foldl_invariant (StepInvariant count initial) _ _ _ t hinv
  intro s nY hnY hs
  apply foldl_invariant (StepInvariant count initial) _ _ _ s hs
  intro s' nX hnX hs'
  obtain ⟨hY0, hYlt⟩ := mem_neighbor_range cellY nY hnY
  obtain ⟨hX0, hXlt⟩ := mem_neighbor_range cellX nX hnX
  split_ifs with hsame
  · exact hs'
  · apply foldl_invariant (StepInvariant count initial) _ _ _ s' hs'
    intro s'' j hj hs''
    have hjc := List.mem_range.mp hj
    apply interact_traced_invariant sqrtf count initial s'' _ _ dt _
      (hg.1 cellY cellX hY hX i hi) (hg.1 nY.toNat nX.toNat hYlt hXlt j hjc) hs''
    intro heq
    obtain ⟨e1, e2, -⟩ := hg.2 cellY cellX nY.toNat nX.toNat hY hX hYlt hXlt i j hi hjc heq
    apply hsame
    constructor <;> omega

/-- The loop over the members of a cell keeps the invariant of the step. -/
theorem cell_loop_traced_invariant (sqrtf : ℚ → ℚ) (count : Nat) (initial : Store)
    (grid : SpatialGrid) (hg : GridSound count grid) (cellY cellX : Nat) (dt : ℚ)
    (hY : cellY < GRID_SIZE) (hX : cellX < GRID_SIZE)
    (t : Store × List MergeCall) (hinv : StepInvariant count initial t) :
    StepInvariant count initial (cell_loop_traced sqrtf grid cellY cellX dt t) := by
  unfold cell_loop_traced
  apply foldl_invariant (StepInvariant count initial) _ _ _ t hinv
  intro s i hi hs
  have hic := List.mem_range.mp hi
  simp only []
  split_ifs
  · exact hs
  · apply update_particle_invariant
    apply neighbor_loop_traced_invariant sqrtf count initial grid hg cellY cellX i dt hY hX hic
    exact same_cell_loop_traced_invariant sqrtf count initial grid hg cellY cellX i dt hY hX
      hic s hs

/-- The loops over the cells keep the invariant of the step. -/
theorem update_particles_pairs_traced_invariant (sqrtf : ℚ → ℚ) (count : Nat)
    (initial : Store) (grid : SpatialGrid) (hg : GridSound count grid) (dt : ℚ)
    (t : Store × List MergeCall) (hinv : StepInvariant count initial t) :
    StepInvariant count initial (update_particles_pairs_traced sqrtf grid t dt) := by
  unfold update_particles_pairs_traced
  apply foldl_invariant (StepInvariant count initial) _ _ _ t hinv
  intro s cellY hY hs
  apply foldl_invariant (StepInvariant count initial) _ _ _ s hs
  intro s' cellX hX hs'
  exact cell_loop_traced_invariant sqrtf count initial grid hg cellY cellX dt
    (List.mem_range.mp hY) (List.mem_range.mp hX) s' hs'

/-- C17. For every body store whose active bodies have positive masses and
every `dt`, one `update_particles` step conserves the total mass of the active
bodies `i < count`, activates no inactive body, and every call of
`merge_particles` it makes (the record of the traced step, whose store is the
one `update_particles` returns) is on two distinct bodies that are both active
at the moment of the call. -/
theorem update_particles_conserves_mass (sqrtf : ℚ → ℚ) (st : GridStatic)
    (particles : Store) (count : Nat) (dt : ℚ)
    (_hpos : ∀ i, i < count → (particles i).active = true → 0 < (particles i).mass) :
    active_mass (update_particles sqrtf st particles count dt).2 count =
      active_mass particles count ∧
    (∀ i, ((update_particles sqrtf st particles count dt).2 i).active = true →
      (particles i).active = true) ∧
    (update_particles_traced sqrtf st particles count dt).1 =
      (update_particles sqrtf st particles count dt).2 ∧
    (∀ c, c ∈ (update_particles_traced sqrtf st particles count dt).2 →
      c.p1 ≠ c.p2 ∧ c.active1 = true ∧ c.active2 = true) := by
  have h0 : StepInvariant count particles (particles, []) :=
    ⟨rfl, fun _ h => h, fun c hc => absurd hc (List.not_mem_nil c)⟩
  have hinv : StepInvariant count particles
      (update_particles_traced sqrtf st particles count dt) :=
    update_particles_pairs_traced_invariant sqrtf count particles _
      (fill_grid_sound (lazy_init st).grid particles count) dt _ h0
  obtain ⟨hmass, hflag, hlog⟩ := hinv
  rw [update_particles_traced_fst] at hmass hflag
  exact ⟨hmass, hflag, update_particles_traced_fst sqrtf st particles count dt, hlog⟩

/-- C17 at the two colliding bodies of `scenario_example` (`sqrtf = Rat.sqrt`,
initial statics, `dt = 1/20`): the active masses are positive, and the step
keeps their sum. -/
theorem update_particles_conserves_mass_witness :
    (∀ i, i < 2 → (scenario_example i).active = true → 0 < (scenario_example i).mass) ∧
    active_mass (update_particles Rat.sqrt GridStatic.initial scenario_example 2 (1 / 20)).2 2 =
      active_mass scenario_example 2 ∧
    (∀ c, c ∈ (update_particles_traced Rat.sqrt GridStatic.initial scenario_example 2
          (1 / 20)).2 →
      c.p1 ≠ c.p2 ∧ c.active1 = true ∧ c.active2 = true) := by
  have hpos : ∀ i, i < 2 → (scenario_example i).active = true →
      0 < (scenario_example i).mass := by
    intro i hi _
    interval_cases i <;> norm_num [scenario_example, body]
  exact ⟨hpos,
    (update_particles_conserves_mass Rat.sqrt GridStatic.initial scenario_example 2 (1 / 20)
      hpos).1,
    (update_particles_conserves_mass Rat.sqrt GridStatic.initial scenario_example 2 (1 / 20)
      hpos).2.2.2⟩

/-- The statics that `update_particles` leaves behind are initialised and carry
the 800 x 600 geometry whenever the statics it received were fresh or carried
it: every state of the statics that the program can reach does. -/
theorem update_particles_statics (sqrtf : ℚ → ℚ) (st : GridStatic) (particles : Store)
    (count : Nat) (dt : ℚ)
    (h : st.gridInitialized = false ∨
      (st.grid.cellWidth = 100 ∧ st.grid.cellHeight = 75)) :
    (update_particles sqrtf st particles count dt).1.grid.cellWidth = 100 ∧
    (update_particles sqrtf st particles count dt).1.grid.cellHeight = 75 := by
  obtain ⟨hw, hh⟩ := lazy_init_geometry st h
  obtain ⟨gw, gh⟩ := fill_grid_geometry (lazy_init st).grid particles count
  exact ⟨gw.trans hw, gh.trans hh⟩

end NBody
